import Mathlib

/-!
Authentication and token lifecycle of the user-account service.

A shallow embedding of `internal/auth`, `internal/middleware/auth.go`,
`internal/tasks/token_cleanup.go`, `internal/email`, `internal/utils/random.go`, the
phone and password validators of `internal/validation/validator.go` and the construction of
the auth service in `cmd/api/main.go`.

Conventions of the embedding

* The PostgreSQL database reached through gorm is a value of type `World`: one list of
  rows per table (list order is primary-key order) and one sequence counter per table.
* Clock readings are whole Unix seconds (`Int`); one service call reads the clock once.
* JSON numbers inside token claims are exact integers (the `float64` detour of
  `encoding/json` is the identity on the integers it represents exactly).
* Third-party libraries (golang-jwt/jwt v4, x/crypto/bcrypt) are parameters collected in `Lib`;
  facts about them that a proof needs appear as hypotheses of that proof. The character
  classes of Go's `unicode` package are a parameter of the password validator (`Unicode`).
* A collaborator call (SQL statement, template rendering, SMTP delivery) may fail; which calls
  fail during one service call is given by `Env.fault`.
-/

namespace Auth

/-! ## Models (`internal/models`) -/

/-- Row of table `users` (`models.User`; of `gorm.Model` only the primary key is kept, no
code path deletes a user so `deleted_at` is always NULL). -/
structure User where
  ID : Nat
  Username : String
  Password : String
  Email : String
  Name : String
  Phone : String
  CCCD : String
  EmailVerified : Bool
  Avatar : String
deriving DecidableEq, Repr

/-- Row of table `verification_tokens` (`models.VerificationToken`). -/
structure VerificationToken where
  ID : Nat
  UserID : Nat
  Token : String
  ExpiresAt : Int
  CreatedAt : Int
deriving DecidableEq, Repr

/-- Row of table `password_reset_tokens` (`models.PasswordResetToken`). -/
structure PasswordResetToken where
  ID : Nat
  UserID : Nat
  Token : String
  ExpiresAt : Int
  CreatedAt : Int
deriving DecidableEq, Repr

/-- Row of table `blacklisted_tokens` (`models.BlacklistedToken`). -/
structure BlacklistedToken where
  ID : Nat
  Token : String
  UserID : Nat
  ExpiresAt : Int
  CreatedAt : Int
deriving DecidableEq, Repr

/-- Message handed to the SMTP dialer: envelope plus the data rendered into the template. -/
structure Mail where
  From : String
  To : String
  Subject : String
  Name : String
  URL : String
deriving DecidableEq, Repr

/-- Database tables, their id sequences, and the mails delivered so far. -/
structure World where
  users : List User
  verificationTokens : List VerificationToken
  passwordResetTokens : List PasswordResetToken
  blacklistedTokens : List BlacklistedToken
  userSeq : Nat
  verificationTokenSeq : Nat
  passwordResetTokenSeq : Nat
  blacklistedTokenSeq : Nat
  outbox : List Mail
deriving DecidableEq, Repr

/-! ## Environment of one call -/

/-- Collaborator calls that can fail. -/
inductive Op where
  | FindUserByEmail | FindUserByUsername | FindUserByCCCD | FindUserByID
  | CreateUser | UpdateUser
  | CreateVerificationToken | FindVerificationToken | DeleteVerificationToken | VerifyUser
  | DeleteOldPasswordResetTokens | CreatePasswordResetToken
  | FindPasswordResetToken | DeletePasswordResetToken
  | AddToBlacklist | IsBlacklisted
  | CleanupBlacklistedTokens | CleanupPasswordResetTokens
  | ParseTemplate | ExecuteTemplate | DialAndSend
deriving DecidableEq, Repr

/-- What one call observes of the outside: the clock, which collaborator calls fail (with the
text of the failure), the salt drawn by bcrypt and the bytes delivered by `crypto/rand`. -/
structure Env where
  now : Int
  fault : Op → Option String
  salt : Nat
  entropy : Nat → Nat

/-! ## Errors and results -/

/-- Bit set of `jwt.ValidationError.Errors`. -/
structure ValidationError where
  Malformed : Bool := false
  Unverifiable : Bool := false
  SignatureInvalid : Bool := false
  Expired : Bool := false
  IssuedAt : Bool := false
  NotValidYet : Bool := false
deriving DecidableEq, Repr

/-- Go `error` values that the service returns. -/
inductive Error where
  | New (msg : String)
  | Storage (msg : String)
  | Validation (e : ValidationError)
  | Bcrypt (msg : String)
deriving DecidableEq, Repr

/-- Outcome of a Go function: a value with a nil error, a non-nil error, or a run-time panic
(failed type assertion). -/
inductive Result (α : Type) where
  | ok (a : α)
  | err (e : Error)
  | panic (v : String)
deriving DecidableEq, Repr

/-! ## golang-jwt/jwt v4 (external library) -/

/-- Value of a claim after `encoding/json` decoding into `interface{}`: a number (`float64`),
or a value of another dynamic type. -/
inductive JVal where
  | num (n : Int)
  | str (s : String)
  | bool (b : Bool)
  | null
deriving DecidableEq, Repr

/-- Contents of `jwt.MapClaims`: the keys present with their values. -/
abbrev MapClaims := List (String × JVal)

/-- The three registered HMAC methods; all of them have Go type `*jwt.SigningMethodHMAC`. -/
inductive SigningMethodHMAC where
  | HS256 | HS384 | HS512
deriving DecidableEq, Repr

/-- Name of the method as written in the `alg` header. -/
def SigningMethodHMAC.Alg : SigningMethodHMAC → String
  | .HS256 => "HS256"
  | .HS384 => "HS384"
  | .HS512 => "HS512"

/-- Registered signing methods: the HMAC family, or one of the others (RSA, RSA-PSS, ECDSA,
EdDSA, none), whose Go type is not `*jwt.SigningMethodHMAC`. -/
inductive SigningMethod where
  | HMAC (m : SigningMethodHMAC)
  | Other (alg : String)
deriving DecidableEq, Repr

/-- Result of `jwt.GetSigningMethod`: the method registered under the name, if any. -/
def GetSigningMethod (alg : String) : Option SigningMethod :=
  if alg = "HS256" then some (.HMAC .HS256)
  else if alg = "HS384" then some (.HMAC .HS384)
  else if alg = "HS512" then some (.HMAC .HS512)
  else if alg ∈ ["RS256", "RS384", "RS512", "PS256", "PS384", "PS512",
      "ES256", "ES384", "ES512", "EdDSA", "none"] then some (.Other alg)
  else none

/-- Decoded segments of a compact token: the `alg` header when it is a string, the claims,
the signing string (first two segments) and the signature segment. -/
structure Parts where
  alg : Option String
  claims : MapClaims
  signingString : String
  signature : String
deriving DecidableEq, Repr

/-- Serialisation and MAC primitives of the JWT library (base64url, JSON, HMAC-SHA2).
`SignedString m key claims` is `jwt.NewWithClaims(m, claims).SignedString(key)`, `decode` splits
a compact token on the dots and decodes header and claims (none when malformed), and
`verify m key signingString signature` is `m.Verify(signingString, signature, key)` returning nil.
Signing with a byte-slice key under an HMAC method does not fail, so `SignedString` is total. -/
structure Wire where
  SignedString : SigningMethodHMAC → String → MapClaims → String
  decode : String → Option Parts
  verify : SigningMethodHMAC → String → String → String → Bool

/-- The library decodes the token it produced for these claims and accepts its signature. -/
def Wire.RoundTrip (w : Wire) (m : SigningMethodHMAC) (key : String) (c : MapClaims) : Prop :=
  ∃ ss sig, w.decode (w.SignedString m key c) = some ⟨some m.Alg, c, ss, sig⟩ ∧
    w.verify m key ss sig = true

/-- The parsed token handed to the key function and returned by `jwt.Parse`. -/
structure Token where
  Raw : String
  Method : SigningMethod
  Claims : MapClaims
  Signature : String
  Valid : Bool
deriving DecidableEq, Repr

/-- Check of `exp` by `MapClaims.VerifyExpiresAt(now, false)`: an absent or zero `exp` passes, a
number passes while the clock is before it, any other value fails. -/
def VerifyExpiresAt (m : MapClaims) (now : Int) : Bool :=
  match m.lookup "exp" with
  | none => true
  | some (.num e) => if e = 0 then true else decide (now < e)
  | some _ => false

/-- Check of `iat` by `MapClaims.VerifyIssuedAt(now, false)`. -/
def VerifyIssuedAt (m : MapClaims) (now : Int) : Bool :=
  match m.lookup "iat" with
  | none => true
  | some (.num i) => if i = 0 then true else decide (i ≤ now)
  | some _ => false

/-- Check of `nbf` by `MapClaims.VerifyNotBefore(now, false)`. -/
def VerifyNotBefore (m : MapClaims) (now : Int) : Bool :=
  match m.lookup "nbf" with
  | none => true
  | some (.num n) => if n = 0 then true else decide (n ≤ now)
  | some _ => false

/-- Outcome of `MapClaims.Valid()`: none when the claims are valid, else the error bits. -/
def MapClaims.Valid (m : MapClaims) (now : Int) : Option ValidationError :=
  let e : ValidationError :=
    { Expired := !VerifyExpiresAt m now, IssuedAt := !VerifyIssuedAt m now,
      NotValidYet := !VerifyNotBefore m now }
  if e.Expired || e.IssuedAt || e.NotValidYet then some e else none

/-- Signature check `token.Method.Verify(signingString, signature, key)` with a byte-slice key:
only the HMAC methods accept such a key. -/
def SigningMethod.Verify (w : Wire) (m : SigningMethod) (signingString signature key : String) :
    Bool :=
  match m with
  | .HMAC h => w.verify h key signingString signature
  | .Other _ => false

/-- Model of `jwt.Parse(tokenString, keyFunc)` with the default parser (v4.5): decode, look the
method up, ask the key function, verify the signature, validate the claims. -/
def Parse (w : Wire) (now : Int) (tokenString : String)
    (keyFunc : Token → Except String String) : Except ValidationError Token :=
  match w.decode tokenString with
  | none => .error { Malformed := true }
  | some p =>
    match p.alg with
    | none => .error { Unverifiable := true }
    | some alg =>
      match GetSigningMethod alg with
      | none => .error { Unverifiable := true }
      | some m =>
        let token : Token :=
          { Raw := tokenString, Method := m, Claims := p.claims, Signature := "", Valid := false }
        match keyFunc token with
        | .error _ => .error { Unverifiable := true }
        | .ok key =>
          if m.Verify w p.signingString p.signature key then
            match p.claims.Valid now with
            | some e => .error e
            | none => .ok { token with Signature := p.signature, Valid := true }
          else .error { SignatureInvalid := true }

/-- Type assertion `claims[key].(float64)`: the number, or a panic when the key is absent or
holds a value of another type. -/
def assertFloat64 (m : MapClaims) (key : String) : Option Int :=
  match m.lookup key with
  | some (.num n) => some n
  | _ => none

/-- Conversion `uint(f)` of an integral float (two's complement on 64 bits). -/
def toUint (n : Int) : Nat := (n % 2 ^ 64).toNat

/-! ## x/crypto/bcrypt (external library) -/

/-- The two functions of bcrypt the service calls: `GenerateFromPassword password salt` (cost
is the library's `DefaultCost`) and `CompareHashAndPassword hash password` returning nil. -/
structure Bcrypt where
  GenerateFromPassword : String → Nat → Except String String
  CompareHashAndPassword : String → String → Bool

/-- Contract of the hasher: a generated hash verifies against its password and is never the
password itself. -/
structure Bcrypt.Lawful (b : Bcrypt) : Prop where
  verifies : ∀ p salt h, b.GenerateFromPassword p salt = .ok h → b.CompareHashAndPassword h p = true
  oneWay : ∀ p salt h, b.GenerateFromPassword p salt = .ok h → h ≠ p

/-- Third-party libraries the service is linked against. -/
structure Lib where
  jwt : Wire
  bcrypt : Bcrypt

/-! ## Standard-library helpers -/

/-- Pieces of a character list between the occurrences of a separator (never empty). -/
def splitChars (sep : Char) : List Char → List (List Char)
  | [] => [[]]
  | c :: cs =>
    match splitChars sep cs with
    | [] => [[]]
    | p :: ps => if c = sep then [] :: p :: ps else (c :: p) :: ps

/-- Model of `strings.Split(s, " ")`. -/
def Split (s : String) : List String :=
  (splitChars ' ' s.data).map String.mk

/-- Alphabet of `base64.URLEncoding`. -/
def encodeURL : List Char :=
  "ABCDEFGHIJKLMNOPQRSTUVWXYZabcdefghijklmnopqrstuvwxyz0123456789-_".data

/-- Character of the URL alphabet for a 6-bit value. -/
def encodeURLChar (n : Nat) : Char := encodeURL.getD (n % 64) 'A'

/-- Model of `base64.URLEncoding.EncodeToString` on a list of bytes (padded with `=`). -/
def EncodeToString : List Nat → List Char
  | [] => []
  | [a] => [encodeURLChar (a / 4), encodeURLChar (a % 4 * 16), '=', '=']
  | [a, b] =>
    [encodeURLChar (a / 4), encodeURLChar (a % 4 * 16 + b / 16), encodeURLChar (b % 16 * 4), '=']
  | a :: b :: c :: rest =>
    encodeURLChar (a / 4) :: encodeURLChar (a % 4 * 16 + b / 16) ::
      encodeURLChar (b % 16 * 4 + c / 64) :: encodeURLChar (c % 64) :: EncodeToString rest

/-- Bytes written by `rand.Read` into a slice of the given length. -/
def randRead (env : Env) (length : Nat) : List Nat :=
  (List.range length).map (fun i => env.entropy i % 256)

/-- Model of `utils.GenerateRandomString`: the first `length` characters of the URL-safe base64
encoding of `length` random bytes. -/
def GenerateRandomString (env : Env) (length : Nat) : String :=
  String.mk ((EncodeToString (randRead env length)).take length)

/-! ## Email service (`internal/email`) -/

/-- Configuration of the email service (`email.Config`). -/
structure EmailConfig where
  Host : String
  Port : Nat
  Username : String
  Password : String
  From : String
  AppURL : String
deriving DecidableEq, Repr

/-- Rendering of a template and delivery by the SMTP dialer, shared by both kinds of mail. -/
def renderAndSend (env : Env) (w : World) (m : Mail) : Except Error Unit × World :=
  match env.fault .ParseTemplate with
  | some e => (.error (.New ("failed to parse email template: " ++ e)), w)
  | none =>
    match env.fault .ExecuteTemplate with
    | some e => (.error (.New ("failed to execute email template: " ++ e)), w)
    | none =>
      match env.fault .DialAndSend with
      | some e => (.error (.New ("failed to send email: " ++ e)), w)
      | none => (.ok (), { w with outbox := w.outbox ++ [m] })

/-- Model of `EmailService.SendVerificationEmail(to, name, token)`. -/
def SendVerificationEmail (cfg : EmailConfig) (env : Env) (w : World) (toAddr name token : String) :
    Except Error Unit × World :=
  if toAddr = "" then (.error (.New "recipient email address is empty"), w)
  else if cfg.From = "" then (.error (.New "sender email address is empty"), w)
  else
    let verificationURL := cfg.AppURL ++ "/api/auth/verify-email?token=" ++ token
    renderAndSend env w
      { From := cfg.From, To := toAddr, Subject := "Xác thực tài khoản Dating Text App",
        Name := name, URL := verificationURL }

/-- Model of `EmailService.SendPasswordResetEmail(to, name, resetToken)`. -/
def SendPasswordResetEmail (cfg : EmailConfig) (env : Env) (w : World)
    (toAddr name resetToken : String) : Except Error Unit × World :=
  if toAddr = "" then (.error (.New "recipient email address is empty"), w)
  else if cfg.From = "" then (.error (.New "sender email address is empty"), w)
  else
    let resetURL := cfg.AppURL ++ "/reset-password?token=" ++ resetToken
    renderAndSend env w
      { From := cfg.From, To := toAddr, Subject := "Đặt lại mật khẩu Dating Text App",
        Name := name, URL := resetURL }

/-! ## Repositories (`internal/auth/repository.go`, `internal/auth/token_repository.go`) -/

/-- Model of `PostgresRepository.FindUserByUsername`: first row with that username, nil when
there is none, an error when the query fails. -/
def FindUserByUsername (env : Env) (w : World) (username : String) : Except Error (Option User) :=
  match env.fault .FindUserByUsername with
  | some e => .error (.Storage e)
  | none => .ok (w.users.find? (fun u => u.Username = username))

/-- Model of `PostgresRepository.FindUserByEmail`. -/
def FindUserByEmail (env : Env) (w : World) (email : String) : Except Error (Option User) :=
  match env.fault .FindUserByEmail with
  | some e => .error (.Storage e)
  | none => .ok (w.users.find? (fun u => u.Email = email))

/-- Model of `PostgresRepository.FindUserByCCCD`. -/
def FindUserByCCCD (env : Env) (w : World) (cccd : String) : Except Error (Option User) :=
  match env.fault .FindUserByCCCD with
  | some e => .error (.Storage e)
  | none => .ok (w.users.find? (fun u => u.CCCD = cccd))

/-- Model of `PostgresRepository.FindUserByID`. -/
def FindUserByID (env : Env) (w : World) (id : Nat) : Except Error (Option User) :=
  match env.fault .FindUserByID with
  | some e => .error (.Storage e)
  | none => .ok (w.users.find? (fun u => u.ID = id))

/-- Model of `PostgresRepository.CreateUser`: the insert draws the primary key from the sequence
when the record carries none, and is refused when the primary key or one of the three unique
indexes (username, email, cccd) is already taken. Returns the record with its key filled in. -/
def CreateUser (env : Env) (w : World) (user : User) : Except Error User × World :=
  match env.fault .CreateUser with
  | some e => (.error (.Storage e), w)
  | none =>
    let id := if user.ID = 0 then w.userSeq + 1 else user.ID
    let w1 := if user.ID = 0 then { w with userSeq := w.userSeq + 1 } else w
    if w.users.any (fun u => decide (u.ID = id) || decide (u.Username = user.Username) ||
        decide (u.Email = user.Email) || decide (u.CCCD = user.CCCD)) then
      (.error (.Storage "duplicate key value violates unique constraint"), w1)
    else
      (.ok { user with ID := id }, { w1 with users := w.users ++ [{ user with ID := id }] })

/-- Model of `PostgresRepository.CreateVerificationToken`. -/
def CreateVerificationToken (env : Env) (w : World) (t : VerificationToken) : Except Error Unit × World :=
  match env.fault .CreateVerificationToken with
  | some e => (.error (.Storage e), w)
  | none =>
    let id := if t.ID = 0 then w.verificationTokenSeq + 1 else t.ID
    let w1 := if t.ID = 0 then { w with verificationTokenSeq := w.verificationTokenSeq + 1 } else w
    if w.verificationTokens.any (fun x => decide (x.ID = id)) then
      (.error (.Storage "duplicate key value violates unique constraint"), w1)
    else
      (.ok (), { w1 with
        verificationTokens := w.verificationTokens ++ [{ t with ID := id, CreatedAt := env.now }] })

/-- Model of `PostgresTokenRepository.AddToBlacklist`: insert one row; the unique index on the
token column refuses a token that is already listed. -/
def AddToBlacklist (env : Env) (w : World) (token : String) (userID : Nat) (expiresAt : Int) :
    Except Error Unit × World :=
  match env.fault .AddToBlacklist with
  | some e => (.error (.Storage e), w)
  | none =>
    let w1 := { w with blacklistedTokenSeq := w.blacklistedTokenSeq + 1 }
    if w.blacklistedTokens.any (fun b => decide (b.ID = w.blacklistedTokenSeq + 1) ||
        decide (b.Token = token)) then
      (.error (.Storage "duplicate key value violates unique constraint"), w1)
    else
      (.ok (), { w1 with blacklistedTokens := w.blacklistedTokens ++
        [{ ID := w.blacklistedTokenSeq + 1, Token := token, UserID := userID,
           ExpiresAt := expiresAt, CreatedAt := env.now }] })

/-- Model of `PostgresTokenRepository.IsBlacklisted`: whether the count of rows with that token
is positive. -/
def IsBlacklisted (env : Env) (w : World) (token : String) : Except Error Bool :=
  match env.fault .IsBlacklisted with
  | some e => .error (.Storage e)
  | none => .ok (decide ((w.blacklistedTokens.filter (fun b => b.Token = token)).length > 0))

/-- Model of `tasks.CleanupBlacklistedTokens`: delete the rows whose recorded expiry is strictly
before the current time; a failing statement is only logged. -/
def CleanupBlacklistedTokens (env : Env) (w : World) : World :=
  match env.fault .CleanupBlacklistedTokens with
  | some _ => w
  | none =>
    { w with blacklistedTokens := w.blacklistedTokens.filter (fun b => !decide (b.ExpiresAt < env.now)) }

/-! ## Auth service (`internal/auth/service.go`) -/

/-- Configuration of the auth service (`auth.Config`). -/
structure Config where
  JWTSecret : String
  JWTExpirationHours : Int
  EmailVerificationRequired : Bool
  AppURL : String
deriving DecidableEq, Repr

/-- The service value built by `NewAuthService`; its two repositories are the tables of `World`. -/
structure AuthService where
  jwtSecret : String
  emailService : EmailConfig
  config : Config
deriving DecidableEq, Repr

/-- Model of `NewAuthService(repo, jwtSecret, emailService, config, tokenRepo)`. -/
def NewAuthService (jwtSecret : String) (emailService : EmailConfig) (config : Config) :
    AuthService :=
  { jwtSecret := jwtSecret, emailService := emailService, config := config }

/-- Wrap-around of a 64-bit signed integer. -/
def wrapInt64 (n : Int) : Int := (n + 2 ^ 63) % 2 ^ 64 - 2 ^ 63

/-- Seconds read by `time.Now().Add(d).Unix()` for a duration `d` in nanoseconds. -/
def addUnix (now d : Int) : Int := now + d / 1000000000

/-- Nanoseconds in `time.Hour`. -/
def Hour : Int := 3600000000000

/-- Model of `AuthService.Register`; returns the error, the candidate record as the call leaves
it, and the new state. -/
def Register (lib : Lib) (s : AuthService) (env : Env) (w : World) (user : User) :
    Except Error Unit × User × World :=
  match FindUserByUsername env w user.Username with
  | .error e => (.error e, user, w)
  | .ok (some _) => (.error (.New "username already exists"), user, w)
  | .ok none =>
  match FindUserByEmail env w user.Email with
  | .error e => (.error e, user, w)
  | .ok (some _) => (.error (.New "email already exists"), user, w)
  | .ok none =>
  match (if user.CCCD ≠ "" then FindUserByCCCD env w user.CCCD else .ok none) with
  | .error e => (.error e, user, w)
  | .ok (some _) => (.error (.New "cccd already exists"), user, w)
  | .ok none =>
  match lib.bcrypt.GenerateFromPassword user.Password env.salt with
  | .error e => (.error (.Bcrypt e), user, w)
  | .ok hashedPassword =>
  let user1 := { user with Password := hashedPassword }
  match CreateUser env w user1 with
  | (.error e, w1) => (.error e, user1, w1)
  | (.ok user2, w1) =>
  if s.config.EmailVerificationRequired then
    let token := GenerateRandomString env 32
    let expiresAt := addUnix env.now (24 * Hour)
    let verificationToken : VerificationToken :=
      { ID := 0, UserID := user2.ID, Token := token, ExpiresAt := expiresAt, CreatedAt := 0 }
    match CreateVerificationToken env w1 verificationToken with
    | (.error _, w2) => (.ok (), user2, w2)
    | (.ok _, w2) =>
      match SendVerificationEmail s.emailService env w2 user2.Email user2.Name token with
      | (.error _, w3) => (.ok (), user2, w3)
      | (.ok _, w3) => (.ok (), user2, w3)
  else (.ok (), user2, w1)

/-- Model of `AuthService.generateJWT`: HS256 token with claims `user_id` and `exp`, signed with
the `jwtSecret` field. -/
def generateJWT (lib : Lib) (s : AuthService) (env : Env) (user : User) : String :=
  let claims : MapClaims :=
    [("user_id", .num user.ID),
     ("exp", .num (addUnix env.now (wrapInt64 (Hour * s.config.JWTExpirationHours))))]
  lib.jwt.SignedString .HS256 s.jwtSecret claims

/-- Model of `AuthService.Login`. -/
def Login (lib : Lib) (s : AuthService) (env : Env) (w : World) (username password : String) :
    Except Error (User × String) :=
  match FindUserByUsername env w username with
  | .error e => .error e
  | .ok none => .error (.New "invalid username or password")
  | .ok (some user) =>
    if !lib.bcrypt.CompareHashAndPassword user.Password password then
      .error (.New "invalid username or password")
    else if s.config.EmailVerificationRequired && !user.EmailVerified then
      .error (.New "email not verified")
    else .ok (user, generateJWT lib s env user)

/-- Model of `AuthService.GenerateToken`: HS256 token expiring after seven days. -/
def GenerateToken (lib : Lib) (s : AuthService) (env : Env) (userID : Nat) : String :=
  let claims : MapClaims :=
    [("user_id", .num userID), ("exp", .num (addUnix env.now (Hour * 24 * 7)))]
  lib.jwt.SignedString .HS256 s.jwtSecret claims

/-- The key function passed to `jwt.Parse` at all three call sites (VerifyToken, Logout,
AuthMiddleware): it accepts a token whose method has type `*jwt.SigningMethodHMAC` and hands out
the secret. The text of its error, which alone differs between the call sites, is dropped by
the parser. -/
def keyFunc (secret : String) (token : Token) : Except String String :=
  match token.Method with
  | .HMAC _ => .ok secret
  | .Other _ => .error "unexpected signing method"

/-- Model of `AuthService.VerifyToken`. -/
def VerifyToken (lib : Lib) (s : AuthService) (env : Env) (tokenString : String) : Result Nat :=
  match Parse lib.jwt env.now tokenString (keyFunc s.jwtSecret) with
  | .error e => .err (.Validation e)
  | .ok token =>
    if token.Valid then
      match assertFloat64 token.Claims "user_id" with
      | none => .panic "interface conversion: interface \x7b\x7d is not float64"
      | some userID => .ok (toUint userID)
    else .err (.New "invalid token")

/-- Model of `AuthService.Logout`; the key comes from `config.JWTSecret`, and `int64(f)` is the
identity on the integral `exp` values of the model. -/
def Logout (lib : Lib) (s : AuthService) (env : Env) (w : World) (tokenString : String) :
    Result Unit × World :=
  match Parse lib.jwt env.now tokenString (keyFunc s.config.JWTSecret) with
  | .error _ => (.err (.New "invalid token"), w)
  | .ok token =>
    if token.Valid then
      match assertFloat64 token.Claims "user_id" with
      | none => (.panic "interface conversion: interface \x7b\x7d is not float64", w)
      | some userID =>
        match assertFloat64 token.Claims "exp" with
        | none => (.panic "interface conversion: interface \x7b\x7d is not float64", w)
        | some exp =>
          match AddToBlacklist env w tokenString (toUint userID) exp with
          | (.error e, w1) => (.err e, w1)
          | (.ok _, w1) => (.ok (), w1)
    else (.err (.New "invalid token"), w)

/-! ## Authorization middleware (`internal/middleware/auth.go`) -/

/-- JSON body written by `utils.RespondWithError`. -/
structure ErrorResponse where
  Status : String
  Message : String
deriving DecidableEq, Repr

/-- What the middleware has done to the request context. -/
structure Context where
  status : Option Nat
  body : Option ErrorResponse
  aborted : Bool
  userID : Option Nat
  nextCalled : Bool
deriving DecidableEq, Repr

/-- A context nothing has been written to. -/
def Context.fresh : Context :=
  { status := none, body := none, aborted := false, userID := none, nextCalled := false }

/-- Model of `utils.RespondWithError` followed by `c.Abort()`. -/
def respondAndAbort (c : Context) (code : Nat) (message : String) : Context :=
  { c with status := some code, body := some { Status := "error", Message := message },
           aborted := true }

/-- Model of the handler returned by `AuthMiddleware(jwtSecret, tokenRepo)`, run on a request
whose `Authorization` header is `authHeader`. -/
def AuthMiddleware (lib : Lib) (jwtSecret : String) (env : Env) (w : World) (authHeader : String)
    (c : Context) : Result Context :=
  if authHeader = "" then .ok (respondAndAbort c 401 "authorization header is required")
  else
    match Split authHeader with
    | [bearer, tokenString] =>
      if bearer ≠ "Bearer" then
        .ok (respondAndAbort c 401 "authorization header format must be Bearer \x7btoken\x7d")
      else
        match IsBlacklisted env w tokenString with
        | .error _ => .ok (respondAndAbort c 500 "failed to validate token")
        | .ok true => .ok (respondAndAbort c 401 "token has been revoked")
        | .ok false =>
          match Parse lib.jwt env.now tokenString (keyFunc jwtSecret) with
          | .error _ => .ok (respondAndAbort c 401 "invalid token")
          | .ok token =>
            if token.Valid then
              match assertFloat64 token.Claims "user_id" with
              | none => .panic "interface conversion: interface \x7b\x7d is not float64"
              | some userID => .ok { c with userID := some (toUint userID), nextCalled := true }
            else .ok (respondAndAbort c 401 "invalid token")
    | _ => .ok (respondAndAbort c 401 "authorization header format must be Bearer \x7btoken\x7d")

/-- A correctly signed session token of the shape the service issues: HS256 header, claims
`user_id = a` and `exp = e`, signature valid under `secret`. -/
def SignedSession (w : Wire) (secret : String) (t : String) (a : Nat) (e : Int) : Prop :=
  ∃ ss sig, w.decode t = some ⟨some "HS256", [("user_id", .num a), ("exp", .num e)], ss, sig⟩ ∧
    w.verify .HS256 secret ss sig = true

/-! ## Email verification and password reset -/

/-- Model of `PostgresRepository.UpdateUser` (`db.Save(user)`): a record without primary key is
inserted under the next key of the sequence; otherwise every column of the row with that key
is overwritten, and the record is inserted when no row has the key. A unique index already
taken by another row refuses the statement. -/
def UpdateUser (env : Env) (w : World) (user : User) : Except Error Unit × World :=
  match env.fault .UpdateUser with
  | some e => (.error (.Storage e), w)
  | none =>
    let id := if user.ID = 0 then w.userSeq + 1 else user.ID
    let w1 := if user.ID = 0 then { w with userSeq := w.userSeq + 1 } else w
    if w.users.any (fun u => decide (u.ID ≠ id) && (decide (u.Username = user.Username) ||
        decide (u.Email = user.Email) || decide (u.CCCD = user.CCCD))) then
      (.error (.Storage "duplicate key value violates unique constraint"), w1)
    else if w.users.any (fun u => decide (u.ID = id)) then
      if user.ID = 0 then
        (.error (.Storage "duplicate key value violates unique constraint"), w1)
      else (.ok (), { w with users := w.users.map (fun u => if u.ID = id then user else u) })
    else (.ok (), { w1 with users := w.users ++ [{ user with ID := id }] })

/-- Model of `PostgresRepository.FindVerificationToken`: first row with that token, nil when
there is none. -/
def FindVerificationToken (env : Env) (w : World) (token : String) :
    Except Error (Option VerificationToken) :=
  match env.fault .FindVerificationToken with
  | some e => .error (.Storage e)
  | none => .ok (w.verificationTokens.find? (fun v => v.Token = token))

/-- Model of `PostgresRepository.DeleteVerificationToken`: delete every row with that token. -/
def DeleteVerificationToken (env : Env) (w : World) (token : String) : Except Error Unit × World :=
  match env.fault .DeleteVerificationToken with
  | some e => (.error (.Storage e), w)
  | none =>
    (.ok (), { w with
      verificationTokens := w.verificationTokens.filter (fun v => !decide (v.Token = token)) })

/-- Model of `PostgresRepository.VerifyUser`: set `email_verified` on the rows with that key;
"user not found" when the update touches no row. -/
def VerifyUser (env : Env) (w : World) (userID : Nat) : Except Error Unit × World :=
  match env.fault .VerifyUser with
  | some e => (.error (.Storage e), w)
  | none =>
    if w.users.any (fun u => decide (u.ID = userID)) then
      (.ok (), { w with
        users := w.users.map (fun u => if u.ID = userID then { u with EmailVerified := true } else u) })
    else (.error (.New "user not found"), w)

/-- Model of `PostgresRepository.CreatePasswordResetToken`: a delete of the rows of that user
whose outcome is not looked at, then an insert (refused when the token, which is uniquely
indexed, or the next key is taken). -/
def CreatePasswordResetToken (env : Env) (w : World) (userID : Nat) (token : String)
    (expiresAt : Int) : Except Error Unit × World :=
  let w1 : World :=
    match env.fault .DeleteOldPasswordResetTokens with
    | some _ => w
    | none =>
      { w with
        passwordResetTokens := w.passwordResetTokens.filter (fun r => !decide (r.UserID = userID)) }
  match env.fault .CreatePasswordResetToken with
  | some e => (.error (.Storage e), w1)
  | none =>
    let w2 := { w1 with passwordResetTokenSeq := w1.passwordResetTokenSeq + 1 }
    if w1.passwordResetTokens.any (fun r => decide (r.ID = w1.passwordResetTokenSeq + 1) ||
        decide (r.Token = token)) then
      (.error (.Storage "duplicate key value violates unique constraint"), w2)
    else
      (.ok (), { w2 with passwordResetTokens := w1.passwordResetTokens ++
        [{ ID := w1.passwordResetTokenSeq + 1, UserID := userID, Token := token,
           ExpiresAt := expiresAt, CreatedAt := env.now }] })

/-- Model of `PostgresRepository.FindPasswordResetToken`. -/
def FindPasswordResetToken (env : Env) (w : World) (token : String) :
    Except Error (Option PasswordResetToken) :=
  match env.fault .FindPasswordResetToken with
  | some e => .error (.Storage e)
  | none => .ok (w.passwordResetTokens.find? (fun r => r.Token = token))

/-- Model of `PostgresRepository.DeletePasswordResetToken`: delete every row with that token. -/
def DeletePasswordResetToken (env : Env) (w : World) (token : String) :
    Except Error Unit × World :=
  match env.fault .DeletePasswordResetToken with
  | some e => (.error (.Storage e), w)
  | none =>
    (.ok (), { w with
      passwordResetTokens := w.passwordResetTokens.filter (fun r => !decide (r.Token = token)) })

/-- Model of `AuthService.VerifyEmail`. -/
def VerifyEmail (env : Env) (w : World) (token : String) : Except Error Unit × World :=
  match FindVerificationToken env w token with
  | .error e => (.error e, w)
  | .ok none => (.error (.New "invalid or expired token"), w)
  | .ok (some verificationToken) =>
    if env.now > verificationToken.ExpiresAt then (.error (.New "token has expired"), w)
    else
      match VerifyUser env w verificationToken.UserID with
      | (.error e, w1) => (.error e, w1)
      | (.ok _, w1) =>
        match DeleteVerificationToken env w1 token with
        | (.error e, w2) => (.error e, w2)
        | (.ok _, w2) => (.ok (), w2)

/-- Model of `AuthService.ForgotPassword`: the link built here is what is handed to the email
service as its third argument. -/
def ForgotPassword (s : AuthService) (env : Env) (w : World) (email : String) :
    Except Error Unit × World :=
  match FindUserByEmail env w email with
  | .error e => (.error e, w)
  | .ok none => (.error (.New "user not found"), w)
  | .ok (some user) =>
    let token := GenerateRandomString env 32
    let expiresAt := addUnix env.now (24 * Hour)
    match CreatePasswordResetToken env w user.ID token expiresAt with
    | (.error e, w1) => (.error e, w1)
    | (.ok _, w1) =>
      let resetLink := s.config.AppURL ++ "/reset-password?token=" ++ token
      match SendPasswordResetEmail s.emailService env w1 user.Email user.Name resetLink with
      | (.error e, w2) => (.error e, w2)
      | (.ok _, w2) => (.ok (), w2)

/-- Model of `AuthService.ResetPassword`. -/
def ResetPassword (lib : Lib) (env : Env) (w : World) (token newPassword : String) :
    Except Error Unit × World :=
  match FindPasswordResetToken env w token with
  | .error e => (.error e, w)
  | .ok none => (.error (.New "invalid or expired token"), w)
  | .ok (some resetToken) =>
    if env.now > resetToken.ExpiresAt then (.error (.New "token has expired"), w)
    else
      match FindUserByID env w resetToken.UserID with
      | .error e => (.error e, w)
      | .ok none => (.error (.New "user not found"), w)
      | .ok (some user) =>
        match lib.bcrypt.GenerateFromPassword newPassword env.salt with
        | .error e => (.error (.Bcrypt e), w)
        | .ok hashedPassword =>
          match UpdateUser env w { user with Password := hashedPassword } with
          | (.error e, w1) => (.error e, w1)
          | (.ok _, w1) =>
            match DeletePasswordResetToken env w1 token with
            | (.error e, w2) => (.error e, w2)
            | (.ok _, w2) => (.ok (), w2)

/-! ## HTTP handlers (`internal/auth/handler.go`) -/

/-- Status code and JSON body written by `utils.RespondWithSuccess` with nil data. -/
structure Response where
  code : Nat
  Status : String
  Message : String
deriving DecidableEq, Repr

/-- Model of `utils.RespondWithSuccess(c, code, message, nil)`. -/
def RespondWithSuccess (code : Nat) (message : String) : Response :=
  { code := code, Status := "success", Message := message }

/-- Request body of the forgot-password endpoint (`ForgotPasswordRequest`). -/
structure ForgotPasswordRequest where
  Email : String
deriving DecidableEq, Repr

/-- Model of `Handler.ForgotPassword` on a request whose body has passed `ShouldBindJSON`
(the email is present and well formed). -/
def Handler.ForgotPassword (s : AuthService) (env : Env) (w : World)
    (req : ForgotPasswordRequest) : Response × World :=
  match Auth.ForgotPassword s env w req.Email with
  | (.error _, w1) =>
    (RespondWithSuccess 200
      "If your email is registered, you will receive a password reset link", w1)
  | (.ok _, w1) =>
    (RespondWithSuccess 200 "Password reset link has been sent to your email", w1)

/-! ## Registration request (`internal/auth/handler.go`) -/

/-- Request body of the register endpoint (`RegisterRequest`). -/
structure RegisterRequest where
  Username : String
  Email : String
  Password : String
  ConfirmPassword : String
  Name : String
  Phone : String
  CCCD : String
deriving DecidableEq, Repr

/-- The `models.User` literal that `Handler.Register` builds from a bound request and hands to
the service: the fields it does not list (`ID`, `EmailVerified`, `Avatar`) keep their zero
values. -/
def RegisterRequest.user (req : RegisterRequest) : User :=
  { ID := 0, Username := req.Username, Password := req.Password, Email := req.Email,
    Name := req.Name, Phone := req.Phone, CCCD := req.CCCD, EmailVerified := false,
    Avatar := "" }

/-! ## Custom validators (`internal/validation/validator.go`) -/

/-- Members of the bracket expression `[3|5|7|8|9]` of the phone pattern: between brackets the
bar is an ordinary character, so it belongs to the class. -/
def phoneClass : List Char := ['3', '|', '5', '7', '8', '9']

/-- The part `[0-9]{8,9}$` of the phone pattern: eight or nine ASCII digits, then the end of the
text. -/
def phoneDigits (cs : List Char) : Bool :=
  (cs.length == 8 || cs.length == 9) && cs.all (fun c => decide ('0' ≤ c) && decide (c ≤ '9'))

/-- The part `[3|5|7|8|9][0-9]{8,9}$` of the phone pattern. -/
def phoneBody : List Char → Bool
  | [] => false
  | c :: rest => phoneClass.contains c && phoneDigits rest

/-- Model of the validator registered under the tag `phone`: whether the whole field matches
`^(\+84|0)[3|5|7|8|9][0-9]{8,9}$`. -/
def phone (field : String) : Bool :=
  match field.data with
  | '+' :: '8' :: '4' :: rest => phoneBody rest
  | '0' :: rest => phoneBody rest
  | _ => false

/-- The predicates of Go's `unicode` package that the password validator consults. -/
structure Unicode where
  IsUpper : Char → Bool
  IsLower : Char → Bool
  IsNumber : Char → Bool
  IsPunct : Char → Bool
  IsSymbol : Char → Bool

/-- The four flags the password validator collects. -/
structure PasswordFlags where
  hasUpper : Bool
  hasLower : Bool
  hasNumber : Bool
  hasSpecial : Bool
deriving DecidableEq, Repr

/-- One round of the loop of the password validator: the first case of the `switch` that
applies to the character sets its flag. -/
def passwordStep (u : Unicode) (f : PasswordFlags) (char : Char) : PasswordFlags :=
  if u.IsUpper char then { f with hasUpper := true }
  else if u.IsLower char then { f with hasLower := true }
  else if u.IsNumber char then { f with hasNumber := true }
  else if u.IsPunct char || u.IsSymbol char then { f with hasSpecial := true }
  else f

/-- Model of the validator registered under the tag `strongpassword`: `len(password)` is the
length in bytes, the loop runs over the characters, and the result asks for three of the four
kinds of character. -/
def strongpassword (u : Unicode) (password : String) : Bool :=
  if password.utf8ByteSize < 8 then false
  else
    let f := password.data.foldl (passwordStep u)
      { hasUpper := false, hasLower := false, hasNumber := false, hasSpecial := false }
    (f.hasUpper && f.hasLower && f.hasNumber) || (f.hasUpper && f.hasLower && f.hasSpecial) ||
      (f.hasUpper && f.hasNumber && f.hasSpecial) || (f.hasLower && f.hasNumber && f.hasSpecial)

/-- The character class `[A-Za-z0-9_-]`. -/
def isURLSafe (c : Char) : Bool :=
  c.isAlphanum || c == '-' || c == '_'

/-! ## Wiring of the service (`cmd/api/main.go`, `internal/config`) -/

/-- The fields of the application configuration (`config.Config`) that `main` hands to the
auth service. -/
structure AppConfig where
  JWTSecret : String
  JWTExpirationHours : Int
  EmailVerificationRequired : Bool
deriving DecidableEq, Repr

/-- The auth service as `main` builds it, the only call of `NewAuthService` in the program:
`cfg.JWTSecret` is passed as the `jwtSecret` argument and again inside `auth.Config`, whose
`AppURL` is left empty. -/
def mainAuthService (cfg : AppConfig) (emailService : EmailConfig) : AuthService :=
  NewAuthService cfg.JWTSecret emailService
    { JWTSecret := cfg.JWTSecret, JWTExpirationHours := cfg.JWTExpirationHours,
      EmailVerificationRequired := cfg.EmailVerificationRequired, AppURL := "" }

/-! ## Histories of the blacklist -/

/-- A call that may run between a logout and a later request: a cleanup sweep, a logout of
any token, or a registration (the calls that write to the database tables modelled here). -/
inductive Event where
  | cleanup (env : Env)
  | logout (env : Env) (tokenString : String)
  | register (env : Env) (user : User)

/-- Environment in which the call of an event runs. -/
def Event.env : Event → Env
  | .cleanup env => env
  | .logout env _ => env
  | .register env _ => env

/-- State after one event. -/
def step (lib : Lib) (s : AuthService) (w : World) : Event → World
  | .cleanup env => CleanupBlacklistedTokens env w
  | .logout env tokenString => (Logout lib s env w tokenString).2
  | .register env user => (Register lib s env w user).2.2

/-- State after a sequence of events, oldest first. -/
def run (lib : Lib) (s : AuthService) (w : World) (events : List Event) : World :=
  events.foldl (step lib s) w

/-! ## Sample data used to exercise the model -/

/-- Header and payload segments of the HS256 sample token: base64url of
`{"alg":"HS256","typ":"JWT"}` and of `{"exp":2000000000,"user_id":7}`. -/
def signingHS256 : String :=
  "eyJhbGciOiJIUzI1NiIsInR5cCI6IkpXVCJ9.eyJleHAiOjIwMDAwMDAwMDAsInVzZXJfaWQiOjd9"

/-- Header and payload segments of the HS384 sample token (same claims). -/
def signingHS384 : String :=
  "eyJhbGciOiJIUzM4NCIsInR5cCI6IkpXVCJ9.eyJleHAiOjIwMDAwMDAwMDAsInVzZXJfaWQiOjd9"

/-- HMAC-SHA256 of `signingHS256` under the key `s3cret`, base64url. -/
def macHS256 : String := "X4YQz0o3K6WlnmDAKYz__OI-WjZ4CA680zlf8qAT27A"

/-- HMAC-SHA384 of `signingHS384` under the key `s3cret`, base64url. -/
def macHS384 : String := "xqK1TPOqKY51RSwQysSA6mDkc92zD-4KNB7d12WYylRlUX4TVfW_yEkJWWfEPKrv"

/-- HMAC-SHA256 of `signingHS256` under the key `other`, base64url. -/
def macOther : String := "gFNSiTzI58HH9UQov4ahVm3t7C0WbwNcR5ZLQjcGnAA"

/-- Header and payload segments of the unsigned sample token: base64url of
`{"alg":"none","typ":"JWT"}` and of the same claims. -/
def signingNone : String :=
  "eyJhbGciOiJub25lIiwidHlwIjoiSldUIn0.eyJleHAiOjIwMDAwMDAwMDAsInVzZXJfaWQiOjd9"

/-- Compact HS256 token for claims `exp = 2000000000`, `user_id = 7` under the key `s3cret`. -/
def tokenHS256 : String := signingHS256 ++ "." ++ macHS256

/-- Compact HS384 token for the same claims under the key `s3cret`. -/
def tokenHS384 : String := signingHS384 ++ "." ++ macHS384

/-- Compact HS256 token for the same claims signed with the key `other`. -/
def tokenOtherKey : String := signingHS256 ++ "." ++ macOther

/-- Compact unsigned token (`alg` none, empty signature segment) for the same claims. -/
def tokenNone : String := signingNone ++ "."

/-- Claims of the sample tokens, in the order the service writes them. -/
def sampleClaims : MapClaims := [("user_id", .num 7), ("exp", .num 2000000000)]

/-- The JWT library restricted to the four sample tokens: every other string is treated as
malformed, and only the two signatures made with `s3cret` verify under that key. -/
def sampleWire : Wire where
  SignedString m key c :=
    if m = .HS256 ∧ key = "s3cret" ∧ c = sampleClaims then tokenHS256 else ""
  decode t :=
    if t = tokenHS256 then some ⟨some "HS256", sampleClaims, signingHS256, macHS256⟩
    else if t = tokenHS384 then some ⟨some "HS384", sampleClaims, signingHS384, macHS384⟩
    else if t = tokenOtherKey then some ⟨some "HS256", sampleClaims, signingHS256, macOther⟩
    else if t = tokenNone then some ⟨some "none", sampleClaims, signingNone, ""⟩
    else none
  verify m key ss sig :=
    decide (key = "s3cret") &&
      (decide (m = .HS256 ∧ ss = signingHS256 ∧ sig = macHS256) ||
       decide (m = .HS384 ∧ ss = signingHS384 ∧ sig = macHS384))

/-- A stand-in hasher: the hash is the password behind a fixed bcrypt-style marker. -/
def sampleBcrypt : Bcrypt where
  GenerateFromPassword p _ := .ok ("$2a$10$" ++ p)
  CompareHashAndPassword h p := decide (h = "$2a$10$" ++ p)

/-- The sample libraries. -/
def sampleLib : Lib := { jwt := sampleWire, bcrypt := sampleBcrypt }

/-- Mail settings of the sample service. -/
def sampleEmailConfig : EmailConfig :=
  { Host := "localhost", Port := 1025, Username := "", Password := "",
    From := "noreply@x.com", AppURL := "http://localhost:8080" }

/-- A service wired as in `main`: the same secret in both places, 24-hour sessions. -/
def sampleService : AuthService :=
  NewAuthService "s3cret" sampleEmailConfig
    { JWTSecret := "s3cret", JWTExpirationHours := 24, EmailVerificationRequired := true,
      AppURL := "" }

/-- An environment in which every collaborator call succeeds. -/
def sampleEnv (now : Int) : Env :=
  { now := now, fault := fun _ => none, salt := 0, entropy := fun i => i }

/-- The account of the sample tokens. -/
def alice : User :=
  { ID := 7, Username := "alice", Password := "$2a$10$Str0ng!Pass", Email := "alice@x.com",
    Name := "Alice", Phone := "0912345678", CCCD := "012345678901", EmailVerified := true,
    Avatar := "" }

/-- A database holding only the sample account. -/
def sampleWorld : World :=
  { users := [alice], verificationTokens := [], passwordResetTokens := [],
    blacklistedTokens := [], userSeq := 7, verificationTokenSeq := 0,
    passwordResetTokenSeq := 0, blacklistedTokenSeq := 0, outbox := [] }

/-- An account that has registered but not yet verified its address. -/
def bob : User :=
  { ID := 8, Username := "bob", Password := "$2a$10$0ldPass!", Email := "bob@x.com",
    Name := "Bob", Phone := "0987654321", CCCD := "098765432109", EmailVerified := false,
    Avatar := "" }

/-- A database with two accounts, a verification token of `bob` and a reset token of `alice`,
both expiring at time 2000. -/
def sampleWorld2 : World :=
  { users := [alice, bob],
    verificationTokens := [{ ID := 1, UserID := 8, Token := "vtok", ExpiresAt := 2000,
                             CreatedAt := 100 }],
    passwordResetTokens := [{ ID := 1, UserID := 7, Token := "old", ExpiresAt := 2000,
                              CreatedAt := 100 }],
    blacklistedTokens := [], userSeq := 8, verificationTokenSeq := 1,
    passwordResetTokenSeq := 1, blacklistedTokenSeq := 0, outbox := [] }

/-- An environment in which only the delete statement of `CreatePasswordResetToken` fails. -/
def deleteFailsEnv (now : Int) : Env :=
  { now := now,
    fault := fun op => if op = .DeleteOldPasswordResetTokens then some "deadlock detected" else none,
    salt := 0, entropy := fun i => i }

/-- Header and payload segments of an HS256 token whose payload is `{"exp":2000000000}`. -/
def signingNoUserID : String :=
  "eyJhbGciOiJIUzI1NiIsInR5cCI6IkpXVCJ9.eyJleHAiOjIwMDAwMDAwMDB9"

/-- HMAC-SHA256 of `signingNoUserID` under the key `s3cret`, base64url. -/
def macNoUserID : String := "BxODtHS5-P8TpaQs93Kje7EYCJ-M5-bbvZ9u0GzqVXk"

/-- Header and payload segments of an HS256 token whose payload is `{"user_id":7}`. -/
def signingNoExp : String :=
  "eyJhbGciOiJIUzI1NiIsInR5cCI6IkpXVCJ9.eyJ1c2VyX2lkIjo3fQ"

/-- HMAC-SHA256 of `signingNoExp` under the key `s3cret`, base64url. -/
def macNoExp : String := "Hjz1AHkIgJpkUJWJCHZjFZriOWhUTD5BwoScmQhZ0po"

/-- Compact HS256 token under the key `s3cret` that carries `exp` but no `user_id`. -/
def tokenNoUserID : String := signingNoUserID ++ "." ++ macNoUserID

/-- Compact HS256 token under the key `s3cret` that carries `user_id` but no `exp`. -/
def tokenNoExp : String := signingNoExp ++ "." ++ macNoExp

/-- The JWT library restricted to the sample tokens, the two with a missing claim included;
the signature made with the key `other` verifies under that key. -/
def sampleWire2 : Wire where
  SignedString m key c :=
    if m = .HS256 ∧ key = "s3cret" ∧ c = sampleClaims then tokenHS256 else ""
  decode t :=
    if t = tokenNoUserID then
      some ⟨some "HS256", [("exp", .num 2000000000)], signingNoUserID, macNoUserID⟩
    else if t = tokenNoExp then some ⟨some "HS256", [("user_id", .num 7)], signingNoExp, macNoExp⟩
    else sampleWire.decode t
  verify m key ss sig :=
    sampleWire.verify m key ss sig ||
      (decide (key = "s3cret") &&
        (decide (m = .HS256 ∧ ss = signingNoUserID ∧ sig = macNoUserID) ||
         decide (m = .HS256 ∧ ss = signingNoExp ∧ sig = macNoExp))) ||
      decide (key = "other" ∧ m = .HS256 ∧ ss = signingHS256 ∧ sig = macOther)

/-- The sample libraries with the larger token table. -/
def sampleLib2 : Lib := { jwt := sampleWire2, bcrypt := sampleBcrypt }

/-- A service built with two different secrets: `s3cret` as the `jwtSecret` argument and
`other` inside the configuration. -/
def splitSecretService : AuthService :=
  NewAuthService "s3cret" sampleEmailConfig
    { JWTSecret := "other", JWTExpirationHours := 24, EmailVerificationRequired := true,
      AppURL := "" }

/-- A candidate account as the register handler builds it. -/
def carolRequest : RegisterRequest :=
  { Username := "carol", Email := "carol@x.com", Password := "Str0ng!Pass",
    ConfirmPassword := "Str0ng!Pass", Name := "Carol", Phone := "0912345679",
    CCCD := "012345678902" }

/-- An environment in which only the insert of the verification token fails. -/
def tokenStoreFailsEnv (now : Int) : Env :=
  { now := now,
    fault := fun op => if op = .CreateVerificationToken then some "connection refused" else none,
    salt := 0, entropy := fun i => i }

/-- An environment in which only the SMTP delivery fails. -/
def mailFailsEnv (now : Int) : Env :=
  { now := now,
    fault := fun op => if op = .DialAndSend then some "dial tcp: connection refused" else none,
    salt := 0, entropy := fun i => i }

/-- The classes of Go's `unicode` package on the ASCII range (upper- and lower-case letters,
decimal digits, the punctuation and the symbol characters); no character outside ASCII is put
in a class. -/
def asciiUnicode : Unicode where
  IsUpper c := decide ('A' ≤ c) && decide (c ≤ 'Z')
  IsLower c := decide ('a' ≤ c) && decide (c ≤ 'z')
  IsNumber c := decide ('0' ≤ c) && decide (c ≤ '9')
  IsPunct c :=
    [33, 34, 35, 37, 38, 39, 40, 41, 42, 44, 45, 46, 47, 58, 59, 63, 64, 91, 92, 93, 95, 123,
      125].contains c.toNat
  IsSymbol c := [36, 43, 60, 61, 62, 94, 96, 124, 126].contains c.toNat

/-- Header and payload segments of an HS256 token whose payload is
`{"exp":0,"user_id":7}`. -/
def signingExpZero : String :=
  "eyJhbGciOiJIUzI1NiIsInR5cCI6IkpXVCJ9.eyJleHAiOjAsInVzZXJfaWQiOjd9"

/-- HMAC-SHA256 of `signingExpZero` under the key `s3cret`, base64url. -/
def macExpZero : String := "lrWgd90UFfpbUwqY7XBcTt5qz5RbxLmWoMlzfHhWLaI"

/-- Compact HS256 token under the key `s3cret` for account 7 whose `exp` claim is 0. -/
def tokenExpZero : String := signingExpZero ++ "." ++ macExpZero

/-- The JWT library restricted to the sample tokens and the token with `exp = 0`. -/
def sampleWire3 : Wire where
  SignedString m key c :=
    if m = .HS256 ∧ key = "s3cret" ∧ c = sampleClaims then tokenHS256 else ""
  decode t :=
    if t = tokenExpZero then
      some ⟨some "HS256", [("user_id", .num 7), ("exp", .num 0)], signingExpZero, macExpZero⟩
    else sampleWire.decode t
  verify m key ss sig :=
    sampleWire.verify m key ss sig ||
      decide (key = "s3cret" ∧ m = .HS256 ∧ ss = signingExpZero ∧ sig = macExpZero)

/-- The sample libraries with the token table that holds the `exp = 0` token. -/
def sampleLib3 : Lib := { jwt := sampleWire3, bcrypt := sampleBcrypt }

theorem splitChars_of_not_mem (sep : Char) (l : List Char) (h : sep ∉ l) :
    splitChars sep l = [l] := by
  induction l with
  | nil => rfl
  | cons c cs ih =>
    have hc : c ≠ sep := fun e => h (by simp [e])
    have hcs : sep ∉ cs := fun m => h (List.mem_cons_of_mem _ m)
    simp [splitChars, ih hcs, hc]

theorem splitChars_length (sep : Char) (l : List Char) :
    (splitChars sep l).length = l.count sep + 1 := by
  induction l with
  | nil => rfl
  | cons c cs ih =>
    rcases hs : splitChars sep cs with _ | ⟨p, ps⟩
    · rw [hs] at ih; simp at ih
    · rw [hs] at ih
      by_cases hc : c = sep
      · subst hc
        simp [splitChars, hs] at ih ⊢
        omega
      · have hc2 : ¬ (c == sep) = true := by simpa using hc
        simp [splitChars, hs, hc, List.count_cons, hc2] at ih ⊢
        omega

/-- A header `Bearer t` whose token has no space splits into exactly the scheme and the token. -/
theorem Split_bearer (t : String) (h : ' ' ∉ t.data) : Split ("Bearer " ++ t) = ["Bearer", t] := by
  have hd : ("Bearer " ++ t).data = 'B' :: 'e' :: 'a' :: 'r' :: 'e' :: 'r' :: ' ' :: t.data := by
    rw [String.data_append]; rfl
  simp [Split, hd, splitChars, splitChars_of_not_mem ' ' t.data h]

/-- A header `Bearer t` whose token contains a space splits into three pieces or more. -/
theorem Split_bearer_space (t : String) (h : ' ' ∈ t.data) :
    3 ≤ (Split ("Bearer " ++ t)).length := by
  have hd : ("Bearer " ++ t).data = 'B' :: 'e' :: 'a' :: 'r' :: 'e' :: 'r' :: ' ' :: t.data := by
    rw [String.data_append]; rfl
  simp [Split, hd, splitChars_length, List.count_cons]
  exact h

theorem bearer_ne_empty (t : String) : "Bearer " ++ t ≠ "" := by
  intro h
  have hd := congrArg String.data h
  rw [String.data_append] at hd
  exact absurd hd (by simp)

/-- A header that does not split into exactly two pieces is refused for its format. -/
theorem AuthMiddleware_bad_format (lib : Lib) (secret : String) (env : Env) (w : World)
    (authHeader : String) (c : Context) (hne : authHeader ≠ "")
    (hlen : (Split authHeader).length ≠ 2) :
    AuthMiddleware lib secret env w authHeader c
      = .ok (respondAndAbort c 401 "authorization header format must be Bearer \x7btoken\x7d") := by
  unfold AuthMiddleware
  rw [if_neg hne]
  rcases hS : Split authHeader with _ | ⟨a, _ | ⟨b, _ | ⟨c3, l⟩⟩⟩
  · rfl
  · rfl
  · rw [hS] at hlen; simp at hlen
  · rfl

/-- A header `Bearer t` with a space-free token reaches the blacklist lookup and the parser. -/
theorem AuthMiddleware_bearer (lib : Lib) (secret : String) (env : Env) (w : World)
    (t : String) (c : Context) (h : ' ' ∉ t.data) :
    AuthMiddleware lib secret env w ("Bearer " ++ t) c =
      match IsBlacklisted env w t with
      | .error _ => .ok (respondAndAbort c 500 "failed to validate token")
      | .ok true => .ok (respondAndAbort c 401 "token has been revoked")
      | .ok false =>
        match Parse lib.jwt env.now t (keyFunc secret) with
        | .error _ => .ok (respondAndAbort c 401 "invalid token")
        | .ok token =>
          if token.Valid then
            match assertFloat64 token.Claims "user_id" with
            | none => .panic "interface conversion: interface \x7b\x7d is not float64"
            | some userID => .ok { c with userID := some (toUint userID), nextCalled := true }
          else .ok (respondAndAbort c 401 "invalid token") := by
  unfold AuthMiddleware
  rw [if_neg (bearer_ne_empty t), Split_bearer t h]
  simp

theorem IsBlacklisted_of_mem (env : Env) (w : World) (t : String)
    (hstore : env.fault .IsBlacklisted = none)
    (hbl : ∃ b ∈ w.blacklistedTokens, b.Token = t) : IsBlacklisted env w t = .ok true := by
  obtain ⟨b, hb, hbt⟩ := hbl
  have hmem : b ∈ w.blacklistedTokens.filter (fun b => b.Token = t) := by
    simp [List.mem_filter, hb, hbt]
  have hpos : 0 < (w.blacklistedTokens.filter (fun b => b.Token = t)).length :=
    List.length_pos_of_mem hmem
  simp only [IsBlacklisted, hstore]
  simp [hpos]

theorem IsBlacklisted_of_not_mem (env : Env) (w : World) (t : String)
    (hstore : env.fault .IsBlacklisted = none)
    (hbl : ∀ b ∈ w.blacklistedTokens, b.Token ≠ t) : IsBlacklisted env w t = .ok false := by
  have hnil : w.blacklistedTokens.filter (fun b => b.Token = t) = [] := by
    rw [List.filter_eq_nil_iff]
    intro b hb
    simpa using hbl b hb
  simp only [IsBlacklisted, hstore, hnil]
  simp

/-- A blacklisted token is refused whatever the header looks like and whatever the parser says. -/
theorem AuthMiddleware_blacklisted (lib : Lib) (secret : String) (env : Env) (w : World)
    (t : String) (hstore : env.fault .IsBlacklisted = none)
    (hbl : ∃ b ∈ w.blacklistedTokens, b.Token = t) :
    (∃ ctx, AuthMiddleware lib secret env w ("Bearer " ++ t) Context.fresh = .ok ctx ∧
      ctx.status = some 401 ∧ ctx.aborted = true ∧ ctx.userID = none ∧ ctx.nextCalled = false) ∧
    (' ' ∉ t.data → AuthMiddleware lib secret env w ("Bearer " ++ t) Context.fresh
      = .ok (respondAndAbort Context.fresh 401 "token has been revoked")) := by
  have hno : ' ' ∉ t.data → AuthMiddleware lib secret env w ("Bearer " ++ t) Context.fresh
      = .ok (respondAndAbort Context.fresh 401 "token has been revoked") := by
    intro h
    rw [AuthMiddleware_bearer lib secret env w t _ h, IsBlacklisted_of_mem env w t hstore hbl]
  refine ⟨?_, hno⟩
  by_cases h : ' ' ∈ t.data
  · refine ⟨_, AuthMiddleware_bad_format lib secret env w _ _ (bearer_ne_empty t) ?_, rfl, rfl,
      rfl, rfl⟩
    have := Split_bearer_space t h
    omega
  · exact ⟨_, hno h, rfl, rfl, rfl, rfl⟩

/-! ### The parser with the service's key function -/

theorem GetSigningMethod_Alg (m : SigningMethodHMAC) : GetSigningMethod m.Alg = some (.HMAC m) := by
  cases m <;> rfl

theorem GetSigningMethod_eq_HMAC (alg : String) (m : SigningMethodHMAC)
    (h : GetSigningMethod alg = some (.HMAC m)) : alg = m.Alg := by
  unfold GetSigningMethod at h
  split_ifs at h with h1 h2 h3 h4
  · cases h; exact h1
  · cases h; exact h2
  · cases h; exact h3
  · cases h

/-- What `jwt.Parse` computes when handed the service's key function. -/
theorem Parse_keyFunc (w : Wire) (now : Int) (t secret : String) :
    Parse w now t (keyFunc secret) =
      match w.decode t with
      | none => .error { Malformed := true }
      | some p =>
        match p.alg with
        | none => .error { Unverifiable := true }
        | some alg =>
          match GetSigningMethod alg with
          | some (.HMAC m) =>
            if w.verify m secret p.signingString p.signature then
              match p.claims.Valid now with
              | some e => .error e
              | none => .ok { Raw := t, Method := .HMAC m, Claims := p.claims,
                              Signature := p.signature, Valid := true }
            else .error { SignatureInvalid := true }
          | _ => .error { Unverifiable := true } := by
  unfold Parse
  cases w.decode t with
  | none => rfl
  | some p =>
    obtain ⟨alg, c, ss, sig⟩ := p
    cases alg with
    | none => rfl
    | some a =>
      dsimp only
      cases GetSigningMethod a with
      | none => rfl
      | some m =>
        cases m with
        | HMAC h => simp [keyFunc, SigningMethod.Verify]
        | Other o => simp [keyFunc]

/-- A well-formed token with a valid HMAC signature and valid claims is parsed. -/
theorem Parse_ok_of (w : Wire) (now : Int) (t secret : String) (p : Parts) (m : SigningMethodHMAC)
    (hd : w.decode t = some p) (ha : p.alg = some m.Alg)
    (hv : w.verify m secret p.signingString p.signature = true)
    (hc : p.claims.Valid now = none) :
    Parse w now t (keyFunc secret) =
      .ok { Raw := t, Method := .HMAC m, Claims := p.claims,
            Signature := p.signature, Valid := true } := by
  rw [Parse_keyFunc, hd]
  simp only [ha, GetSigningMethod_Alg, hv, hc, if_true]

/-- A well-formed token with a valid HMAC signature and invalid claims is refused with the
error of the claims. -/
theorem Parse_claims_error (w : Wire) (now : Int) (t secret : String) (p : Parts)
    (m : SigningMethodHMAC) (e : ValidationError)
    (hd : w.decode t = some p) (ha : p.alg = some m.Alg)
    (hv : w.verify m secret p.signingString p.signature = true)
    (hc : p.claims.Valid now = some e) :
    Parse w now t (keyFunc secret) = .error e := by
  rw [Parse_keyFunc, hd]
  simp only [ha, GetSigningMethod_Alg, hv, hc, if_true]

/-- Everything a successful parse tells about the token string. -/
theorem Parse_ok_inv (w : Wire) (now : Int) (t secret : String) (tok : Token)
    (h : Parse w now t (keyFunc secret) = .ok tok) :
    ∃ p m, w.decode t = some p ∧ p.alg = some (SigningMethodHMAC.Alg m) ∧
      w.verify m secret p.signingString p.signature = true ∧ p.claims.Valid now = none ∧
      tok = { Raw := t, Method := .HMAC m, Claims := p.claims, Signature := p.signature,
              Valid := true } := by
  rw [Parse_keyFunc] at h
  cases hd : w.decode t with
  | none => rw [hd] at h; cases h
  | some p =>
    rw [hd] at h
    cases ha : p.alg with
    | none => simp [ha] at h
    | some alg =>
      cases hm : GetSigningMethod alg with
      | none => simp [ha, hm] at h
      | some sm =>
        cases sm with
        | Other a => simp [ha, hm] at h
        | HMAC m =>
          simp only [ha, hm] at h
          by_cases hv : w.verify m secret p.signingString p.signature = true
          · rw [if_pos hv] at h
            cases hc : p.claims.Valid now with
            | some e => simp [hc] at h
            | none =>
              simp only [hc] at h
              refine ⟨p, m, rfl, ?_, hv, hc, ?_⟩
              · rw [ha, GetSigningMethod_eq_HMAC alg m hm]
              · cases h; rfl
          · rw [if_neg hv] at h; cases h

/-- A token that names no HMAC method is refused as unverifiable. -/
theorem Parse_not_HMAC (w : Wire) (now : Int) (t secret : String) (p : Parts)
    (hd : w.decode t = some p) (ha : ∀ m : SigningMethodHMAC, p.alg ≠ some m.Alg) :
    Parse w now t (keyFunc secret) = .error { Unverifiable := true } := by
  rw [Parse_keyFunc, hd]
  obtain ⟨alg, c, ss, sig⟩ := p
  cases alg with
  | none => rfl
  | some a =>
    dsimp only
    cases hm : GetSigningMethod a with
    | none => rfl
    | some sm =>
      cases sm with
      | Other o => rfl
      | HMAC m => exact absurd (by rw [GetSigningMethod_eq_HMAC a m hm]) (ha m)

/-- A string that is not a well-formed token with a valid HMAC signature is refused. -/
theorem Parse_error_of_not_signed (w : Wire) (now : Int) (t secret : String)
    (h : ¬ ∃ p m, w.decode t = some p ∧ p.alg = some (SigningMethodHMAC.Alg m) ∧
      w.verify m secret p.signingString p.signature = true) :
    ∃ e, Parse w now t (keyFunc secret) = .error e := by
  cases hp : Parse w now t (keyFunc secret) with
  | error e => exact ⟨e, rfl⟩
  | ok tok =>
    obtain ⟨p, m, hd, ha, hv, -, -⟩ := Parse_ok_inv w now t secret tok hp
    exact absurd ⟨p, m, hd, ha, hv⟩ h

/-! ### Logout and the blacklist -/

theorem assertFloat64_eq_some (m : MapClaims) (k : String) (n : Int) :
    assertFloat64 m k = some n ↔ m.lookup k = some (.num n) := by
  unfold assertFloat64
  cases h : m.lookup k with
  | none => simp
  | some v => cases v <;> simp

/-- A successful insert into the blacklist appends exactly one row and advances the sequence. -/
theorem AddToBlacklist_ok_inv (env : Env) (w w1 : World) (t : String) (u : Nat) (e : Int)
    (h : AddToBlacklist env w t u e = (.ok (), w1)) :
    env.fault .AddToBlacklist = none ∧
    (∀ b ∈ w.blacklistedTokens, b.ID ≠ w.blacklistedTokenSeq + 1 ∧ b.Token ≠ t) ∧
    w1 = { w with
      blacklistedTokenSeq := w.blacklistedTokenSeq + 1
      blacklistedTokens := w.blacklistedTokens ++
        [{ ID := w.blacklistedTokenSeq + 1, Token := t, UserID := u, ExpiresAt := e,
           CreatedAt := env.now }] } := by
  unfold AddToBlacklist at h
  cases hf : env.fault .AddToBlacklist with
  | some msg => simp [hf] at h
  | none =>
    simp only [hf] at h
    split_ifs at h with hany
    · cases h
    · refine ⟨rfl, ?_, ?_⟩
      · intro b hb
        simp only [List.any_eq_true, not_exists, not_and] at hany
        have := hany b hb
        simpa [not_or] using this
      · cases h; rfl

/-- The insert succeeds when the statement does not fail and neither the token nor the next
key is present. -/
theorem AddToBlacklist_ok_of (env : Env) (w : World) (t : String) (u : Nat) (e : Int)
    (hf : env.fault .AddToBlacklist = none)
    (hfree : ∀ b ∈ w.blacklistedTokens, b.ID ≠ w.blacklistedTokenSeq + 1 ∧ b.Token ≠ t) :
    AddToBlacklist env w t u e = (.ok (), { w with
      blacklistedTokenSeq := w.blacklistedTokenSeq + 1
      blacklistedTokens := w.blacklistedTokens ++
        [{ ID := w.blacklistedTokenSeq + 1, Token := t, UserID := u, ExpiresAt := e,
           CreatedAt := env.now }] }) := by
  unfold AddToBlacklist
  have hany : ¬ (w.blacklistedTokens.any (fun b => decide (b.ID = w.blacklistedTokenSeq + 1) ||
      decide (b.Token = t)) = true) := by
    simp only [List.any_eq_true, not_exists, not_and]
    intro b hb
    have := hfree b hb
    simp [this.1, this.2]
  simp only [hf, if_neg hany]

/-- Whatever the parser refuses, Logout reports as an invalid token and stores nothing. -/
theorem Logout_of_Parse_error (lib : Lib) (s : AuthService) (env : Env) (w : World) (t : String)
    (e : ValidationError)
    (h : Parse lib.jwt env.now t (keyFunc s.config.JWTSecret) = .error e) :
    Logout lib s env w t = (.err (.New "invalid token"), w) := by
  unfold Logout
  rw [h]

/-- Everything a successful Logout tells about the token and the new state. -/
theorem Logout_ok_inv (lib : Lib) (s : AuthService) (env : Env) (w w1 : World) (t : String)
    (h : Logout lib s env w t = (.ok (), w1)) :
    ∃ p m uid e, lib.jwt.decode t = some p ∧ p.alg = some (SigningMethodHMAC.Alg m) ∧
      lib.jwt.verify m s.config.JWTSecret p.signingString p.signature = true ∧
      p.claims.Valid env.now = none ∧
      p.claims.lookup "user_id" = some (.num uid) ∧ p.claims.lookup "exp" = some (.num e) ∧
      AddToBlacklist env w t (toUint uid) e = (.ok (), w1) := by
  unfold Logout at h
  cases hp : Parse lib.jwt env.now t (keyFunc s.config.JWTSecret) with
  | error e => rw [hp] at h; cases h
  | ok tok =>
    obtain ⟨p, m, hd, ha, hv, hc, rfl⟩ := Parse_ok_inv _ _ _ _ tok hp
    rw [hp] at h
    simp only [if_true] at h
    cases hu : assertFloat64 p.claims "user_id" with
    | none => simp [hu] at h
    | some uid =>
      cases he : assertFloat64 p.claims "exp" with
      | none => simp [hu, he] at h
      | some e =>
        simp only [hu, he] at h
        refine ⟨p, m, uid, e, hd, ha, hv, hc, (assertFloat64_eq_some _ _ _).1 hu,
          (assertFloat64_eq_some _ _ _).1 he, ?_⟩
        rcases hadd : AddToBlacklist env w t (toUint uid) e with ⟨r, w2⟩
        rw [hadd] at h
        cases r with
        | error err => cases h
        | ok u => cases h; rfl

/-- After a successful Logout the token is in the blacklist. -/
theorem Logout_ok_mem (lib : Lib) (s : AuthService) (env : Env) (w w1 : World) (t : String)
    (h : Logout lib s env w t = (.ok (), w1)) : ∃ b ∈ w1.blacklistedTokens, b.Token = t := by
  obtain ⟨p, m, uid, e, -, -, -, -, -, -, hadd⟩ := Logout_ok_inv lib s env w w1 t h
  obtain ⟨-, -, rfl⟩ := AddToBlacklist_ok_inv env w w1 t _ e hadd
  exact ⟨_, List.mem_append_right _ (List.mem_singleton.mpr rfl), rfl⟩

/-! ### C1 -/

/-- C1: for every token string t, when the blacklist contains t (and the blacklist lookup
answers) the middleware refuses the request carrying `Bearer t` with status 401, aborts it,
never sets user_id and never runs the next handler, whatever the parser would say about t (so
also when t is correctly signed and unexpired); the message is "token has been revoked" for
every t free of spaces (a t with a space is already refused by the header-format check). In
particular this holds in the state reached by a successful Logout(t). -/
theorem C1_blacklisted_token_rejected (lib : Lib) (secret : String) (env : Env) (t : String)
    (hstore : env.fault .IsBlacklisted = none) :
    (∀ w : World, (∃ b ∈ w.blacklistedTokens, b.Token = t) →
      (∃ ctx, AuthMiddleware lib secret env w ("Bearer " ++ t) Context.fresh = .ok ctx ∧
        ctx.status = some 401 ∧ ctx.aborted = true ∧ ctx.userID = none ∧
        ctx.nextCalled = false) ∧
      (' ' ∉ t.data → AuthMiddleware lib secret env w ("Bearer " ++ t) Context.fresh
        = .ok (respondAndAbort Context.fresh 401 "token has been revoked"))) ∧
    (∀ (s : AuthService) (env0 : Env) (w0 w1 : World), Logout lib s env0 w0 t = (.ok (), w1) →
      (∃ ctx, AuthMiddleware lib secret env w1 ("Bearer " ++ t) Context.fresh = .ok ctx ∧
        ctx.status = some 401 ∧ ctx.aborted = true ∧ ctx.userID = none ∧
        ctx.nextCalled = false) ∧
      (' ' ∉ t.data → AuthMiddleware lib secret env w1 ("Bearer " ++ t) Context.fresh
        = .ok (respondAndAbort Context.fresh 401 "token has been revoked"))) :=
  ⟨fun w hbl => AuthMiddleware_blacklisted lib secret env w t hstore hbl,
   fun s env0 w0 w1 h =>
    AuthMiddleware_blacklisted lib secret env w1 t hstore (Logout_ok_mem lib s env0 w0 w1 t h)⟩

/-- The correctly signed, unexpired sample token is accepted before Logout and refused as
revoked in the state Logout leaves. -/
theorem C1_witness :
    (sampleEnv 1999999999).fault .IsBlacklisted = none ∧
    AuthMiddleware sampleLib "s3cret" (sampleEnv 1999999999) sampleWorld
      ("Bearer " ++ tokenHS256) Context.fresh
      = .ok { Context.fresh with userID := some 7, nextCalled := true } ∧
    AuthMiddleware sampleLib "s3cret" (sampleEnv 1999999999)
      (Logout sampleLib sampleService (sampleEnv 1999999990) sampleWorld tokenHS256).2
      ("Bearer " ++ tokenHS256) Context.fresh
      = .ok (respondAndAbort Context.fresh 401 "token has been revoked") :=
  ⟨rfl, by decide,
   ((C1_blacklisted_token_rejected sampleLib "s3cret" (sampleEnv 1999999999) tokenHS256 rfl).2
      sampleService (sampleEnv 1999999990) sampleWorld _ (by decide)).2 (by decide)⟩

/-! ### Login and Register -/

theorem find?_none_of_forall {α : Type} (l : List α) (q : α → Bool)
    (h : ∀ a ∈ l, q a = false) : l.find? q = none := by
  rw [List.find?_eq_none]
  intro a ha
  simp [h a ha]

theorem find?_some_of_exists {α : Type} (l : List α) (q : α → Bool)
    (h : ∃ a ∈ l, q a = true) : ∃ a, l.find? q = some a ∧ a ∈ l ∧ q a = true := by
  cases hf : l.find? q with
  | none =>
    obtain ⟨a, ha, hq⟩ := h
    rw [List.find?_eq_none] at hf
    exact absurd hq (hf a ha)
  | some a => exact ⟨a, rfl, List.mem_of_find?_eq_some hf, List.find?_some hf⟩

/-- C2: Login answers a username that matches no account and a username that matches an
account whose stored hash does not verify the password with one and the same error value,
"invalid username or password"; the error carries no account record and no token, so the two
failures cannot be told apart by the caller. -/
theorem C2_login_failures_indistinguishable (lib : Lib) (s : AuthService) (env1 env2 : Env)
    (w1 w2 : World) (username1 password1 username2 password2 : String)
    (hs1 : env1.fault .FindUserByUsername = none) (hs2 : env2.fault .FindUserByUsername = none)
    (hno : ∀ u ∈ w1.users, u.Username ≠ username1)
    (hyes : ∃ u ∈ w2.users, u.Username = username2)
    (hbad : ∀ u ∈ w2.users, u.Username = username2 →
      lib.bcrypt.CompareHashAndPassword u.Password password2 = false) :
    Login lib s env1 w1 username1 password1 = .error (.New "invalid username or password") ∧
    Login lib s env2 w2 username2 password2 = .error (.New "invalid username or password") ∧
    Login lib s env1 w1 username1 password1 = Login lib s env2 w2 username2 password2 := by
  have h1 : Login lib s env1 w1 username1 password1
      = .error (.New "invalid username or password") := by
    have hf : w1.users.find? (fun u => u.Username = username1) = none :=
      find?_none_of_forall _ _ (fun u hu => by simpa using hno u hu)
    simp only [Login, FindUserByUsername, hs1, hf]
  have h2 : Login lib s env2 w2 username2 password2
      = .error (.New "invalid username or password") := by
    obtain ⟨a, hfa, hmem, hq⟩ := find?_some_of_exists w2.users (fun u => u.Username = username2)
      (by obtain ⟨u, hu, hun⟩ := hyes; exact ⟨u, hu, by simpa using hun⟩)
    have hcmp := hbad a hmem (by simpa using hq)
    simp only [Login, FindUserByUsername, hs2, hfa, hcmp]
    rfl
  exact ⟨h1, h2, h1.trans h2.symm⟩

/-- Login of the sample account with a wrong password and Login of an unknown user fail alike. -/
theorem C2_witness :
    (sampleEnv 100).fault .FindUserByUsername = none ∧
    (∀ u ∈ sampleWorld.users, u.Username ≠ "bob") ∧
    (∃ u ∈ sampleWorld.users, u.Username = "alice") ∧
    (∀ u ∈ sampleWorld.users, u.Username = "alice" →
      sampleLib.bcrypt.CompareHashAndPassword u.Password "wrongpass" = false) ∧
    Login sampleLib sampleService (sampleEnv 100) sampleWorld "bob" "wrongpass"
      = Login sampleLib sampleService (sampleEnv 100) sampleWorld "alice" "wrongpass" :=
  ⟨rfl, by decide, by decide, by decide,
   (C2_login_failures_indistinguishable sampleLib sampleService (sampleEnv 100) (sampleEnv 100)
      sampleWorld sampleWorld "bob" "wrongpass" "alice" "wrongpass" rfl rfl
      (by decide) (by decide) (by decide)).2.2⟩

/-- Register once none of the three uniqueness checks has found a collision: hash, insert,
then the verification token and mail when they are required. -/
theorem Register_of_no_conflict (lib : Lib) (s : AuthService) (env : Env) (w : World) (user : User)
    (h1 : FindUserByUsername env w user.Username = .ok none)
    (h2 : FindUserByEmail env w user.Email = .ok none)
    (h3 : (if user.CCCD ≠ "" then FindUserByCCCD env w user.CCCD else .ok none) = .ok none) :
    Register lib s env w user =
      match lib.bcrypt.GenerateFromPassword user.Password env.salt with
      | .error e => (.error (.Bcrypt e), user, w)
      | .ok hashedPassword =>
        match CreateUser env w { user with Password := hashedPassword } with
        | (.error e, w1) => (.error e, { user with Password := hashedPassword }, w1)
        | (.ok user2, w1) =>
          if s.config.EmailVerificationRequired then
            match CreateVerificationToken env w1
              { ID := 0, UserID := user2.ID, Token := GenerateRandomString env 32,
                ExpiresAt := addUnix env.now (24 * Hour), CreatedAt := 0 } with
            | (.error _, w2) => (.ok (), user2, w2)
            | (.ok _, w2) =>
              match SendVerificationEmail s.emailService env w2 user2.Email user2.Name
                (GenerateRandomString env 32) with
              | (.error _, w3) => (.ok (), user2, w3)
              | (.ok _, w3) => (.ok (), user2, w3)
          else (.ok (), user2, w1) := by
  unfold Register
  rw [h1, h2, h3]

/-- A successful insert of a user appends exactly that record, with its key filled in. -/
theorem CreateUser_ok_inv (env : Env) (w w1 : World) (u u2 : User)
    (h : CreateUser env w u = (.ok u2, w1)) :
    u2 = { u with ID := u2.ID } ∧ w1.users = w.users ++ [u2] ∧
    w1.verificationTokens = w.verificationTokens ∧
    w1.passwordResetTokens = w.passwordResetTokens ∧
    w1.blacklistedTokens = w.blacklistedTokens ∧ w1.outbox = w.outbox := by
  unfold CreateUser at h
  cases hf : env.fault .CreateUser with
  | some msg => simp [hf] at h
  | none =>
    simp only [hf] at h
    split_ifs at h with hany hid
    all_goals first
      | (cases h; exact ⟨rfl, rfl, rfl, rfl, rfl, rfl⟩)
      | cases h

/-- A refused insert of a user reports a storage error. -/
theorem CreateUser_error_storage (env : Env) (w w1 : World) (u : User) (e : Error)
    (h : CreateUser env w u = (.error e, w1)) : ∃ msg, e = .Storage msg := by
  unfold CreateUser at h
  cases hf : env.fault .CreateUser with
  | some msg =>
    simp only [hf, Prod.mk.injEq, Except.error.injEq] at h
    exact ⟨msg, h.1.symm⟩
  | none =>
    simp only [hf] at h
    split_ifs at h
    all_goals first
      | (simp only [Prod.mk.injEq, Except.error.injEq] at h; exact ⟨_, h.1.symm⟩)
      | simp at h

theorem CreateVerificationToken_users (env : Env) (w : World) (t : VerificationToken) :
    (CreateVerificationToken env w t).2.users = w.users := by
  unfold CreateVerificationToken
  cases env.fault .CreateVerificationToken with
  | some msg => rfl
  | none =>
    dsimp only
    split_ifs <;> rfl

theorem renderAndSend_users (env : Env) (w : World) (m : Mail) :
    (renderAndSend env w m).2.users = w.users := by
  unfold renderAndSend
  cases env.fault .ParseTemplate <;> cases env.fault .ExecuteTemplate <;>
    cases env.fault .DialAndSend <;> rfl

theorem SendVerificationEmail_users (cfg : EmailConfig) (env : Env) (w : World)
    (toAddr name token : String) :
    (SendVerificationEmail cfg env w toAddr name token).2.users = w.users := by
  unfold SendVerificationEmail
  split_ifs
  · rfl
  · rfl
  · exact renderAndSend_users _ _ _

/-- Everything a successful Register tells: the hash bcrypt produced is what was inserted. -/
theorem Register_ok_inv (lib : Lib) (s : AuthService) (env : Env) (w w1 : World)
    (user user1 : User) (h : Register lib s env w user = (.ok (), user1, w1)) :
    ∃ hashed, lib.bcrypt.GenerateFromPassword user.Password env.salt = .ok hashed ∧
      user1 = { user with Password := hashed, ID := user1.ID } ∧
      w1.users = w.users ++ [user1] := by
  unfold Register at h
  cases h1 : FindUserByUsername env w user.Username with
  | error e => simp [h1] at h
  | ok o1 =>
  cases o1 with
  | some u => simp [h1] at h
  | none =>
  cases h2 : FindUserByEmail env w user.Email with
  | error e => simp [h1, h2] at h
  | ok o2 =>
  cases o2 with
  | some u => simp [h1, h2] at h
  | none =>
  cases h3 : (if user.CCCD ≠ "" then FindUserByCCCD env w user.CCCD else .ok none) with
  | error e => simp [h1, h2, h3] at h
  | ok o3 =>
  cases o3 with
  | some u => simp [h1, h2, h3] at h
  | none =>
  simp only [h1, h2, h3] at h
  cases hg : lib.bcrypt.GenerateFromPassword user.Password env.salt with
  | error e => simp [hg] at h
  | ok hashed =>
  simp only [hg] at h
  rcases hc : CreateUser env w { user with Password := hashed } with ⟨r, wc⟩
  rw [hc] at h
  cases r with
  | error e => simp at h
  | ok user2 =>
  obtain ⟨hu2, husers, -⟩ := CreateUser_ok_inv env w wc _ user2 hc
  refine ⟨hashed, rfl, ?_⟩
  dsimp only at h
  split_ifs at h with hreq
  · rcases hv : CreateVerificationToken env wc
      { ID := 0, UserID := user2.ID, Token := GenerateRandomString env 32,
        ExpiresAt := addUnix env.now (24 * Hour), CreatedAt := 0 } with ⟨rv, wv⟩
    have hvu : wv.users = wc.users := by
      have := CreateVerificationToken_users env wc
        { ID := 0, UserID := user2.ID, Token := GenerateRandomString env 32,
          ExpiresAt := addUnix env.now (24 * Hour), CreatedAt := 0 }
      rw [hv] at this; exact this
    rw [hv] at h
    cases rv with
    | error e =>
      simp only [Prod.mk.injEq, true_and] at h
      obtain ⟨rfl, rfl⟩ := h
      exact ⟨hu2, by rw [hvu, husers]⟩
    | ok uu =>
      dsimp only at h
      rcases hm : SendVerificationEmail s.emailService env wv user2.Email user2.Name
        (GenerateRandomString env 32) with ⟨rm, wm⟩
      have hmu : wm.users = wv.users := by
        have := SendVerificationEmail_users s.emailService env wv user2.Email user2.Name
          (GenerateRandomString env 32)
        rw [hm] at this; exact this
      rw [hm] at h
      cases rm with
      | error e =>
        simp only [Prod.mk.injEq, true_and] at h
        obtain ⟨rfl, rfl⟩ := h
        exact ⟨hu2, by rw [hmu, hvu, husers]⟩
      | ok uu2 =>
        simp only [Prod.mk.injEq, true_and] at h
        obtain ⟨rfl, rfl⟩ := h
        exact ⟨hu2, by rw [hmu, hvu, husers]⟩
  · simp only [Prod.mk.injEq, true_and] at h
    obtain ⟨rfl, rfl⟩ := h
    exact ⟨hu2, husers⟩

/-- C3: for every store state and candidate (the three lookups answering), Register fails with
the conflict error of the first colliding field in the order username, email, national ID,
comparing with exact case-sensitive equality and looking at the national ID only when it is not
empty; in each of these failures the state is unchanged (no account, no verification token, no
mail) and the candidate still carries its plaintext password, whatever the hasher is. -/
theorem C3_register_conflict_order (lib : Lib) (s : AuthService) (env : Env) (w : World)
    (user : User)
    (hs1 : env.fault .FindUserByUsername = none) (hs2 : env.fault .FindUserByEmail = none)
    (hs3 : env.fault .FindUserByCCCD = none) :
    ((∃ u ∈ w.users, u.Username = user.Username) →
      Register lib s env w user = (.error (.New "username already exists"), user, w)) ∧
    ((∀ u ∈ w.users, u.Username ≠ user.Username) → (∃ u ∈ w.users, u.Email = user.Email) →
      Register lib s env w user = (.error (.New "email already exists"), user, w)) ∧
    ((∀ u ∈ w.users, u.Username ≠ user.Username) → (∀ u ∈ w.users, u.Email ≠ user.Email) →
      user.CCCD ≠ "" → (∃ u ∈ w.users, u.CCCD = user.CCCD) →
      Register lib s env w user = (.error (.New "cccd already exists"), user, w)) ∧
    ((∀ u ∈ w.users, u.Username ≠ user.Username) → (∀ u ∈ w.users, u.Email ≠ user.Email) →
      user.CCCD = "" →
      (Register lib s env w user).1 ≠ .error (.New "cccd already exists")) := by
  have hN : (∀ u ∈ w.users, u.Username ≠ user.Username) →
      FindUserByUsername env w user.Username = .ok none := fun h => by
    have hf : w.users.find? (fun u => u.Username = user.Username) = none :=
      find?_none_of_forall _ _ (fun u hu => by simpa using h u hu)
    simp only [FindUserByUsername, hs1, hf]
  have hE : (∀ u ∈ w.users, u.Email ≠ user.Email) →
      FindUserByEmail env w user.Email = .ok none := fun h => by
    have hf : w.users.find? (fun u => u.Email = user.Email) = none :=
      find?_none_of_forall _ _ (fun u hu => by simpa using h u hu)
    simp only [FindUserByEmail, hs2, hf]
  refine ⟨?_, ?_, ?_, ?_⟩
  · rintro ⟨u, hu, hun⟩
    obtain ⟨a, hfa, -, -⟩ := find?_some_of_exists w.users (fun x => x.Username = user.Username)
      ⟨u, hu, by simpa using hun⟩
    simp only [Register, FindUserByUsername, hs1, hfa]
  · rintro hn ⟨u, hu, hue⟩
    obtain ⟨a, hfa, -, -⟩ := find?_some_of_exists w.users (fun x => x.Email = user.Email)
      ⟨u, hu, by simpa using hue⟩
    have h1 := hN hn
    unfold Register
    rw [h1]
    simp only [FindUserByEmail, hs2, hfa]
  · rintro hn he hc ⟨u, hu, huc⟩
    obtain ⟨a, hfa, -, -⟩ := find?_some_of_exists w.users (fun x => x.CCCD = user.CCCD)
      ⟨u, hu, by simpa using huc⟩
    have h1 := hN hn
    have h2 := hE he
    unfold Register
    rw [h1, h2]
    simp only [if_pos hc, FindUserByCCCD, hs3, hfa]
  · intro hn he hc
    rw [Register_of_no_conflict lib s env w user (hN hn) (hE he) (by simp [hc])]
    cases lib.bcrypt.GenerateFromPassword user.Password env.salt with
    | error e => simp
    | ok hashed =>
      dsimp only
      rcases hcu : CreateUser env w { user with Password := hashed } with ⟨r, wc⟩
      cases r with
      | error e =>
        obtain ⟨msg, rfl⟩ := CreateUser_error_storage env w wc _ e hcu
        simp
      | ok user2 =>
        dsimp only
        split_ifs
        · rcases CreateVerificationToken env wc _ with ⟨rv, wv⟩
          cases rv with
          | error e => simp
          | ok uu =>
            dsimp only
            rcases SendVerificationEmail s.emailService env wv user2.Email user2.Name _ with
              ⟨rm, wm⟩
            cases rm <;> simp
        · simp

/-- A second registration under the name `alice` is refused for the username, while `Alice`
with the same address is refused for the email: names are compared case-sensitively. -/
theorem C3_witness :
    (sampleEnv 100).fault .FindUserByUsername = none ∧
    (sampleEnv 100).fault .FindUserByEmail = none ∧
    (sampleEnv 100).fault .FindUserByCCCD = none ∧
    (∃ u ∈ sampleWorld.users, u.Username = alice.Username) ∧
    Register sampleLib sampleService (sampleEnv 100) sampleWorld alice
      = (.error (.New "username already exists"), alice, sampleWorld) ∧
    Register sampleLib sampleService (sampleEnv 100) sampleWorld { alice with Username := "Alice" }
      = (.error (.New "email already exists"), { alice with Username := "Alice" }, sampleWorld) :=
  ⟨rfl, rfl, rfl, by decide,
   (C3_register_conflict_order sampleLib sampleService (sampleEnv 100) sampleWorld alice
      rfl rfl rfl).1 (by decide),
   (C3_register_conflict_order sampleLib sampleService (sampleEnv 100) sampleWorld
      { alice with Username := "Alice" } rfl rfl rfl).2.1 (by decide) (by decide)⟩

/-- C4: after every successful Register of a candidate with plaintext password p, the account
appended to the user table carries as password the hash bcrypt generated from p; under the
contract of the hasher it verifies against p and is not p. -/
theorem C4_register_stores_hash (lib : Lib) (s : AuthService) (env : Env) (w w1 : World)
    (user user1 : User) (hlaw : lib.bcrypt.Lawful)
    (hok : Register lib s env w user = (.ok (), user1, w1)) :
    ∃ hashed, lib.bcrypt.GenerateFromPassword user.Password env.salt = .ok hashed ∧
      w1.users = w.users ++ [{ user with Password := hashed, ID := user1.ID }] ∧
      lib.bcrypt.CompareHashAndPassword hashed user.Password = true ∧
      hashed ≠ user.Password := by
  obtain ⟨hashed, hg, hu, husers⟩ := Register_ok_inv lib s env w w1 user user1 hok
  refine ⟨hashed, hg, ?_, hlaw.verifies _ _ _ hg, hlaw.oneWay _ _ _ hg⟩
  rw [husers, ← hu]

theorem sampleBcrypt_lawful : sampleBcrypt.Lawful where
  verifies p salt h hg := by
    simp only [sampleBcrypt, Except.ok.injEq] at hg
    simp [sampleBcrypt, hg]
  oneWay p salt h hg := by
    simp only [sampleBcrypt, Except.ok.injEq] at hg
    intro hp
    have hl := congrArg String.length (hg.trans hp)
    rw [String.length_append] at hl
    have h7 : "$2a$10$".length = 7 := by decide
    omega

/-- Registering `bob` with password `pw` stores a hash that verifies `pw` and differs from it. -/
theorem C4_witness :
    sampleLib.bcrypt.Lawful ∧
    (Register sampleLib sampleService (sampleEnv 100) sampleWorld
      { alice with ID := 0, Username := "bob", Email := "bob@x.com", CCCD := "1",
                   Password := "pw" }).1 = .ok () ∧
    ∃ hashed, sampleLib.bcrypt.GenerateFromPassword "pw" 0 = .ok hashed ∧
      (Register sampleLib sampleService (sampleEnv 100) sampleWorld
        { alice with ID := 0, Username := "bob", Email := "bob@x.com", CCCD := "1",
                     Password := "pw" }).2.2.users
        = [alice, { alice with ID := 8, Username := "bob", Email := "bob@x.com", CCCD := "1",
                               Password := hashed }] ∧
      sampleLib.bcrypt.CompareHashAndPassword hashed "pw" = true ∧ hashed ≠ "pw" :=
  ⟨sampleBcrypt_lawful, rfl,
   C4_register_stores_hash sampleLib sampleService (sampleEnv 100) sampleWorld _
     { alice with ID := 0, Username := "bob", Email := "bob@x.com", CCCD := "1", Password := "pw" }
     { alice with ID := 8, Username := "bob", Email := "bob@x.com", CCCD := "1",
                  Password := "$2a$10$pw" }
     sampleBcrypt_lawful rfl⟩

/-! ### Lifetime of issued tokens -/

theorem toUint_natCast (a : Nat) (h : a < 2 ^ 64) : toUint (a : Int) = a := by
  unfold toUint
  have h1 : ((a : Int) % 2 ^ 64) = a := Int.emod_eq_of_lt (by omega) (by exact_mod_cast h)
  rw [h1, Int.toNat_natCast]

/-- Validity of the claims the service writes: only `exp` is looked at. -/
theorem session_claims_Valid (a : Nat) (e now : Int) :
    MapClaims.Valid [("user_id", .num a), ("exp", .num e)] now =
      if e = 0 ∨ now < e then none else some { Expired := true } := by
  have hexp : List.lookup "exp" [("user_id", JVal.num a), ("exp", JVal.num e)]
      = some (.num e) := by
    simp [List.lookup]
  have hiat : List.lookup "iat" [("user_id", JVal.num a), ("exp", JVal.num e)] = none := by
    simp [List.lookup]
  have hnbf : List.lookup "nbf" [("user_id", JVal.num a), ("exp", JVal.num e)] = none := by
    simp [List.lookup]
  unfold MapClaims.Valid VerifyExpiresAt VerifyIssuedAt VerifyNotBefore
  rw [hexp, hiat, hnbf]
  by_cases h0 : e = 0
  · simp [h0]
  · by_cases hlt : now < e
    · simp [h0, hlt]
    · simp [h0, hlt]

/-- VerifyToken on a correctly signed session token: the account while the clock is before
`exp`, the expiry error from `exp` on. -/
theorem VerifyToken_session (lib : Lib) (s : AuthService) (env : Env) (t : String) (a : Nat)
    (e : Int) (hs : SignedSession lib.jwt s.jwtSecret t a e) (ha : a < 2 ^ 64) (he : e ≠ 0) :
    (env.now < e → VerifyToken lib s env t = .ok a) ∧
    (e ≤ env.now → VerifyToken lib s env t = .err (.Validation { Expired := true })) := by
  obtain ⟨ss, sig, hd, hv⟩ := hs
  constructor
  · intro hlt
    have hc : MapClaims.Valid [("user_id", .num a), ("exp", .num e)] env.now = none := by
      rw [session_claims_Valid]; simp [hlt]
    have hp := Parse_ok_of lib.jwt env.now t s.jwtSecret _ .HS256 hd rfl hv hc
    have hu : assertFloat64 [("user_id", JVal.num a), ("exp", JVal.num e)] "user_id"
        = some (a : Int) := by
      rw [assertFloat64_eq_some]; simp [List.lookup]
    unfold VerifyToken
    rw [hp]
    simp only [if_true, hu, toUint_natCast a ha]
  · intro hge
    have hc : MapClaims.Valid [("user_id", .num a), ("exp", .num e)] env.now
        = some { Expired := true } := by
      rw [session_claims_Valid]
      have : ¬ env.now < e := by omega
      simp [he, this]
    have hp := Parse_claims_error lib.jwt env.now t s.jwtSecret _ .HS256 _ hd rfl hv hc
    unfold VerifyToken
    rw [hp]

theorem SignedSession_of_RoundTrip (w : Wire) (secret : String) (a : Nat) (e : Int)
    (h : w.RoundTrip .HS256 secret [("user_id", .num a), ("exp", .num e)]) :
    SignedSession w secret (w.SignedString .HS256 secret [("user_id", .num a), ("exp", .num e)])
      a e := h

theorem addUnix_week (now : Int) : addUnix now (Hour * 24 * 7) = now + 604800 := by
  unfold addUnix Hour
  norm_num

theorem addUnix_hours (now h : Int) (hlo : -2562047 ≤ h) (hhi : h ≤ 2562047) :
    addUnix now (wrapInt64 (Hour * h)) = now + 3600 * h := by
  unfold addUnix wrapInt64 Hour
  omega

/-- A successful Login returns the account found under the name and the token made for it. -/
theorem Login_ok_inv (lib : Lib) (s : AuthService) (env : Env) (w : World)
    (username password : String) (user : User) (tok : String)
    (h : Login lib s env w username password = .ok (user, tok)) :
    w.users.find? (fun u => u.Username = username) = some user ∧
    lib.bcrypt.CompareHashAndPassword user.Password password = true ∧
    tok = generateJWT lib s env user := by
  unfold Login FindUserByUsername at h
  cases hf : env.fault .FindUserByUsername with
  | some msg => simp [hf] at h
  | none =>
    simp only [hf] at h
    cases hu : w.users.find? (fun u => u.Username = username) with
    | none => simp [hu] at h
    | some u =>
      simp only [hu] at h
      split_ifs at h with hc hv
      simp only [Except.ok.injEq, Prod.mk.injEq] at h
      obtain ⟨rfl, rfl⟩ := h
      exact ⟨rfl, by simpa using hc, rfl⟩

/-- C5: a session token issued at time t for account a, by GenerateToken (seven days) or by a
successful Login (JWTExpirationHours hours, a number of hours a time.Duration can hold), is
accepted by VerifyToken, which returns exactly a, at every time before t plus the TTL, and is
refused with the expiry error at every time from then on. Assumed of the libraries: the JWT
library decodes and verifies the token it has just signed; the expiry instant is not Unix
time 0, which the library reads as "no expiry". -/
theorem C5_issued_token_lifetime (lib : Lib) (s : AuthService) (env env1 : Env) :
    (∀ a : Nat, a < 2 ^ 64 → env.now + 604800 ≠ 0 →
      lib.jwt.RoundTrip .HS256 s.jwtSecret
        [("user_id", .num a), ("exp", .num (env.now + 604800))] →
      (env1.now < env.now + 604800 →
        VerifyToken lib s env1 (GenerateToken lib s env a) = .ok a) ∧
      (env.now + 604800 ≤ env1.now →
        VerifyToken lib s env1 (GenerateToken lib s env a)
          = .err (.Validation { Expired := true }))) ∧
    (∀ (w : World) (username password : String) (user : User) (tok : String),
      Login lib s env w username password = .ok (user, tok) →
      user.ID < 2 ^ 64 →
      -2562047 ≤ s.config.JWTExpirationHours → s.config.JWTExpirationHours ≤ 2562047 →
      env.now + 3600 * s.config.JWTExpirationHours ≠ 0 →
      lib.jwt.RoundTrip .HS256 s.jwtSecret
        [("user_id", .num user.ID),
         ("exp", .num (env.now + 3600 * s.config.JWTExpirationHours))] →
      (env1.now < env.now + 3600 * s.config.JWTExpirationHours →
        VerifyToken lib s env1 tok = .ok user.ID) ∧
      (env.now + 3600 * s.config.JWTExpirationHours ≤ env1.now →
        VerifyToken lib s env1 tok = .err (.Validation { Expired := true }))) := by
  constructor
  · intro a ha hne hrt
    have htok : GenerateToken lib s env a = lib.jwt.SignedString .HS256 s.jwtSecret
        [("user_id", .num a), ("exp", .num (env.now + 604800))] := by
      unfold GenerateToken
      rw [addUnix_week]
    rw [htok]
    exact VerifyToken_session lib s env1 _ a _ (SignedSession_of_RoundTrip _ _ _ _ hrt) ha hne
  · intro w username password user tok hok hid hlo hhi hne hrt
    obtain ⟨-, -, rfl⟩ := Login_ok_inv lib s env w username password user tok hok
    have htok : generateJWT lib s env user = lib.jwt.SignedString .HS256 s.jwtSecret
        [("user_id", .num user.ID),
         ("exp", .num (env.now + 3600 * s.config.JWTExpirationHours))] := by
      unfold generateJWT
      rw [addUnix_hours _ _ hlo hhi]
    rw [htok]
    exact VerifyToken_session lib s env1 _ user.ID _ (SignedSession_of_RoundTrip _ _ _ _ hrt)
      hid hne

/-- The sample token is what GenerateToken issues seven days before 2000000000 and what Login
issues 24 hours before it; it is accepted one second before that instant and refused at it. -/
theorem C5_witness :
    sampleLib.jwt.RoundTrip .HS256 sampleService.jwtSecret
      [("user_id", .num (7 : Nat)), ("exp", .num ((sampleEnv 1999395200).now + 604800))] ∧
    Login sampleLib sampleService (sampleEnv 1999913600) sampleWorld "alice" "Str0ng!Pass"
      = .ok (alice, tokenHS256) ∧
    VerifyToken sampleLib sampleService (sampleEnv 1999999999)
      (GenerateToken sampleLib sampleService (sampleEnv 1999395200) 7) = .ok 7 ∧
    VerifyToken sampleLib sampleService (sampleEnv 1999999999) tokenHS256 = .ok alice.ID ∧
    VerifyToken sampleLib sampleService (sampleEnv 2000000000) tokenHS256
      = .err (.Validation { Expired := true }) :=
  ⟨⟨signingHS256, macHS256, by decide, by decide⟩, rfl,
   ((C5_issued_token_lifetime sampleLib sampleService (sampleEnv 1999395200)
      (sampleEnv 1999999999)).1 7 (by decide) (by decide)
      ⟨signingHS256, macHS256, by decide, by decide⟩).1 (by decide),
   ((C5_issued_token_lifetime sampleLib sampleService (sampleEnv 1999913600)
      (sampleEnv 1999999999)).2 sampleWorld "alice" "Str0ng!Pass" alice tokenHS256 rfl
      (by decide) (by decide) (by decide) (by decide)
      ⟨signingHS256, macHS256, by decide, by decide⟩).1 (by decide),
   ((C5_issued_token_lifetime sampleLib sampleService (sampleEnv 1999913600)
      (sampleEnv 2000000000)).2 sampleWorld "alice" "Str0ng!Pass" alice tokenHS256 rfl
      (by decide) (by decide) (by decide) (by decide)
      ⟨signingHS256, macHS256, by decide, by decide⟩).2 (by decide)⟩

/-! ### Algorithm check, expiry and Logout -/

/-- A decodable token whose `exp` is a non-zero number not after the clock never parses,
whatever its signature. -/
theorem Parse_error_of_expired (w : Wire) (now : Int) (t secret : String) (p : Parts) (e : Int)
    (hd : w.decode t = some p) (hexp : p.claims.lookup "exp" = some (.num e)) (he0 : e ≠ 0)
    (hpast : e ≤ now) : ∃ err, Parse w now t (keyFunc secret) = .error err := by
  cases hp : Parse w now t (keyFunc secret) with
  | error err => exact ⟨err, rfl⟩
  | ok tok =>
    obtain ⟨p1, m, hd1, -, -, hc, -⟩ := Parse_ok_inv w now t secret tok hp
    rw [hd] at hd1
    cases hd1
    have hv : VerifyExpiresAt p.claims now = false := by
      unfold VerifyExpiresAt
      rw [hexp]
      have : ¬ now < e := by omega
      simp [he0, this]
    unfold MapClaims.Valid at hc
    simp [hv] at hc

/-- The middleware refuses a request whose token is blacklisted or does not parse: the answer
is written, the request aborted, user_id left unset and the next handler not run. -/
theorem AuthMiddleware_rejects (lib : Lib) (secret : String) (env : Env) (w : World) (t : String)
    (h : (∃ b ∈ w.blacklistedTokens, b.Token = t) ∨
      ∃ err, Parse lib.jwt env.now t (keyFunc secret) = .error err) :
    ∃ ctx, AuthMiddleware lib secret env w ("Bearer " ++ t) Context.fresh = .ok ctx ∧
      ctx.aborted = true ∧ ctx.userID = none ∧ ctx.nextCalled = false := by
  by_cases hsp : ' ' ∈ t.data
  · refine ⟨_, AuthMiddleware_bad_format lib secret env w _ _ (bearer_ne_empty t) ?_, rfl, rfl,
      rfl⟩
    have := Split_bearer_space t hsp
    omega
  · rw [AuthMiddleware_bearer lib secret env w t _ hsp]
    cases hb : IsBlacklisted env w t with
    | error e => exact ⟨_, rfl, rfl, rfl, rfl⟩
    | ok b =>
      cases b with
      | true => exact ⟨_, rfl, rfl, rfl, rfl⟩
      | false =>
        rcases h with hbl | ⟨err, hp⟩
        · have hf : env.fault .IsBlacklisted = none := by
            unfold IsBlacklisted at hb
            cases hfa : env.fault .IsBlacklisted with
            | none => rfl
            | some msg => simp [hfa] at hb
          rw [IsBlacklisted_of_mem env w t hf hbl] at hb
          cases hb
        · dsimp only
          rw [hp]
          exact ⟨_, rfl, rfl, rfl, rfl⟩

/-- C6, as stated, fails: the sample token whose header names HS384, MAC-signed with the shared
secret, is accepted by VerifyToken, by Logout and by the middleware. -/
theorem C6_counterexample :
    sampleLib.jwt.decode tokenHS384
      = some ⟨some "HS384", sampleClaims, signingHS384, macHS384⟩ ∧
    VerifyToken sampleLib sampleService (sampleEnv 1999999999) tokenHS384 = .ok 7 ∧
    (Logout sampleLib sampleService (sampleEnv 1999999999) sampleWorld tokenHS384).1 = .ok () ∧
    AuthMiddleware sampleLib "s3cret" (sampleEnv 1999999999) sampleWorld
      ("Bearer " ++ tokenHS384) Context.fresh
      = .ok { Context.fresh with userID := some 7, nextCalled := true } := by
  refine ⟨by decide, by decide, by decide, by decide⟩

/-- C6 (amended): verification is pinned to the HMAC family, not to HS256 alone. A decodable
token whose header names no HMAC method (RS256, ES256, none, an unknown name, or no name) is
refused by VerifyToken, by Logout (state unchanged) and by the middleware, whatever its
signature; a token whose header names any of HS256, HS384, HS512 and whose MAC verifies under
the secret is accepted when its claims are valid and carry a numeric user_id. -/
theorem C6_hmac_family_pinned (lib : Lib) (s : AuthService) (secret : String) (env : Env)
    (w : World) (t : String) (p : Parts) (hd : lib.jwt.decode t = some p) :
    ((∀ m : SigningMethodHMAC, p.alg ≠ some m.Alg) →
      VerifyToken lib s env t = .err (.Validation { Unverifiable := true }) ∧
      Logout lib s env w t = (.err (.New "invalid token"), w) ∧
      ∃ ctx, AuthMiddleware lib secret env w ("Bearer " ++ t) Context.fresh = .ok ctx ∧
        ctx.aborted = true ∧ ctx.userID = none ∧ ctx.nextCalled = false) ∧
    (∀ (m : SigningMethodHMAC) (uid : Int), p.alg = some m.Alg →
      p.claims.Valid env.now = none → p.claims.lookup "user_id" = some (.num uid) →
      (lib.jwt.verify m s.jwtSecret p.signingString p.signature = true →
        VerifyToken lib s env t = .ok (toUint uid)) ∧
      (lib.jwt.verify m secret p.signingString p.signature = true → ' ' ∉ t.data →
        IsBlacklisted env w t = .ok false →
        AuthMiddleware lib secret env w ("Bearer " ++ t) Context.fresh
          = .ok { Context.fresh with userID := some (toUint uid), nextCalled := true }) ∧
      (lib.jwt.verify m s.config.JWTSecret p.signingString p.signature = true →
        ∀ (e : Int) (w1 : World), p.claims.lookup "exp" = some (.num e) →
          AddToBlacklist env w t (toUint uid) e = (.ok (), w1) →
          Logout lib s env w t = (.ok (), w1))) := by
  constructor
  · intro hna
    refine ⟨?_, ?_, ?_⟩
    · unfold VerifyToken
      rw [Parse_not_HMAC lib.jwt env.now t s.jwtSecret p hd hna]
    · exact Logout_of_Parse_error lib s env w t _
        (Parse_not_HMAC lib.jwt env.now t s.config.JWTSecret p hd hna)
    · exact AuthMiddleware_rejects lib secret env w t
        (Or.inr ⟨_, Parse_not_HMAC lib.jwt env.now t secret p hd hna⟩)
  · intro m uid ha hc hu
    have hau := (assertFloat64_eq_some p.claims "user_id" uid).2 hu
    refine ⟨?_, ?_, ?_⟩
    · intro hv
      unfold VerifyToken
      rw [Parse_ok_of lib.jwt env.now t s.jwtSecret p m hd ha hv hc]
      simp only [if_true, hau]
    · intro hv hsp hbl
      rw [AuthMiddleware_bearer lib secret env w t _ hsp, hbl]
      dsimp only
      rw [Parse_ok_of lib.jwt env.now t secret p m hd ha hv hc]
      simp only [if_true, hau]
    · intro hv e w1 he hadd
      have hae := (assertFloat64_eq_some p.claims "exp" e).2 he
      unfold Logout
      rw [Parse_ok_of lib.jwt env.now t s.config.JWTSecret p m hd ha hv hc]
      simp only [if_true, hau, hae, hadd]

/-- The unsigned sample token (`alg` none) is refused by all three entry points, and the HS384
sample token falls under the accepting half. -/
theorem C6_witness :
    sampleLib.jwt.decode tokenNone = some ⟨some "none", sampleClaims, signingNone, ""⟩ ∧
    VerifyToken sampleLib sampleService (sampleEnv 1999999999) tokenNone
      = .err (.Validation { Unverifiable := true }) ∧
    Logout sampleLib sampleService (sampleEnv 1999999999) sampleWorld tokenNone
      = (.err (.New "invalid token"), sampleWorld) ∧
    VerifyToken sampleLib sampleService (sampleEnv 1999999999) tokenHS384 = .ok (toUint 7) :=
  ⟨by decide,
   ((C6_hmac_family_pinned sampleLib sampleService "s3cret" (sampleEnv 1999999999) sampleWorld
      tokenNone ⟨some "none", sampleClaims, signingNone, ""⟩ (by decide)).1
      (by intro m; cases m <;> decide)).1,
   ((C6_hmac_family_pinned sampleLib sampleService "s3cret" (sampleEnv 1999999999) sampleWorld
      tokenNone ⟨some "none", sampleClaims, signingNone, ""⟩ (by decide)).1
      (by intro m; cases m <;> decide)).2.1,
   ((C6_hmac_family_pinned sampleLib sampleService "s3cret" (sampleEnv 1999999999) sampleWorld
      tokenHS384 ⟨some "HS384", sampleClaims, signingHS384, macHS384⟩ (by decide)).2
      .HS384 7 rfl (by decide) (by decide)).1 (by decide)⟩

/-- C7, as stated, fails: the correctly signed sample token, presented one second after its
expiry, is refused by Logout with "invalid token" and nothing is blacklisted. -/
theorem C7_counterexample :
    SignedSession sampleLib.jwt sampleService.config.JWTSecret tokenHS256 7 2000000000 ∧
    (2000000000 : Int) < (sampleEnv 2000000001).now ∧
    Logout sampleLib sampleService (sampleEnv 2000000001) sampleWorld tokenHS256
      = (.err (.New "invalid token"), sampleWorld) :=
  ⟨⟨signingHS256, macHS256, by decide, by decide⟩, by decide, by decide⟩

/-- C7 (amended): Logout checks the expiry of the token together with its signature and
structure. For every decodable token whose `exp` claim is a (non-zero) instant that has been
reached, correctly signed or not, Logout fails with "invalid token" and leaves the state, the
blacklist included, unchanged. -/
theorem C7_logout_refuses_expired (lib : Lib) (s : AuthService) (env : Env) (w : World)
    (t : String) (p : Parts) (e : Int) (hd : lib.jwt.decode t = some p)
    (hexp : p.claims.lookup "exp" = some (.num e)) (he0 : e ≠ 0) (hpast : e ≤ env.now) :
    Logout lib s env w t = (.err (.New "invalid token"), w) := by
  obtain ⟨err, hp⟩ := Parse_error_of_expired lib.jwt env.now t s.config.JWTSecret p e hd hexp
    he0 hpast
  exact Logout_of_Parse_error lib s env w t err hp

/-- The sample token at the very second of its expiry. -/
theorem C7_witness :
    sampleLib.jwt.decode tokenHS256
      = some ⟨some "HS256", sampleClaims, signingHS256, macHS256⟩ ∧
    sampleClaims.lookup "exp" = some (.num 2000000000) ∧
    Logout sampleLib sampleService (sampleEnv 2000000000) sampleWorld tokenHS256
      = (.err (.New "invalid token"), sampleWorld) :=
  ⟨by decide, by decide,
   C7_logout_refuses_expired sampleLib sampleService (sampleEnv 2000000000) sampleWorld
     tokenHS256 ⟨some "HS256", sampleClaims, signingHS256, macHS256⟩ 2000000000
     (by decide) (by decide) (by decide) (by decide)⟩

/-- Logout of a correctly signed session token is the insert into the blacklist, as long as the
token has not expired. -/
theorem Logout_session (lib : Lib) (s : AuthService) (env : Env) (w : World) (t : String)
    (a : Nat) (e : Int) (hs : SignedSession lib.jwt s.config.JWTSecret t a e) (ha : a < 2 ^ 64)
    (hvalid : e = 0 ∨ env.now < e) :
    Logout lib s env w t =
      match AddToBlacklist env w t a e with
      | (.error err, w1) => (.err err, w1)
      | (.ok _, w1) => (.ok (), w1) := by
  obtain ⟨ss, sig, hd, hv⟩ := hs
  have hc : MapClaims.Valid [("user_id", .num a), ("exp", .num e)] env.now = none := by
    rw [session_claims_Valid]; simp [hvalid]
  have hu : assertFloat64 [("user_id", JVal.num a), ("exp", JVal.num e)] "user_id"
      = some (a : Int) := by
    rw [assertFloat64_eq_some]; simp [List.lookup]
  have he : assertFloat64 [("user_id", JVal.num a), ("exp", JVal.num e)] "exp" = some e := by
    rw [assertFloat64_eq_some]; simp [List.lookup]
  unfold Logout
  rw [Parse_ok_of lib.jwt env.now t s.config.JWTSecret _ .HS256 hd rfl hv hc]
  simp only [if_true, hu, he, toUint_natCast a ha]

/-- C8: for every correctly signed, unexpired session token t carrying account ID a and expiry
e, a successful Logout(t) appends to the blacklist exactly one record, with token the raw string
t, account ID a and expiry e, after which IsBlacklisted(t) is true, and changes no other
blacklist record, no account, no verification or reset token and no mail; and Logout does
succeed whenever the insert is not refused (the statement does not fail, t is not yet listed). -/
theorem C8_logout_blacklists_token (lib : Lib) (s : AuthService) (env : Env) (w : World)
    (t : String) (a : Nat) (e : Int)
    (hs : SignedSession lib.jwt s.config.JWTSecret t a e) (ha : a < 2 ^ 64)
    (hunexpired : env.now < e) :
    (∀ w1, Logout lib s env w t = (.ok (), w1) →
      w1.blacklistedTokens = w.blacklistedTokens ++
        [{ ID := w.blacklistedTokenSeq + 1, Token := t, UserID := a, ExpiresAt := e,
           CreatedAt := env.now }] ∧
      (∀ env1 : Env, env1.fault .IsBlacklisted = none → IsBlacklisted env1 w1 t = .ok true) ∧
      w1.users = w.users ∧ w1.verificationTokens = w.verificationTokens ∧
      w1.passwordResetTokens = w.passwordResetTokens ∧ w1.outbox = w.outbox) ∧
    (env.fault .AddToBlacklist = none →
      (∀ b ∈ w.blacklistedTokens, b.ID ≠ w.blacklistedTokenSeq + 1 ∧ b.Token ≠ t) →
      ∃ w1, Logout lib s env w t = (.ok (), w1)) := by
  have hL := Logout_session lib s env w t a e hs ha (Or.inr hunexpired)
  constructor
  · intro w1 hok
    rw [hL] at hok
    rcases hadd : AddToBlacklist env w t a e with ⟨r, w2⟩
    rw [hadd] at hok
    cases r with
    | error err => cases hok
    | ok u =>
      obtain ⟨-, -, hw2⟩ := AddToBlacklist_ok_inv env w w2 t a e hadd
      simp only [Prod.mk.injEq, true_and] at hok
      rw [← hok, hw2]
      refine ⟨rfl, ?_, rfl, rfl, rfl, rfl⟩
      intro env1 hf
      exact IsBlacklisted_of_mem env1 _ t hf
        ⟨_, List.mem_append_right _ (List.mem_singleton.mpr rfl), rfl⟩
  · intro hf hfree
    rw [hL, AddToBlacklist_ok_of env w t a e hf hfree]
    exact ⟨_, rfl⟩

/-- Logout of the unexpired sample token in the sample database. -/
theorem C8_witness :
    SignedSession sampleLib.jwt sampleService.config.JWTSecret tokenHS256 7 2000000000 ∧
    (sampleEnv 1999999999).now < 2000000000 ∧
    (Logout sampleLib sampleService (sampleEnv 1999999999) sampleWorld tokenHS256).1 = .ok () ∧
    (Logout sampleLib sampleService (sampleEnv 1999999999) sampleWorld
        tokenHS256).2.blacklistedTokens
      = [{ ID := 1, Token := tokenHS256, UserID := 7, ExpiresAt := 2000000000,
           CreatedAt := 1999999999 }] :=
  ⟨⟨signingHS256, macHS256, by decide, by decide⟩, by decide, by decide,
   ((C8_logout_blacklists_token sampleLib sampleService (sampleEnv 1999999999) sampleWorld
      tokenHS256 7 2000000000 ⟨signingHS256, macHS256, by decide, by decide⟩ (by decide)
      (by decide)).1 _ (by decide)).1⟩

/-- C9: for every string that is not a well-formed token with a valid (HMAC) signature under
the secret Logout verifies with, Logout fails with the error "invalid token" and leaves the
state, the blacklist included, unchanged. -/
theorem C9_logout_refuses_unsigned (lib : Lib) (s : AuthService) (env : Env) (w : World)
    (t : String)
    (h : ¬ ∃ p m, lib.jwt.decode t = some p ∧ p.alg = some (SigningMethodHMAC.Alg m) ∧
      lib.jwt.verify m s.config.JWTSecret p.signingString p.signature = true) :
    Logout lib s env w t = (.err (.New "invalid token"), w) := by
  obtain ⟨err, hp⟩ := Parse_error_of_not_signed lib.jwt env.now t s.config.JWTSecret h
  exact Logout_of_Parse_error lib s env w t err hp

/-- A string that is no token at all, and the sample token signed with another key. -/
theorem C9_witness :
    Logout sampleLib sampleService (sampleEnv 1999999999) sampleWorld "not-a-token"
      = (.err (.New "invalid token"), sampleWorld) ∧
    Logout sampleLib sampleService (sampleEnv 1999999999) sampleWorld tokenOtherKey
      = (.err (.New "invalid token"), sampleWorld) :=
  ⟨C9_logout_refuses_unsigned sampleLib sampleService (sampleEnv 1999999999) sampleWorld
     "not-a-token" (by
       rintro ⟨p, m, hd, -, -⟩
       have hn : sampleLib.jwt.decode "not-a-token" = none := by decide
       rw [hn] at hd
       cases hd),
   C9_logout_refuses_unsigned sampleLib sampleService (sampleEnv 1999999999) sampleWorld
     tokenOtherKey (by
       rintro ⟨p, m, hd, -, hv⟩
       have hn : sampleLib.jwt.decode tokenOtherKey
           = some ⟨some "HS256", sampleClaims, signingHS256, macOther⟩ := by decide
       rw [hn] at hd
       cases hd
       revert hv
       cases m <;> decide)⟩

/-! ### The blacklist over time -/

theorem CreateUser_blacklistedTokens (env : Env) (w : World) (u : User) :
    (CreateUser env w u).2.blacklistedTokens = w.blacklistedTokens := by
  unfold CreateUser
  cases env.fault .CreateUser with
  | some msg => rfl
  | none =>
    dsimp only
    split_ifs <;> rfl

theorem CreateVerificationToken_blacklistedTokens (env : Env) (w : World)
    (t : VerificationToken) :
    (CreateVerificationToken env w t).2.blacklistedTokens = w.blacklistedTokens := by
  unfold CreateVerificationToken
  cases env.fault .CreateVerificationToken with
  | some msg => rfl
  | none =>
    dsimp only
    split_ifs <;> rfl

theorem SendVerificationEmail_blacklistedTokens (cfg : EmailConfig) (env : Env) (w : World)
    (toAddr name token : String) :
    (SendVerificationEmail cfg env w toAddr name token).2.blacklistedTokens
      = w.blacklistedTokens := by
  unfold SendVerificationEmail
  split_ifs
  · rfl
  · rfl
  · unfold renderAndSend
    cases env.fault .ParseTemplate <;> cases env.fault .ExecuteTemplate <;>
      cases env.fault .DialAndSend <;> rfl

/-- Register never touches the blacklist. -/
theorem Register_blacklistedTokens (lib : Lib) (s : AuthService) (env : Env) (w : World)
    (user : User) : (Register lib s env w user).2.2.blacklistedTokens = w.blacklistedTokens := by
  unfold Register
  cases FindUserByUsername env w user.Username with
  | error e => rfl
  | ok o1 =>
  cases o1 with
  | some u => rfl
  | none =>
  dsimp only
  cases FindUserByEmail env w user.Email with
  | error e => rfl
  | ok o2 =>
  cases o2 with
  | some u => rfl
  | none =>
  dsimp only
  cases (if user.CCCD ≠ "" then FindUserByCCCD env w user.CCCD else .ok none) with
  | error e => rfl
  | ok o3 =>
  cases o3 with
  | some u => rfl
  | none =>
  dsimp only
  cases lib.bcrypt.GenerateFromPassword user.Password env.salt with
  | error e => rfl
  | ok hashed =>
  dsimp only
  have hc := CreateUser_blacklistedTokens env w { user with Password := hashed }
  rcases hcu : CreateUser env w { user with Password := hashed } with ⟨r, wc⟩
  rw [hcu] at hc
  cases r with
  | error e => exact hc
  | ok user2 =>
  dsimp only at hc ⊢
  split_ifs
  · have hv := CreateVerificationToken_blacklistedTokens env wc
      { ID := 0, UserID := user2.ID, Token := GenerateRandomString env 32,
        ExpiresAt := addUnix env.now (24 * Hour), CreatedAt := 0 }
    rcases hcv : CreateVerificationToken env wc
      { ID := 0, UserID := user2.ID, Token := GenerateRandomString env 32,
        ExpiresAt := addUnix env.now (24 * Hour), CreatedAt := 0 } with ⟨rv, wv⟩
    rw [hcv] at hv
    cases rv with
    | error e => exact hv.trans hc
    | ok uu =>
      dsimp only at hv ⊢
      have hm := SendVerificationEmail_blacklistedTokens s.emailService env wv user2.Email
        user2.Name (GenerateRandomString env 32)
      rcases hsm : SendVerificationEmail s.emailService env wv user2.Email user2.Name
        (GenerateRandomString env 32) with ⟨rm, wm⟩
      rw [hsm] at hm
      cases rm with
      | error e => exact hm.trans (hv.trans hc)
      | ok uu2 => exact hm.trans (hv.trans hc)
  · exact hc

theorem AddToBlacklist_mono (env : Env) (w : World) (t : String) (u : Nat) (e : Int)
    (b : BlacklistedToken) (hb : b ∈ w.blacklistedTokens) :
    b ∈ (AddToBlacklist env w t u e).2.blacklistedTokens := by
  unfold AddToBlacklist
  cases env.fault .AddToBlacklist with
  | some msg => exact hb
  | none =>
    dsimp only
    split_ifs
    · exact hb
    · exact List.mem_append_left _ hb

/-- Logout never removes a record from the blacklist. -/
theorem Logout_mono (lib : Lib) (s : AuthService) (env : Env) (w : World) (t : String)
    (b : BlacklistedToken) (hb : b ∈ w.blacklistedTokens) :
    b ∈ (Logout lib s env w t).2.blacklistedTokens := by
  unfold Logout
  cases Parse lib.jwt env.now t (keyFunc s.config.JWTSecret) with
  | error e => exact hb
  | ok tok =>
    dsimp only
    split_ifs
    · cases assertFloat64 tok.Claims "user_id" with
      | none => exact hb
      | some uid =>
        cases assertFloat64 tok.Claims "exp" with
        | none => exact hb
        | some e =>
          dsimp only
          have hm := AddToBlacklist_mono env w t (toUint uid) e b hb
          rcases hadd : AddToBlacklist env w t (toUint uid) e with ⟨r, w1⟩
          rw [hadd] at hm
          cases r <;> exact hm
    · exact hb

/-- A sweep keeps every record whose expiry has not passed. -/
theorem Cleanup_keeps (env : Env) (w : World) (b : BlacklistedToken)
    (hb : b ∈ w.blacklistedTokens) (hlive : ¬ b.ExpiresAt < env.now) :
    b ∈ (CleanupBlacklistedTokens env w).blacklistedTokens := by
  unfold CleanupBlacklistedTokens
  cases env.fault .CleanupBlacklistedTokens with
  | some msg => exact hb
  | none =>
    dsimp only
    rw [List.mem_filter]
    exact ⟨hb, by simpa using hlive⟩

/-- A sweep removes a record only when its expiry is strictly before the current time. -/
theorem Cleanup_removes_only_expired (env : Env) (w : World) (b : BlacklistedToken)
    (hb : b ∈ w.blacklistedTokens)
    (hgone : b ∉ (CleanupBlacklistedTokens env w).blacklistedTokens) :
    b.ExpiresAt < env.now := by
  by_contra hlive
  exact hgone (Cleanup_keeps env w b hb hlive)

/-- Along any history whose calls all run no later than `now`, a record stays in the blacklist
unless its expiry is before `now`. -/
theorem run_keeps (lib : Lib) (s : AuthService) (now : Int) (b : BlacklistedToken)
    (events : List Event) :
    ∀ w : World, b ∈ w.blacklistedTokens → (∀ ev ∈ events, ev.env.now ≤ now) →
      b ∈ (run lib s w events).blacklistedTokens ∨ b.ExpiresAt < now := by
  induction events with
  | nil => intro w hb _; exact Or.inl hb
  | cons ev evs ih =>
    intro w hb hclock
    have hev : ev.env.now ≤ now := hclock ev (List.mem_cons_self _ _)
    have hrest : ∀ x ∈ evs, x.env.now ≤ now := fun x hx => hclock x (List.mem_cons_of_mem _ hx)
    have hrun : run lib s w (ev :: evs) = run lib s (step lib s w ev) evs := rfl
    rw [hrun]
    cases ev with
    | cleanup env =>
      by_cases hlive : b.ExpiresAt < env.now
      · right
        have : env.now ≤ now := hev
        omega
      · exact ih _ (Cleanup_keeps env w b hb hlive) hrest
    | logout env t2 => exact ih _ (Logout_mono lib s env w t2 b hb) hrest
    | register env u =>
      refine ih _ ?_ hrest
      show b ∈ (Register lib s env w u).2.2.blacklistedTokens
      rw [Register_blacklistedTokens]
      exact hb

/-- C10 (amended): once a token whose `exp` claim is not 0 has been revoked by a successful
Logout, the middleware does not accept it at any time that is not earlier than the calls that
ran in between, whatever sequence of cleanup sweeps, further logouts and registrations those
calls are: the request is answered and aborted, user_id is left unset and the next handler is
not run. A sweep removes a record only when its recorded expiry is strictly before the time of
the sweep, and from then on such a token no longer parses because it has expired. (A token
whose `exp` claim is 0 is read by the JWT library as having no expiry; it is outside this
statement.) -/
theorem C10_revoked_stays_revoked (lib : Lib) (s : AuthService) (secret : String)
    (env0 env1 : Env) (w0 w1 : World) (t : String) (events : List Event)
    (hok : Logout lib s env0 w0 t = (.ok (), w1))
    (hexp : ∀ p, lib.jwt.decode t = some p → p.claims.lookup "exp" ≠ some (.num 0))
    (hclock : ∀ ev ∈ events, ev.env.now ≤ env1.now) :
    (∃ ctx, AuthMiddleware lib secret env1 (run lib s w1 events) ("Bearer " ++ t) Context.fresh
        = .ok ctx ∧ ctx.aborted = true ∧ ctx.userID = none ∧ ctx.nextCalled = false) ∧
    (∀ (env : Env) (w : World) (b : BlacklistedToken), b ∈ w.blacklistedTokens →
      b ∉ (CleanupBlacklistedTokens env w).blacklistedTokens → b.ExpiresAt < env.now) := by
  refine ⟨?_, fun env w b hb hgone => Cleanup_removes_only_expired env w b hb hgone⟩
  obtain ⟨p, m, uid, e, hd, -, -, -, -, he, hadd⟩ := Logout_ok_inv lib s env0 w0 w1 t hok
  obtain ⟨-, -, hw1⟩ := AddToBlacklist_ok_inv env0 w0 w1 t _ e hadd
  have hmem : (⟨w0.blacklistedTokenSeq + 1, t, toUint uid, e, env0.now⟩ : BlacklistedToken)
      ∈ w1.blacklistedTokens := by
    rw [hw1]
    exact List.mem_append_right _ (List.mem_singleton.mpr rfl)
  have he0 : e ≠ 0 := by
    intro h0
    rw [h0] at he
    exact hexp p hd he
  rcases run_keeps lib s env1.now _ events w1 hmem hclock with hin | hgone
  · exact AuthMiddleware_rejects lib secret env1 _ t (Or.inl ⟨_, hin, rfl⟩)
  · have hle : e ≤ env1.now := le_of_lt hgone
    exact AuthMiddleware_rejects lib secret env1 _ t
      (Or.inr (Parse_error_of_expired lib.jwt env1.now t secret p e hd he he0 hle))

/-- The sample token is revoked, survives a first sweep, is swept after its expiry, and is
still refused afterwards. -/
theorem C10_witness :
    (Logout sampleLib sampleService (sampleEnv 1999999990) sampleWorld tokenHS256).1 = .ok () ∧
    (run sampleLib sampleService
        (Logout sampleLib sampleService (sampleEnv 1999999990) sampleWorld tokenHS256).2
        [.cleanup (sampleEnv 1999999995), .logout (sampleEnv 1999999996) tokenHS384,
         .cleanup (sampleEnv 2000000005)]).blacklistedTokens = [] ∧
    ∃ ctx, AuthMiddleware sampleLib "s3cret" (sampleEnv 2000000010)
        (run sampleLib sampleService
          (Logout sampleLib sampleService (sampleEnv 1999999990) sampleWorld tokenHS256).2
          [.cleanup (sampleEnv 1999999995), .logout (sampleEnv 1999999996) tokenHS384,
           .cleanup (sampleEnv 2000000005)])
        ("Bearer " ++ tokenHS256) Context.fresh = .ok ctx ∧
      ctx.aborted = true ∧ ctx.userID = none ∧ ctx.nextCalled = false :=
  ⟨by decide, by decide,
   (C10_revoked_stays_revoked sampleLib sampleService "s3cret" (sampleEnv 1999999990)
      (sampleEnv 2000000010) sampleWorld _ tokenHS256
      [.cleanup (sampleEnv 1999999995), .logout (sampleEnv 1999999996) tokenHS384,
       .cleanup (sampleEnv 2000000005)]
      (by decide)
      (by
        intro p hd
        have hn : sampleLib.jwt.decode tokenHS256
            = some ⟨some "HS256", sampleClaims, signingHS256, macHS256⟩ := by decide
        rw [hn] at hd
        cases hd
        decide)
      (by decide)).1⟩

/-- C10 (counterexample): the token for account 7 signed with the service's secret whose `exp`
claim is 0 is accepted by Logout at time 1000 and recorded in the blacklist with expiry 0; the
middleware refuses it as revoked at time 1001; the sweep at time 1002 removes the record, its
expiry being before the time of the sweep; at time 1003 the middleware accepts the very same
token again, sets user_id to 7 and runs the next handler. -/
theorem C10_counterexample :
    (Logout sampleLib3 sampleService (sampleEnv 1000) sampleWorld tokenExpZero).1 = .ok () ∧
    (Logout sampleLib3 sampleService (sampleEnv 1000) sampleWorld
        tokenExpZero).2.blacklistedTokens
      = [{ ID := 1, Token := tokenExpZero, UserID := 7, ExpiresAt := 0, CreatedAt := 1000 }] ∧
    AuthMiddleware sampleLib3 "s3cret" (sampleEnv 1001)
        (Logout sampleLib3 sampleService (sampleEnv 1000) sampleWorld tokenExpZero).2
        ("Bearer " ++ tokenExpZero) Context.fresh
      = .ok (respondAndAbort Context.fresh 401 "token has been revoked") ∧
    (run sampleLib3 sampleService
        (Logout sampleLib3 sampleService (sampleEnv 1000) sampleWorld tokenExpZero).2
        [.cleanup (sampleEnv 1002)]).blacklistedTokens = [] ∧
    AuthMiddleware sampleLib3 "s3cret" (sampleEnv 1003)
        (run sampleLib3 sampleService
          (Logout sampleLib3 sampleService (sampleEnv 1000) sampleWorld tokenExpZero).2
          [.cleanup (sampleEnv 1002)])
        ("Bearer " ++ tokenExpZero) Context.fresh
      = .ok { Context.fresh with userID := some 7, nextCalled := true } :=
  ⟨rfl, by decide, rfl, by decide, rfl⟩

/-! ### Login of an unverified account -/

/-- C11: for an account whose verified flag is false (the username lookup answering): when
email verification is required, Login with the correct password fails with the error "email
not verified" and returns no token; a wrong password yields "invalid username or password"
whether or not verification is required, because the password is checked first; when
verification is not required, Login with the correct password succeeds and returns the account
with the token made for it. The two errors are different values. -/
theorem C11_login_email_not_verified (lib : Lib) (s : AuthService) (env : Env) (w : World)
    (username password : String) (acct : User)
    (hs : env.fault .FindUserByUsername = none)
    (hfind : w.users.find? (fun u => u.Username = username) = some acct)
    (hunverified : acct.EmailVerified = false) :
    (s.config.EmailVerificationRequired = true →
      lib.bcrypt.CompareHashAndPassword acct.Password password = true →
      Login lib s env w username password = .error (.New "email not verified")) ∧
    (lib.bcrypt.CompareHashAndPassword acct.Password password = false →
      Login lib s env w username password = .error (.New "invalid username or password")) ∧
    (s.config.EmailVerificationRequired = false →
      lib.bcrypt.CompareHashAndPassword acct.Password password = true →
      Login lib s env w username password = .ok (acct, generateJWT lib s env acct)) ∧
    Error.New "email not verified" ≠ Error.New "invalid username or password" := by
  refine ⟨?_, ?_, ?_, by decide⟩
  · intro hreq hc
    simp [Login, FindUserByUsername, hs, hfind, hc, hreq, hunverified]
  · intro hc
    simp [Login, FindUserByUsername, hs, hfind, hc]
  · intro hreq hc
    simp [Login, FindUserByUsername, hs, hfind, hc, hreq]

/-- The unverified sample account `bob`: right password, wrong password, and right password
on a service that does not require verification. -/
theorem C11_witness :
    (sampleEnv 1500).fault .FindUserByUsername = none ∧
    sampleWorld2.users.find? (fun u => u.Username = "bob") = some bob ∧
    bob.EmailVerified = false ∧
    Login sampleLib sampleService (sampleEnv 1500) sampleWorld2 "bob" "0ldPass!"
      = .error (.New "email not verified") ∧
    Login sampleLib sampleService (sampleEnv 1500) sampleWorld2 "bob" "wrongpass"
      = .error (.New "invalid username or password") ∧
    (Login sampleLib
      { sampleService with config := { sampleService.config with
          EmailVerificationRequired := false } }
      (sampleEnv 1500) sampleWorld2 "bob" "0ldPass!").toOption.map Prod.fst = some bob :=
  ⟨rfl, by decide, rfl,
   (C11_login_email_not_verified sampleLib sampleService (sampleEnv 1500) sampleWorld2
      "bob" "0ldPass!" bob rfl (by decide) rfl).1 rfl (by decide),
   (C11_login_email_not_verified sampleLib sampleService (sampleEnv 1500) sampleWorld2
      "bob" "wrongpass" bob rfl (by decide) rfl).2.1 (by decide),
   by decide⟩

/-! ### Email verification -/

theorem VerifyUser_ok_inv (env : Env) (w w1 : World) (id : Nat)
    (h : VerifyUser env w id = (.ok (), w1)) :
    (∃ u ∈ w.users, u.ID = id) ∧
    w1 = { w with
      users := w.users.map (fun u => if u.ID = id then { u with EmailVerified := true } else u) } := by
  unfold VerifyUser at h
  cases hf : env.fault .VerifyUser with
  | some msg => simp [hf] at h
  | none =>
    simp only [hf] at h
    split_ifs at h with hany
    · simp only [Prod.mk.injEq, true_and] at h
      refine ⟨?_, h.symm⟩
      simpa using hany
    · simp at h

theorem VerifyUser_error_inv (env : Env) (w w1 : World) (id : Nat) (e : Error)
    (h : VerifyUser env w id = (.error e, w1)) : w1 = w := by
  unfold VerifyUser at h
  cases hf : env.fault .VerifyUser with
  | some msg =>
    simp only [hf, Prod.mk.injEq] at h
    exact h.2.symm
  | none =>
    simp only [hf] at h
    split_ifs at h
    · simp at h
    · simp only [Prod.mk.injEq] at h
      exact h.2.symm

theorem VerifyUser_not_found (env : Env) (w : World) (id : Nat)
    (hf : env.fault .VerifyUser = none) (hno : ∀ u ∈ w.users, u.ID ≠ id) :
    VerifyUser env w id = (.error (.New "user not found"), w) := by
  have hany : ¬ (w.users.any (fun u => decide (u.ID = id)) = true) := by
    simp only [List.any_eq_true, not_exists, not_and]
    intro u hu
    simpa using hno u hu
  simp only [VerifyUser, hf, if_neg hany]

theorem DeleteVerificationToken_inv (env : Env) (w w1 : World) (t : String)
    (r : Except Error Unit) (h : DeleteVerificationToken env w t = (r, w1)) :
    (w1 = w ∧ ∃ e, r = .error e) ∨
    (r = .ok () ∧ w1 = { w with
      verificationTokens := w.verificationTokens.filter (fun v => !decide (v.Token = t)) }) := by
  unfold DeleteVerificationToken at h
  cases hf : env.fault .DeleteVerificationToken with
  | some msg =>
    simp only [hf, Prod.mk.injEq] at h
    exact Or.inl ⟨h.2.symm, _, h.1.symm⟩
  | none =>
    simp only [hf, Prod.mk.injEq] at h
    exact Or.inr ⟨h.1.symm, h.2.symm⟩

/-- Marking the rows with a key as verified leaves every such row verified. -/
theorem verified_of_mem_map (users : List User) (id : Nat) (u : User)
    (hu : u ∈ users.map (fun u => if u.ID = id then { u with EmailVerified := true } else u))
    (hid : u.ID = id) : u.EmailVerified = true := by
  rw [List.mem_map] at hu
  obtain ⟨v, -, hv⟩ := hu
  by_cases h : v.ID = id
  · rw [if_pos h] at hv
    rw [← hv]
  · rw [if_neg h] at hv
    rw [← hv] at hid
    exact absurd hid h

theorem exists_of_mem_map (users : List User) (id : Nat) (h : ∃ u ∈ users, u.ID = id) :
    ∃ u ∈ users.map (fun u => if u.ID = id then { u with EmailVerified := true } else u),
      u.ID = id := by
  obtain ⟨u, hu, hid⟩ := h
  refine ⟨{ u with EmailVerified := true }, ?_, hid⟩
  rw [List.mem_map]
  exact ⟨u, hu, by rw [if_pos hid]⟩

/-- VerifyEmail when no stored verification token equals the one presented. -/
theorem VerifyEmail_absent (env : Env) (w : World) (t : String)
    (hf : env.fault .FindVerificationToken = none)
    (hno : ∀ v ∈ w.verificationTokens, v.Token ≠ t) :
    VerifyEmail env w t = (.error (.New "invalid or expired token"), w) := by
  have hn : w.verificationTokens.find? (fun v => v.Token = t) = none :=
    find?_none_of_forall _ _ (fun v hv => by simpa using hno v hv)
  simp only [VerifyEmail, FindVerificationToken, hf, hn]

/-- VerifyEmail when the stored token found has expired. -/
theorem VerifyEmail_expired (env : Env) (w : World) (t : String) (tok : VerificationToken)
    (hf : env.fault .FindVerificationToken = none)
    (hfind : w.verificationTokens.find? (fun v => v.Token = t) = some tok)
    (hexp : env.now > tok.ExpiresAt) :
    VerifyEmail env w t = (.error (.New "token has expired"), w) := by
  simp only [VerifyEmail, FindVerificationToken, hf, hfind, if_pos hexp]

/-- VerifyEmail when the account the token belongs to is gone. -/
theorem VerifyEmail_no_account (env : Env) (w : World) (t : String) (tok : VerificationToken)
    (hf : env.fault .FindVerificationToken = none) (hfu : env.fault .VerifyUser = none)
    (hfind : w.verificationTokens.find? (fun v => v.Token = t) = some tok)
    (hlive : ¬ env.now > tok.ExpiresAt) (hno : ∀ u ∈ w.users, u.ID ≠ tok.UserID) :
    VerifyEmail env w t = (.error (.New "user not found"), w) := by
  simp only [VerifyEmail, FindVerificationToken, hf, hfind, if_neg hlive,
    VerifyUser_not_found env w tok.UserID hfu hno]

/-- Whatever VerifyEmail returns: either the verification tokens are untouched, or the token
was found unexpired, its account has been marked verified and exactly the rows with that token
are gone. -/
theorem VerifyEmail_outcome (env : Env) (w w1 : World) (t : String) (r : Except Error Unit)
    (h : VerifyEmail env w t = (r, w1)) :
    (w1.verificationTokens = w.verificationTokens ∧ (r = .ok () → False)) ∨
    (∃ tok, w.verificationTokens.find? (fun v => v.Token = t) = some tok ∧
      ¬ env.now > tok.ExpiresAt ∧ (∃ u ∈ w.users, u.ID = tok.UserID) ∧
      r = .ok () ∧
      w1 = { w with
        users := w.users.map
          (fun u => if u.ID = tok.UserID then { u with EmailVerified := true } else u)
        verificationTokens := w.verificationTokens.filter (fun v => !decide (v.Token = t)) }) := by
  unfold VerifyEmail FindVerificationToken at h
  cases hf : env.fault .FindVerificationToken with
  | some msg =>
    simp only [hf, Prod.mk.injEq] at h
    left; rw [← h.2, ← h.1]; simp
  | none =>
    simp only [hf] at h
    cases hfind : w.verificationTokens.find? (fun v => v.Token = t) with
    | none =>
      simp only [hfind, Prod.mk.injEq] at h
      left; rw [← h.2, ← h.1]; simp
    | some tok =>
      simp only [hfind] at h
      by_cases hexp : env.now > tok.ExpiresAt
      · simp only [if_pos hexp, Prod.mk.injEq] at h
        left; rw [← h.2, ← h.1]; simp
      · simp only [if_neg hexp] at h
        rcases hvu : VerifyUser env w tok.UserID with ⟨rv, wv⟩
        rw [hvu] at h
        cases rv with
        | error e =>
          have hw := VerifyUser_error_inv env w wv tok.UserID e hvu
          simp only [Prod.mk.injEq] at h
          left; rw [← h.2, ← h.1, hw]; simp
        | ok uu =>
          obtain ⟨hex, hwv⟩ := VerifyUser_ok_inv env w wv tok.UserID hvu
          dsimp only at h
          rcases hdel : DeleteVerificationToken env wv t with ⟨rd, wd⟩
          rw [hdel] at h
          rcases DeleteVerificationToken_inv env wv wd t rd hdel with ⟨hsame, e, hre⟩ | ⟨hrok, hwd⟩
          · subst hre
            simp only [Prod.mk.injEq] at h
            left; rw [← h.2, ← h.1, hsame, hwv]; simp
          · subst hrok
            simp only [Prod.mk.injEq] at h
            right
            refine ⟨tok, rfl, hexp, hex, h.1.symm, ?_⟩
            rw [← h.2, hwd, hwv]

/-- C12: after VerifyEmail(t) succeeds, t was a stored verification token that had not expired,
the account it belongs to exists and has its EmailVerified flag set, no stored verification
token equals t any more, and a second VerifyEmail(t) (its lookup answering) fails with "invalid
or expired token" and changes nothing. -/
theorem C12_verify_email_consumes_token (env : Env) (w w1 : World) (t : String)
    (hok : VerifyEmail env w t = (.ok (), w1)) :
    ∃ tok, w.verificationTokens.find? (fun v => v.Token = t) = some tok ∧
      ¬ env.now > tok.ExpiresAt ∧
      (∃ u ∈ w1.users, u.ID = tok.UserID) ∧
      (∀ u ∈ w1.users, u.ID = tok.UserID → u.EmailVerified = true) ∧
      (∀ v ∈ w1.verificationTokens, v.Token ≠ t) ∧
      (∀ env2 : Env, env2.fault .FindVerificationToken = none →
        VerifyEmail env2 w1 t = (.error (.New "invalid or expired token"), w1)) := by
  rcases VerifyEmail_outcome env w w1 t _ hok with ⟨-, hno⟩ | ⟨tok, hfind, hlive, hex, -, hw1⟩
  · exact absurd rfl hno
  · have hgone : ∀ v ∈ w1.verificationTokens, v.Token ≠ t := by
      intro v hv
      rw [hw1] at hv
      simpa using (List.mem_filter.1 hv).2
    refine ⟨tok, hfind, hlive, ?_, ?_, hgone, ?_⟩
    · rw [hw1]
      exact exists_of_mem_map w.users tok.UserID hex
    · intro u hu hid
      rw [hw1] at hu
      exact verified_of_mem_map w.users tok.UserID u hu hid
    · intro env2 hf
      exact VerifyEmail_absent env2 w1 t hf hgone

/-- Verifying `bob` with his stored token at time 1500: the flag is set, the token is gone,
and the same token presented again is refused. -/
theorem C12_witness :
    (VerifyEmail (sampleEnv 1500) sampleWorld2 "vtok").1 = .ok () ∧
    (VerifyEmail (sampleEnv 1500) sampleWorld2 "vtok").2.users
      = [alice, { bob with EmailVerified := true }] ∧
    (VerifyEmail (sampleEnv 1500) sampleWorld2 "vtok").2.verificationTokens = [] ∧
    ∃ tok, sampleWorld2.verificationTokens.find? (fun v => v.Token = "vtok") = some tok ∧
      ¬ (sampleEnv 1500).now > tok.ExpiresAt ∧
      (∃ u ∈ (VerifyEmail (sampleEnv 1500) sampleWorld2 "vtok").2.users, u.ID = tok.UserID) ∧
      (∀ u ∈ (VerifyEmail (sampleEnv 1500) sampleWorld2 "vtok").2.users,
        u.ID = tok.UserID → u.EmailVerified = true) ∧
      (∀ v ∈ (VerifyEmail (sampleEnv 1500) sampleWorld2 "vtok").2.verificationTokens,
        v.Token ≠ "vtok") ∧
      (∀ env2 : Env, env2.fault .FindVerificationToken = none →
        VerifyEmail env2 (VerifyEmail (sampleEnv 1500) sampleWorld2 "vtok").2 "vtok"
          = (.error (.New "invalid or expired token"),
             (VerifyEmail (sampleEnv 1500) sampleWorld2 "vtok").2)) :=
  ⟨rfl, by decide, by decide,
   C12_verify_email_consumes_token (sampleEnv 1500) sampleWorld2 _ "vtok" rfl⟩

/-- C13: VerifyEmail removes verification tokens only together with marking the account
verified: whatever it returns, either the verification-token store is unchanged or the account
of the token exists and is verified. In particular (the lookups answering) when it fails
because the token is absent, has expired, or the owning account no longer exists ("user not
found"), the whole state is unchanged, so the same token can be presented again. -/
theorem C13_failed_verification_keeps_token (env : Env) (w : World) (t : String)
    (hf : env.fault .FindVerificationToken = none) :
    (∀ (r : Except Error Unit) (w1 : World), VerifyEmail env w t = (r, w1) →
      w1.verificationTokens = w.verificationTokens ∨
      ∃ tok, w.verificationTokens.find? (fun v => v.Token = t) = some tok ∧
        (∃ u ∈ w1.users, u.ID = tok.UserID) ∧
        ∀ u ∈ w1.users, u.ID = tok.UserID → u.EmailVerified = true) ∧
    ((∀ v ∈ w.verificationTokens, v.Token ≠ t) →
      VerifyEmail env w t = (.error (.New "invalid or expired token"), w)) ∧
    (∀ tok, w.verificationTokens.find? (fun v => v.Token = t) = some tok →
      env.now > tok.ExpiresAt →
      VerifyEmail env w t = (.error (.New "token has expired"), w)) ∧
    (∀ tok, w.verificationTokens.find? (fun v => v.Token = t) = some tok →
      ¬ env.now > tok.ExpiresAt → env.fault .VerifyUser = none →
      (∀ u ∈ w.users, u.ID ≠ tok.UserID) →
      VerifyEmail env w t = (.error (.New "user not found"), w)) := by
  refine ⟨?_, VerifyEmail_absent env w t hf, ?_, ?_⟩
  · intro r w1 h
    rcases VerifyEmail_outcome env w w1 t r h with ⟨hsame, -⟩ | ⟨tok, hfind, -, hex, -, hw1⟩
    · exact Or.inl hsame
    · refine Or.inr ⟨tok, hfind, ?_, ?_⟩
      · rw [hw1]
        exact exists_of_mem_map w.users tok.UserID hex
      · intro u hu hid
        rw [hw1] at hu
        exact verified_of_mem_map w.users tok.UserID u hu hid
  · intro tok hfind hexp
    exact VerifyEmail_expired env w t tok hf hfind hexp
  · intro tok hfind hlive hfu hno
    exact VerifyEmail_no_account env w t tok hf hfu hfind hlive hno

/-- A token whose account has vanished is refused with "user not found" and stays stored; a
token presented after its expiry stays stored as well. -/
theorem C13_witness :
    (sampleEnv 1500).fault .FindVerificationToken = none ∧
    VerifyEmail (sampleEnv 1500) { sampleWorld2 with users := [alice] } "vtok"
      = (.error (.New "user not found"), { sampleWorld2 with users := [alice] }) ∧
    VerifyEmail (sampleEnv 2001) sampleWorld2 "vtok"
      = (.error (.New "token has expired"), sampleWorld2) :=
  ⟨rfl,
   (C13_failed_verification_keeps_token (sampleEnv 1500) { sampleWorld2 with users := [alice] }
      "vtok" rfl).2.2.2 ⟨1, 8, "vtok", 2000, 100⟩ (by decide) (by decide) rfl (by decide),
   (C13_failed_verification_keeps_token (sampleEnv 2001) sampleWorld2 "vtok" rfl).2.2.1
      ⟨1, 8, "vtok", 2000, 100⟩ (by decide) (by decide)⟩

/-- C14: with the lookup answering, VerifyEmail(t) fails with "invalid or expired token" when
no stored verification token equals t, and with the different error "token has expired" when
the stored token found has an expiry strictly before the current time; in both cases the state
is returned unchanged, so no account's verified flag changes. At the very instant of expiry the
token is not yet refused as expired. -/
theorem C14_verify_email_errors (env : Env) (w : World) (t : String)
    (hf : env.fault .FindVerificationToken = none) :
    ((∀ v ∈ w.verificationTokens, v.Token ≠ t) →
      VerifyEmail env w t = (.error (.New "invalid or expired token"), w)) ∧
    (∀ tok, w.verificationTokens.find? (fun v => v.Token = t) = some tok →
      tok.ExpiresAt < env.now →
      VerifyEmail env w t = (.error (.New "token has expired"), w)) ∧
    (∀ tok, w.verificationTokens.find? (fun v => v.Token = t) = some tok →
      env.now ≤ tok.ExpiresAt →
      (VerifyEmail env w t).1 ≠ .error (.New "token has expired")) ∧
    Error.New "invalid or expired token" ≠ Error.New "token has expired" := by
  refine ⟨VerifyEmail_absent env w t hf, ?_, ?_, by decide⟩
  · intro tok hfind hexp
    exact VerifyEmail_expired env w t tok hf hfind hexp
  · intro tok hfind hlive
    have hl : ¬ env.now > tok.ExpiresAt := by omega
    unfold VerifyEmail FindVerificationToken
    simp only [hf, hfind, if_neg hl]
    unfold VerifyUser
    cases env.fault .VerifyUser with
    | some msg => simp
    | none =>
      dsimp only
      split_ifs
      · dsimp only
        unfold DeleteVerificationToken
        cases env.fault .DeleteVerificationToken <;> simp
      · simp

/-- An unknown token and a token one second past its expiry, both leaving `bob` unverified. -/
theorem C14_witness :
    (sampleEnv 2001).fault .FindVerificationToken = none ∧
    VerifyEmail (sampleEnv 2001) sampleWorld2 "nope"
      = (.error (.New "invalid or expired token"), sampleWorld2) ∧
    VerifyEmail (sampleEnv 2001) sampleWorld2 "vtok"
      = (.error (.New "token has expired"), sampleWorld2) ∧
    (VerifyEmail (sampleEnv 2000) sampleWorld2 "vtok").1 = .ok () :=
  ⟨rfl,
   (C14_verify_email_errors (sampleEnv 2001) sampleWorld2 "nope" rfl).1 (by decide),
   (C14_verify_email_errors (sampleEnv 2001) sampleWorld2 "vtok" rfl).2.1
      ⟨1, 8, "vtok", 2000, 100⟩ (by decide) (by decide),
   rfl⟩

/-! ### Password-reset tokens -/

/-- When the delete statement of `CreatePasswordResetToken` works, a successful call leaves the
rows of the other accounts followed by the one new row. -/
theorem CreatePasswordResetToken_ok_inv (env : Env) (w w1 : World) (userID : Nat) (t : String)
    (e : Int) (hdel : env.fault .DeleteOldPasswordResetTokens = none)
    (h : CreatePasswordResetToken env w userID t e = (.ok (), w1)) :
    w1.passwordResetTokens =
      w.passwordResetTokens.filter (fun r => !decide (r.UserID = userID)) ++
        [{ ID := w.passwordResetTokenSeq + 1, UserID := userID, Token := t, ExpiresAt := e,
           CreatedAt := env.now }] ∧
    w1.users = w.users ∧ w1.verificationTokens = w.verificationTokens ∧
    w1.blacklistedTokens = w.blacklistedTokens ∧ w1.outbox = w.outbox := by
  unfold CreatePasswordResetToken at h
  simp only [hdel] at h
  cases hf : env.fault .CreatePasswordResetToken with
  | some msg => simp [hf] at h
  | none =>
    simp only [hf] at h
    split_ifs at h with hany
    · simp at h
    · simp only [Prod.mk.injEq, true_and] at h
      rw [← h]
      exact ⟨rfl, rfl, rfl, rfl, rfl⟩

/-- With a working delete statement, a successful `CreatePasswordResetToken(u, t2, e)` leaves
exactly one reset token for u, namely t2; an older token of u (a different string) is no longer
found, and the rows of other accounts are the ones that were there. -/
theorem CreatePasswordResetToken_single (env : Env) (w w1 : World) (userID : Nat) (t2 : String)
    (e : Int) (hdel : env.fault .DeleteOldPasswordResetTokens = none)
    (h : CreatePasswordResetToken env w userID t2 e = (.ok (), w1)) :
    w1.passwordResetTokens.filter (fun r => decide (r.UserID = userID))
      = [{ ID := w.passwordResetTokenSeq + 1, UserID := userID, Token := t2, ExpiresAt := e,
           CreatedAt := env.now }] ∧
    w1.passwordResetTokens.filter (fun r => !decide (r.UserID = userID))
      = w.passwordResetTokens.filter (fun r => !decide (r.UserID = userID)) ∧
    (∀ t1, t1 ≠ t2 → (∃ r ∈ w.passwordResetTokens, r.Token = t1 ∧ r.UserID = userID) →
      (∀ r ∈ w.passwordResetTokens, r.Token = t1 → r.UserID = userID) →
      ∀ env1 : Env, env1.fault .FindPasswordResetToken = none →
        FindPasswordResetToken env1 w1 t1 = .ok none) := by
  obtain ⟨hrows, -⟩ := CreatePasswordResetToken_ok_inv env w w1 userID t2 e hdel h
  refine ⟨?_, ?_, ?_⟩
  · rw [hrows, List.filter_append, List.filter_filter]
    simp
  · rw [hrows, List.filter_append, List.filter_filter]
    simp
  · intro t1 hne _ hown env1 hf1
    have hn : w1.passwordResetTokens.find? (fun r => r.Token = t1) = none := by
      apply find?_none_of_forall
      intro r hr
      rw [hrows, List.mem_append] at hr
      rcases hr with hr | hr
      · rw [List.mem_filter] at hr
        have hu : r.UserID ≠ userID := by simpa using hr.2
        have : r.Token ≠ t1 := fun ht => hu (hown r hr.1 ht)
        simpa using this
      · rw [List.mem_singleton] at hr
        rw [hr]
        simpa using hne.symm
    simp only [FindPasswordResetToken, hf1, hn]

/-- C15 fails on the code when the delete statement inside `CreatePasswordResetToken` fails and
the insert goes through: the call reports success, the account then holds two reset tokens, and
the older one is still found by `FindPasswordResetToken`. The same happens through
`ForgotPassword`. -/
theorem C15_two_reset_tokens_after_failed_delete :
    (CreatePasswordResetToken (deleteFailsEnv 1500) sampleWorld2 7 "new" 9000).1 = .ok () ∧
    (CreatePasswordResetToken (deleteFailsEnv 1500) sampleWorld2 7 "new" 9000).2.passwordResetTokens
      = [{ ID := 1, UserID := 7, Token := "old", ExpiresAt := 2000, CreatedAt := 100 },
         { ID := 2, UserID := 7, Token := "new", ExpiresAt := 9000, CreatedAt := 1500 }] ∧
    FindPasswordResetToken (sampleEnv 1500)
      (CreatePasswordResetToken (deleteFailsEnv 1500) sampleWorld2 7 "new" 9000).2 "old"
      = .ok (some { ID := 1, UserID := 7, Token := "old", ExpiresAt := 2000, CreatedAt := 100 }) ∧
    (ForgotPassword sampleService (deleteFailsEnv 1500) sampleWorld2 "alice@x.com").1 = .ok () ∧
    ((ForgotPassword sampleService (deleteFailsEnv 1500) sampleWorld2
        "alice@x.com").2.passwordResetTokens.filter (fun r => decide (r.UserID = 7))).length
      = 2 := by
  refine ⟨rfl, by decide, rfl, rfl, by decide⟩

/-! ### The forgot-password flow -/

/-- ForgotPassword for an email that matches no account: an error and no effect, whether or
not the lookup answers. -/
theorem ForgotPassword_unknown_email (s : AuthService) (env : Env) (w : World) (email : String)
    (hno : ∀ u ∈ w.users, u.Email ≠ email) :
    ∃ e, ForgotPassword s env w email = (.error e, w) ∧
      (env.fault .FindUserByEmail = none → e = .New "user not found") := by
  have hn : w.users.find? (fun u => u.Email = email) = none :=
    find?_none_of_forall _ _ (fun u hu => by simpa using hno u hu)
  unfold ForgotPassword FindUserByEmail
  cases hf : env.fault .FindUserByEmail with
  | some msg => exact ⟨_, rfl, fun h => by cases h⟩
  | none =>
    simp only [hn]
    exact ⟨_, rfl, fun _ => rfl⟩

/-- C16 fails on the code: with storage and mail working, the endpoint answers a registered
email and an unregistered email with the same status 200 but with different bodies (the
message differs), so the response tells whether the email matched an account. -/
theorem C16_responses_differ :
    (∃ u ∈ sampleWorld2.users, u.Email = "alice@x.com") ∧
    (∀ u ∈ sampleWorld2.users, u.Email ≠ "nobody@x.com") ∧
    (Handler.ForgotPassword sampleService (sampleEnv 1500) sampleWorld2 ⟨"alice@x.com"⟩).1
      = { code := 200, Status := "success",
          Message := "Password reset link has been sent to your email" } ∧
    (Handler.ForgotPassword sampleService (sampleEnv 1500) sampleWorld2 ⟨"nobody@x.com"⟩).1
      = { code := 200, Status := "success",
          Message := "If your email is registered, you will receive a password reset link" } ∧
    (Handler.ForgotPassword sampleService (sampleEnv 1500) sampleWorld2 ⟨"alice@x.com"⟩).1
      ≠ (Handler.ForgotPassword sampleService (sampleEnv 1500) sampleWorld2
          ⟨"nobody@x.com"⟩).1 := by
  refine ⟨by decide, by decide, by decide, by decide, by decide⟩

/-- C17: for every email that matches no account, the forgot-password endpoint answers with
status 200 and the success shape (status "success", the generic message) and leaves the whole
state as it was: no password-reset token is created or deleted and no mail is dispatched. -/
theorem C17_unknown_email_no_effect (s : AuthService) (env : Env) (w : World)
    (req : ForgotPasswordRequest) (hno : ∀ u ∈ w.users, u.Email ≠ req.Email) :
    Handler.ForgotPassword s env w req
      = (RespondWithSuccess 200
          "If your email is registered, you will receive a password reset link", w) ∧
    (Handler.ForgotPassword s env w req).1.code = 200 ∧
    (Handler.ForgotPassword s env w req).1.Status = "success" ∧
    (Handler.ForgotPassword s env w req).2.passwordResetTokens = w.passwordResetTokens ∧
    (Handler.ForgotPassword s env w req).2.outbox = w.outbox ∧
    (ForgotPassword s env w req.Email).2 = w := by
  obtain ⟨e, he, -⟩ := ForgotPassword_unknown_email s env w req.Email hno
  have h : Handler.ForgotPassword s env w req
      = (RespondWithSuccess 200
          "If your email is registered, you will receive a password reset link", w) := by
    unfold Handler.ForgotPassword
    rw [he]
  refine ⟨h, ?_, ?_, ?_, ?_, ?_⟩
  · rw [h]; rfl
  · rw [h]; rfl
  · rw [h]
  · rw [h]
  · rw [he]

/-- The endpoint called with an address nobody registered. -/
theorem C17_witness :
    (∀ u ∈ sampleWorld2.users, u.Email ≠ "nobody@x.com") ∧
    Handler.ForgotPassword sampleService (sampleEnv 1500) sampleWorld2 ⟨"nobody@x.com"⟩
      = (RespondWithSuccess 200
          "If your email is registered, you will receive a password reset link", sampleWorld2) :=
  ⟨by decide,
   (C17_unknown_email_no_effect sampleService (sampleEnv 1500) sampleWorld2 ⟨"nobody@x.com"⟩
      (by decide)).1⟩

/-- The link of a successful ForgotPassword: the email service receives the link built by the
auth service in the place of the token and wraps it into a second link. -/
theorem ForgotPassword_ok_inv (s : AuthService) (env : Env) (w w1 : World) (email : String)
    (h : ForgotPassword s env w email = (.ok (), w1)) :
    ∃ user w0, w.users.find? (fun u => u.Email = email) = some user ∧
      CreatePasswordResetToken env w user.ID (GenerateRandomString env 32)
        (addUnix env.now (24 * Hour)) = (.ok (), w0) ∧
      w1 = { w0 with outbox := w0.outbox ++
        [{ From := s.emailService.From, To := user.Email,
           Subject := "Đặt lại mật khẩu Dating Text App", Name := user.Name,
           URL := s.emailService.AppURL ++ "/reset-password?token=" ++
             (s.config.AppURL ++ "/reset-password?token=" ++ GenerateRandomString env 32) }] } := by
  unfold ForgotPassword FindUserByEmail at h
  cases hf : env.fault .FindUserByEmail with
  | some msg => simp [hf] at h
  | none =>
    simp only [hf] at h
    cases hu : w.users.find? (fun u => u.Email = email) with
    | none => simp [hu] at h
    | some user =>
      simp only [hu] at h
      rcases hc : CreatePasswordResetToken env w user.ID (GenerateRandomString env 32)
        (addUnix env.now (24 * Hour)) with ⟨rc, w0⟩
      rw [hc] at h
      cases rc with
      | error e => simp at h
      | ok uu =>
        dsimp only at h
        refine ⟨user, w0, rfl, hc, ?_⟩
        unfold SendPasswordResetEmail renderAndSend at h
        split_ifs at h with h1 h2
        · simp at h
        · simp at h
        · cases hp : env.fault .ParseTemplate with
          | some m => simp [hp] at h
          | none =>
            cases he : env.fault .ExecuteTemplate with
            | some m => simp [hp, he] at h
            | none =>
              cases hd : env.fault .DialAndSend with
              | some m => simp [hp, he, hd] at h
              | none =>
                simp only [hp, he, hd, Prod.mk.injEq, true_and] at h
                exact h.symm

/-- C18 fails on the code: in the sample run the stored reset token is the 32-character random
string, but the URL rendered into the mail carries as its `token` parameter the whole link built
by the auth service (here with the empty AppURL that `main` leaves in the auth configuration),
not the stored token. -/
theorem C18_reset_link_wraps_link :
    (ForgotPassword sampleService (sampleEnv 1500) sampleWorld2 "alice@x.com").1 = .ok () ∧
    (ForgotPassword sampleService (sampleEnv 1500) sampleWorld2
        "alice@x.com").2.passwordResetTokens.map (fun r => r.Token)
      = ["AAECAwQFBgcICQoLDA0ODxAREhMUFRYX"] ∧
    (ForgotPassword sampleService (sampleEnv 1500) sampleWorld2
        "alice@x.com").2.outbox.map (fun m => m.URL)
      = ["http://localhost:8080/reset-password?token=/reset-password?token=AAECAwQFBgcICQoLDA0ODxAREhMUFRYX"] ∧
    (ForgotPassword sampleService (sampleEnv 1500) sampleWorld2
        "alice@x.com").2.outbox.map (fun m => m.URL)
      ≠ [sampleService.emailService.AppURL ++ "/reset-password?token=" ++
          "AAECAwQFBgcICQoLDA0ODxAREhMUFRYX"] ∧
    (ForgotPassword sampleService (sampleEnv 1500) sampleWorld2
        "alice@x.com").2.outbox.map (fun m => m.URL)
      ≠ [sampleService.config.AppURL ++ "/reset-password?token=" ++
          "AAECAwQFBgcICQoLDA0ODxAREhMUFRYX"] := by
  refine ⟨rfl, by decide, by decide, by decide, by decide⟩

/-! ### Resetting a password -/

/-- ResetPassword when no stored reset token equals the one presented. -/
theorem ResetPassword_absent (lib : Lib) (env : Env) (w : World) (t p : String)
    (hf : env.fault .FindPasswordResetToken = none)
    (hno : ∀ r ∈ w.passwordResetTokens, r.Token ≠ t) :
    ResetPassword lib env w t p = (.error (.New "invalid or expired token"), w) := by
  have hn : w.passwordResetTokens.find? (fun r => r.Token = t) = none :=
    find?_none_of_forall _ _ (fun r hr => by simpa using hno r hr)
  simp only [ResetPassword, FindPasswordResetToken, hf, hn]

/-- ResetPassword when the stored token found has expired. -/
theorem ResetPassword_expired (lib : Lib) (env : Env) (w : World) (t p : String)
    (tok : PasswordResetToken) (hf : env.fault .FindPasswordResetToken = none)
    (hfind : w.passwordResetTokens.find? (fun r => r.Token = t) = some tok)
    (hexp : env.now > tok.ExpiresAt) :
    ResetPassword lib env w t p = (.error (.New "token has expired"), w) := by
  simp only [ResetPassword, FindPasswordResetToken, hf, hfind, if_pos hexp]

/-- ResetPassword when the account the token belongs to does not exist. -/
theorem ResetPassword_no_account (lib : Lib) (env : Env) (w : World) (t p : String)
    (tok : PasswordResetToken) (hf : env.fault .FindPasswordResetToken = none)
    (hfu : env.fault .FindUserByID = none)
    (hfind : w.passwordResetTokens.find? (fun r => r.Token = t) = some tok)
    (hlive : ¬ env.now > tok.ExpiresAt) (hno : ∀ u ∈ w.users, u.ID ≠ tok.UserID) :
    ResetPassword lib env w t p = (.error (.New "user not found"), w) := by
  have hn : w.users.find? (fun u => u.ID = tok.UserID) = none :=
    find?_none_of_forall _ _ (fun u hu => by simpa using hno u hu)
  simp only [ResetPassword, FindPasswordResetToken, hf, hfind, if_neg hlive, FindUserByID, hfu,
    hn]

/-- C20: with the lookups answering, ResetPassword(t, p) fails with "invalid or expired token"
when no stored reset token equals t, with "token has expired" when the stored token found has
an expiry strictly before the current time, and with "user not found" when no account has the
key the token names; in each case the state is returned unchanged, so no password hash is
changed and no reset token is deleted. -/
theorem C20_reset_password_errors (lib : Lib) (env : Env) (w : World) (t p : String)
    (hf : env.fault .FindPasswordResetToken = none) :
    ((∀ r ∈ w.passwordResetTokens, r.Token ≠ t) →
      ResetPassword lib env w t p = (.error (.New "invalid or expired token"), w)) ∧
    (∀ tok, w.passwordResetTokens.find? (fun r => r.Token = t) = some tok →
      tok.ExpiresAt < env.now →
      ResetPassword lib env w t p = (.error (.New "token has expired"), w)) ∧
    (∀ tok, w.passwordResetTokens.find? (fun r => r.Token = t) = some tok →
      env.now ≤ tok.ExpiresAt → env.fault .FindUserByID = none →
      (∀ u ∈ w.users, u.ID ≠ tok.UserID) →
      ResetPassword lib env w t p = (.error (.New "user not found"), w)) := by
  refine ⟨ResetPassword_absent lib env w t p hf, ?_, ?_⟩
  · intro tok hfind hexp
    exact ResetPassword_expired lib env w t p tok hf hfind hexp
  · intro tok hfind hlive hfu hno
    exact ResetPassword_no_account lib env w t p tok hf hfu hfind (by omega) hno

/-- An unknown token, the stored token after its expiry, and the stored token once its account
is gone: each is refused and the database stays as it was. -/
theorem C20_witness :
    (sampleEnv 1500).fault .FindPasswordResetToken = none ∧
    ResetPassword sampleLib (sampleEnv 1500) sampleWorld2 "nope" "N3wPass!"
      = (.error (.New "invalid or expired token"), sampleWorld2) ∧
    ResetPassword sampleLib (sampleEnv 2001) sampleWorld2 "old" "N3wPass!"
      = (.error (.New "token has expired"), sampleWorld2) ∧
    ResetPassword sampleLib (sampleEnv 1500) { sampleWorld2 with users := [bob] } "old" "N3wPass!"
      = (.error (.New "user not found"), { sampleWorld2 with users := [bob] }) :=
  ⟨rfl,
   (C20_reset_password_errors sampleLib (sampleEnv 1500) sampleWorld2 "nope" "N3wPass!" rfl).1
     (by decide),
   (C20_reset_password_errors sampleLib (sampleEnv 2001) sampleWorld2 "old" "N3wPass!" rfl).2.1
     ⟨1, 7, "old", 2000, 100⟩ (by decide) (by decide),
   (C20_reset_password_errors sampleLib (sampleEnv 1500) { sampleWorld2 with users := [bob] }
     "old" "N3wPass!" rfl).2.2 ⟨1, 7, "old", 2000, 100⟩ (by decide) (by decide) rfl (by decide)⟩

/-! ### Password reset and the sessions -/

theorem UpdateUser_blacklistedTokens (env : Env) (w : World) (user : User) :
    (UpdateUser env w user).2.blacklistedTokens = w.blacklistedTokens := by
  unfold UpdateUser
  cases env.fault .UpdateUser with
  | some msg => rfl
  | none =>
    dsimp only
    split_ifs <;> rfl

theorem DeletePasswordResetToken_blacklistedTokens (env : Env) (w : World) (token : String) :
    (DeletePasswordResetToken env w token).2.blacklistedTokens = w.blacklistedTokens := by
  unfold DeletePasswordResetToken
  cases env.fault .DeletePasswordResetToken <;> rfl

/-- Whatever its outcome, ResetPassword leaves the blacklist as it was. -/
theorem ResetPassword_blacklistedTokens (lib : Lib) (env : Env) (w : World)
    (token newPassword : String) :
    (ResetPassword lib env w token newPassword).2.blacklistedTokens = w.blacklistedTokens := by
  unfold ResetPassword
  cases FindPasswordResetToken env w token with
  | error e => rfl
  | ok o =>
  cases o with
  | none => rfl
  | some resetToken =>
  dsimp only
  split_ifs
  · rfl
  · cases FindUserByID env w resetToken.UserID with
    | error e => rfl
    | ok o2 =>
    cases o2 with
    | none => rfl
    | some user =>
    dsimp only
    cases lib.bcrypt.GenerateFromPassword newPassword env.salt with
    | error e => rfl
    | ok hashed =>
    dsimp only
    rcases hu : UpdateUser env w { user with Password := hashed } with ⟨r, w1⟩
    have h1 := UpdateUser_blacklistedTokens env w { user with Password := hashed }
    rw [hu] at h1
    cases r with
    | error e => exact h1
    | ok uu =>
    dsimp only
    rcases hd : DeletePasswordResetToken env w1 token with ⟨r2, w2⟩
    have h2 := DeletePasswordResetToken_blacklistedTokens env w1 token
    rw [hd] at h2
    cases r2 <;> exact h2.trans h1

/-- The middleware reads nothing of the database but the blacklist. -/
theorem AuthMiddleware_congr (lib : Lib) (jwtSecret : String) (env : Env) (w w1 : World)
    (authHeader : String) (c : Context) (h : w1.blacklistedTokens = w.blacklistedTokens) :
    AuthMiddleware lib jwtSecret env w1 authHeader c
      = AuthMiddleware lib jwtSecret env w authHeader c := by
  have hb : ∀ t, IsBlacklisted env w1 t = IsBlacklisted env w t := by
    intro t
    unfold IsBlacklisted
    rw [h]
  unfold AuthMiddleware
  simp only [hb]

/-- C21: ResetPassword never revokes session tokens. Whatever its outcome, it leaves the
blacklist exactly as it was, and so the authorization middleware gives every request the same
answer after the reset as it would have given before it, at any time and with any secret: a
session token that was accepted is still accepted until its own expiry. (VerifyToken reads no
stored state at all, so a reset cannot change its answer either.) -/
theorem C21_reset_keeps_sessions (lib : Lib) (env : Env) (w : World)
    (token newPassword : String) :
    (ResetPassword lib env w token newPassword).2.blacklistedTokens = w.blacklistedTokens ∧
    (∀ (jwtSecret : String) (env1 : Env) (authHeader : String) (c : Context),
      AuthMiddleware lib jwtSecret env1 (ResetPassword lib env w token newPassword).2 authHeader c
        = AuthMiddleware lib jwtSecret env1 w authHeader c) ∧
    (∀ (jwtSecret : String) (env1 : Env) (authHeader : String) (c : Context) (a : Nat),
      AuthMiddleware lib jwtSecret env1 w authHeader c
          = .ok { c with userID := some a, nextCalled := true } →
        AuthMiddleware lib jwtSecret env1 (ResetPassword lib env w token newPassword).2
            authHeader c
          = .ok { c with userID := some a, nextCalled := true }) := by
  have h := ResetPassword_blacklistedTokens lib env w token newPassword
  refine ⟨h, fun jwtSecret env1 authHeader c => ?_, fun jwtSecret env1 authHeader c a ha => ?_⟩
  · exact AuthMiddleware_congr lib jwtSecret env1 w _ authHeader c h
  · rw [AuthMiddleware_congr lib jwtSecret env1 w _ authHeader c h]
    exact ha

theorem C21_witness :
    (ResetPassword sampleLib (sampleEnv 1500) sampleWorld2 "old" "N3wPass!").1 = .ok () ∧
    AuthMiddleware sampleLib "s3cret" (sampleEnv 1600)
        (ResetPassword sampleLib (sampleEnv 1500) sampleWorld2 "old" "N3wPass!").2
        ("Bearer " ++ tokenHS256) Context.fresh
      = .ok { Context.fresh with userID := some 7, nextCalled := true } :=
  ⟨rfl,
   (C21_reset_keeps_sessions sampleLib (sampleEnv 1500) sampleWorld2 "old" "N3wPass!").2.2
     "s3cret" (sampleEnv 1600) ("Bearer " ++ tokenHS256) Context.fresh 7 rfl⟩

/-! ### Registration and the verification token -/

/-- A successful insert of a user changes the user table and its sequence only. -/
theorem CreateUser_ok_world (env : Env) (w w1 : World) (u u2 : User)
    (h : CreateUser env w u = (.ok u2, w1)) :
    w1 = { w with userSeq := w1.userSeq, users := w.users ++ [u2] } := by
  unfold CreateUser at h
  cases hf : env.fault .CreateUser with
  | some msg => simp [hf] at h
  | none =>
    simp only [hf] at h
    split_ifs at h with hany hid
    all_goals first
      | (cases h; rfl)
      | cases h

/-- The insert of a verification token succeeds when the statement runs and the next key of the
sequence is free. -/
theorem CreateVerificationToken_ok_of (env : Env) (w : World) (t : VerificationToken)
    (hf : env.fault .CreateVerificationToken = none) (hid : t.ID = 0)
    (hfree : ∀ v ∈ w.verificationTokens, v.ID ≠ w.verificationTokenSeq + 1) :
    CreateVerificationToken env w t =
      (.ok (), { w with
        verificationTokenSeq := w.verificationTokenSeq + 1,
        verificationTokens := w.verificationTokens ++
          [{ t with ID := w.verificationTokenSeq + 1, CreatedAt := env.now }] }) := by
  unfold CreateVerificationToken
  have hany : w.verificationTokens.any
      (fun x => decide (x.ID = w.verificationTokenSeq + 1)) = false := by
    rw [Bool.eq_false_iff]
    intro hc
    rw [List.any_eq_true] at hc
    obtain ⟨v, hv, hd⟩ := hc
    exact hfree v hv (of_decide_eq_true hd)
  simp only [hf, hid, if_true, hany]
  rfl

/-- A failed insert of a verification token adds no row and sends no mail. -/
theorem CreateVerificationToken_frame (env : Env) (w : World) (t : VerificationToken) :
    (CreateVerificationToken env w t).2.outbox = w.outbox ∧
    (∀ e w1, CreateVerificationToken env w t = (.error e, w1) →
      w1.verificationTokens = w.verificationTokens) := by
  unfold CreateVerificationToken
  cases env.fault .CreateVerificationToken with
  | some msg =>
    refine ⟨rfl, fun e w1 h => ?_⟩
    cases h
    rfl
  | none =>
    dsimp only
    split_ifs
    all_goals refine ⟨rfl, fun e w1 h => ?_⟩
    all_goals first
      | (cases h; rfl)
      | cases h

/-- What the mail service does to the state: nothing, or one more mail in the outbox. -/
theorem renderAndSend_cases (env : Env) (w : World) (m : Mail) :
    (∃ e, renderAndSend env w m = (.error e, w)) ∨
    renderAndSend env w m = (.ok (), { w with outbox := w.outbox ++ [m] }) := by
  unfold renderAndSend
  cases env.fault .ParseTemplate with
  | some e => exact Or.inl ⟨_, rfl⟩
  | none =>
  cases env.fault .ExecuteTemplate with
  | some e => exact Or.inl ⟨_, rfl⟩
  | none =>
  cases env.fault .DialAndSend with
  | some e => exact Or.inl ⟨_, rfl⟩
  | none => exact Or.inr rfl

/-- The verification mail either fails and leaves the state alone, or is delivered with the
link made of the application URL and the token. -/
theorem SendVerificationEmail_cases (cfg : EmailConfig) (env : Env) (w : World)
    (toAddr name token : String) :
    (∃ e, SendVerificationEmail cfg env w toAddr name token = (.error e, w)) ∨
    SendVerificationEmail cfg env w toAddr name token =
      (.ok (), { w with outbox := w.outbox ++
        [{ From := cfg.From, To := toAddr, Subject := "Xác thực tài khoản Dating Text App",
           Name := name, URL := cfg.AppURL ++ "/api/auth/verify-email?token=" ++ token }] }) := by
  unfold SendVerificationEmail
  split_ifs
  · exact Or.inl ⟨_, rfl⟩
  · exact Or.inl ⟨_, rfl⟩
  · exact renderAndSend_cases _ _ _

/-- The verification mail is delivered when the addresses are present and the three steps of
the delivery work. -/
theorem SendVerificationEmail_ok_of (cfg : EmailConfig) (env : Env) (w : World)
    (toAddr name token : String) (hto : toAddr ≠ "") (hfrom : cfg.From ≠ "")
    (hp : env.fault .ParseTemplate = none) (he : env.fault .ExecuteTemplate = none)
    (hd : env.fault .DialAndSend = none) :
    SendVerificationEmail cfg env w toAddr name token =
      (.ok (), { w with outbox := w.outbox ++
        [{ From := cfg.From, To := toAddr, Subject := "Xác thực tài khoản Dating Text App",
           Name := name, URL := cfg.AppURL ++ "/api/auth/verify-email?token=" ++ token }] }) := by
  unfold SendVerificationEmail renderAndSend
  simp only [hto, hfrom, if_false, hp, he, hd]

/-- A successful Register found no collision in its three lookups. -/
theorem Register_ok_lookups (lib : Lib) (s : AuthService) (env : Env) (w w1 : World)
    (user user1 : User) (h : Register lib s env w user = (.ok (), user1, w1)) :
    FindUserByUsername env w user.Username = .ok none ∧
    FindUserByEmail env w user.Email = .ok none ∧
    (if user.CCCD ≠ "" then FindUserByCCCD env w user.CCCD else .ok none) = .ok none := by
  unfold Register at h
  cases h1 : FindUserByUsername env w user.Username with
  | error e => simp [h1] at h
  | ok o1 =>
  cases o1 with
  | some u => simp [h1] at h
  | none =>
  cases h2 : FindUserByEmail env w user.Email with
  | error e => simp [h1, h2] at h
  | ok o2 =>
  cases o2 with
  | some u => simp [h1, h2] at h
  | none =>
  cases h3 : (if user.CCCD ≠ "" then FindUserByCCCD env w user.CCCD else .ok none) with
  | error e => simp [h1, h2, h3] at h
  | ok o3 =>
  cases o3 with
  | some u => simp [h1, h2, h3] at h
  | none => exact ⟨rfl, rfl, rfl⟩

/-- The steps behind a successful Register: the hash, the insert that returned the account,
and the state left by the verification step. -/
theorem Register_ok_steps (lib : Lib) (s : AuthService) (env : Env) (w w1 : World)
    (user user1 : User) (h : Register lib s env w user = (.ok (), user1, w1)) :
    ∃ hashed wc, lib.bcrypt.GenerateFromPassword user.Password env.salt = .ok hashed ∧
      CreateUser env w { user with Password := hashed } = (.ok user1, wc) ∧
      w1 = if s.config.EmailVerificationRequired then
          match CreateVerificationToken env wc
            { ID := 0, UserID := user1.ID, Token := GenerateRandomString env 32,
              ExpiresAt := addUnix env.now (24 * Hour), CreatedAt := 0 } with
          | (.error _, w2) => w2
          | (.ok _, w2) =>
            (SendVerificationEmail s.emailService env w2 user1.Email user1.Name
              (GenerateRandomString env 32)).2
        else wc := by
  obtain ⟨h1, h2, h3⟩ := Register_ok_lookups lib s env w w1 user user1 h
  rw [Register_of_no_conflict lib s env w user h1 h2 h3] at h
  cases hg : lib.bcrypt.GenerateFromPassword user.Password env.salt with
  | error e => simp [hg] at h
  | ok hashed =>
  simp only [hg] at h
  rcases hc : CreateUser env w { user with Password := hashed } with ⟨r, wc⟩
  rw [hc] at h
  cases r with
  | error e => simp at h
  | ok user2 =>
  dsimp only at h
  refine ⟨hashed, wc, rfl, ?_⟩
  split_ifs at h with hreq
  · rcases hv : CreateVerificationToken env wc
      { ID := 0, UserID := user2.ID, Token := GenerateRandomString env 32,
        ExpiresAt := addUnix env.now (24 * Hour), CreatedAt := 0 } with ⟨rv, wv⟩
    rw [hv] at h
    cases rv with
    | error e =>
      simp only [Prod.mk.injEq, true_and] at h
      obtain ⟨rfl, rfl⟩ := h
      refine ⟨hc, ?_⟩
      simp only [hreq, if_true, hv]
    | ok uu =>
      dsimp only at h
      rcases hm : SendVerificationEmail s.emailService env wv user2.Email user2.Name
        (GenerateRandomString env 32) with ⟨rm, wm⟩
      rw [hm] at h
      cases rm with
      | error e =>
        simp only [Prod.mk.injEq, true_and] at h
        obtain ⟨rfl, rfl⟩ := h
        refine ⟨hc, ?_⟩
        simp only [hreq, if_true, hv, hm]
      | ok uu2 =>
        simp only [Prod.mk.injEq, true_and] at h
        obtain ⟨rfl, rfl⟩ := h
        refine ⟨hc, ?_⟩
        simp only [hreq, if_true, hv, hm]
  · simp only [Prod.mk.injEq, true_and] at h
    obtain ⟨rfl, rfl⟩ := h
    refine ⟨hc, ?_⟩
    rw [if_neg hreq]

/-- C22: when email verification is required and the insert of the account has succeeded (the
three lookups found no collision, the password was hashed, the row was written), Register
returns success with that account and the account is in the user table, whatever happens
afterwards. In particular, when the insert of the verification token fails, Register returns
success, no token row is added and no mail is sent; when the token is stored and the mail
service fails, Register returns success as well. -/
theorem C22_register_survives_verification_failure (lib : Lib) (s : AuthService) (env : Env)
    (w wc : World) (user user2 : User) (hashed : String)
    (hreq : s.config.EmailVerificationRequired = true)
    (h1 : FindUserByUsername env w user.Username = .ok none)
    (h2 : FindUserByEmail env w user.Email = .ok none)
    (h3 : (if user.CCCD ≠ "" then FindUserByCCCD env w user.CCCD else .ok none) = .ok none)
    (hg : lib.bcrypt.GenerateFromPassword user.Password env.salt = .ok hashed)
    (hc : CreateUser env w { user with Password := hashed } = (.ok user2, wc)) :
    (Register lib s env w user).1 = .ok () ∧
    (Register lib s env w user).2.1 = user2 ∧
    (Register lib s env w user).2.2.users = w.users ++ [user2] ∧
    (∀ e wv,
      CreateVerificationToken env wc
          { ID := 0, UserID := user2.ID, Token := GenerateRandomString env 32,
            ExpiresAt := addUnix env.now (24 * Hour), CreatedAt := 0 } = (.error e, wv) →
        Register lib s env w user = (.ok (), user2, wv) ∧
        wv.verificationTokens = w.verificationTokens ∧ wv.outbox = w.outbox) ∧
    (∀ wv e wm,
      CreateVerificationToken env wc
          { ID := 0, UserID := user2.ID, Token := GenerateRandomString env 32,
            ExpiresAt := addUnix env.now (24 * Hour), CreatedAt := 0 } = (.ok (), wv) →
      SendVerificationEmail s.emailService env wv user2.Email user2.Name
          (GenerateRandomString env 32) = (.error e, wm) →
        Register lib s env w user = (.ok (), user2, wm) ∧ wm.outbox = w.outbox) := by
  have hR := Register_of_no_conflict lib s env w user h1 h2 h3
  simp only [hg, hc, hreq, if_true] at hR
  obtain ⟨-, husers, hvt, -, -, hout⟩ := CreateUser_ok_inv env w wc _ user2 hc
  have hvu := CreateVerificationToken_users env wc
    { ID := 0, UserID := user2.ID, Token := GenerateRandomString env 32,
      ExpiresAt := addUnix env.now (24 * Hour), CreatedAt := 0 }
  have hvf := CreateVerificationToken_frame env wc
    { ID := 0, UserID := user2.ID, Token := GenerateRandomString env 32,
      ExpiresAt := addUnix env.now (24 * Hour), CreatedAt := 0 }
  rcases hv : CreateVerificationToken env wc
    { ID := 0, UserID := user2.ID, Token := GenerateRandomString env 32,
      ExpiresAt := addUnix env.now (24 * Hour), CreatedAt := 0 } with ⟨rv, wv⟩
  rw [hv] at hR hvu hvf
  cases rv with
  | error e =>
    dsimp only at hR hvu hvf
    rw [hR]
    refine ⟨rfl, rfl, by rw [hvu, husers], fun e1 wv1 h => ?_, fun wv1 e1 wm h => ?_⟩
    · cases h
      exact ⟨rfl, (hvf.2 e wv rfl).trans hvt, hvf.1.trans hout⟩
    · cases h
  | ok uu =>
    dsimp only at hR hvu hvf
    have hmu := SendVerificationEmail_users s.emailService env wv user2.Email user2.Name
      (GenerateRandomString env 32)
    rcases hm : SendVerificationEmail s.emailService env wv user2.Email user2.Name
      (GenerateRandomString env 32) with ⟨rm, wm⟩
    rw [hm] at hR hmu
    have hR2 : Register lib s env w user = (.ok (), user2, wm) := by
      rw [hR]
      cases rm <;> rfl
    rw [hR2]
    refine ⟨rfl, rfl, by rw [hmu, hvu, husers], fun e1 wv1 h => ?_, fun wv1 e1 wm1 h hs => ?_⟩
    · cases h
    · cases h
      rw [hm] at hs
      cases hs
      refine ⟨rfl, ?_⟩
      rcases SendVerificationEmail_cases s.emailService env wv user2.Email user2.Name
        (GenerateRandomString env 32) with ⟨e2, he2⟩ | hok2
      · rw [hm] at he2
        cases he2
        exact hvf.1.trans hout
      · rw [hm] at hok2
        cases hok2

theorem C22_witness :
    (Register sampleLib sampleService (tokenStoreFailsEnv 1000) sampleWorld carolRequest.user).1
      = .ok () ∧
    (Register sampleLib sampleService (tokenStoreFailsEnv 1000) sampleWorld
        carolRequest.user).2.2.users
      = [alice, { carolRequest.user with Password := "$2a$10$Str0ng!Pass", ID := 8 }] :=
  ⟨(C22_register_survives_verification_failure sampleLib sampleService (tokenStoreFailsEnv 1000)
      sampleWorld
      { sampleWorld with
        userSeq := 8,
        users := [alice, { carolRequest.user with Password := "$2a$10$Str0ng!Pass", ID := 8 }] }
      carolRequest.user { carolRequest.user with Password := "$2a$10$Str0ng!Pass", ID := 8 }
      "$2a$10$Str0ng!Pass" rfl rfl rfl rfl rfl rfl).1,
   (C22_register_survives_verification_failure sampleLib sampleService (tokenStoreFailsEnv 1000)
      sampleWorld
      { sampleWorld with
        userSeq := 8,
        users := [alice, { carolRequest.user with Password := "$2a$10$Str0ng!Pass", ID := 8 }] }
      carolRequest.user { carolRequest.user with Password := "$2a$10$Str0ng!Pass", ID := 8 }
      "$2a$10$Str0ng!Pass" rfl rfl rfl rfl rfl rfl).2.2.1⟩

theorem addUnix_day (now : Int) : addUnix now (24 * Hour) = now + 86400 := by
  unfold addUnix Hour
  norm_num

theorem SendVerificationEmail_verificationTokens (cfg : EmailConfig) (env : Env) (w : World)
    (toAddr name token : String) :
    (SendVerificationEmail cfg env w toAddr name token).2.verificationTokens
      = w.verificationTokens := by
  rcases SendVerificationEmail_cases cfg env w toAddr name token with ⟨e, he⟩ | hok
  · rw [he]
  · rw [hok]

/-- C23: after a successful Register at time `env.now` of a candidate whose verified flag is
unset (as the register handler builds it), the account is in the user table with
`EmailVerified = false`. When verification is required and the token store works (the insert
runs and the next key is free), the token table has gained exactly one row, bound to the ID of
the new account, holding the generated token, with expiry `env.now + 86400` seconds; the only
mail Register can have sent is the verification mail to the account whose link ends in that
same token, and it has been sent when the mail service works. When verification is not
required, the token table and the outbox are as they were. -/
theorem C23_register_verification_token (lib : Lib) (s : AuthService) (env : Env)
    (w w1 : World) (user user1 : User)
    (hok : Register lib s env w user = (.ok (), user1, w1))
    (hflag : user.EmailVerified = false) :
    user1 ∈ w1.users ∧ user1.EmailVerified = false ∧
    (s.config.EmailVerificationRequired = true →
      env.fault .CreateVerificationToken = none →
      (∀ v ∈ w.verificationTokens, v.ID ≠ w.verificationTokenSeq + 1) →
        w1.verificationTokens = w.verificationTokens ++
          [{ ID := w.verificationTokenSeq + 1, UserID := user1.ID,
             Token := GenerateRandomString env 32, ExpiresAt := env.now + 86400,
             CreatedAt := env.now }] ∧
        (w1.outbox = w.outbox ∨
         w1.outbox = w.outbox ++
          [{ From := s.emailService.From, To := user.Email,
             Subject := "Xác thực tài khoản Dating Text App", Name := user.Name,
             URL := s.emailService.AppURL ++ "/api/auth/verify-email?token=" ++
               GenerateRandomString env 32 }]) ∧
        (user.Email ≠ "" → s.emailService.From ≠ "" → env.fault .ParseTemplate = none →
          env.fault .ExecuteTemplate = none → env.fault .DialAndSend = none →
          w1.outbox = w.outbox ++
            [{ From := s.emailService.From, To := user.Email,
               Subject := "Xác thực tài khoản Dating Text App", Name := user.Name,
               URL := s.emailService.AppURL ++ "/api/auth/verify-email?token=" ++
                 GenerateRandomString env 32 }])) ∧
    (s.config.EmailVerificationRequired = false →
      w1.verificationTokens = w.verificationTokens ∧ w1.outbox = w.outbox) := by
  obtain ⟨hashed0, -, hu1, husers1⟩ := Register_ok_inv lib s env w w1 user user1 hok
  obtain ⟨hashed, wc, hg, hc, hw1⟩ := Register_ok_steps lib s env w w1 user user1 hok
  obtain ⟨-, -, hvt, -, -, hout⟩ := CreateUser_ok_inv env w wc _ user1 hc
  have hworld := CreateUser_ok_world env w wc _ user1 hc
  have hseq : wc.verificationTokenSeq = w.verificationTokenSeq := by rw [hworld]
  have hflag1 : user1.EmailVerified = user.EmailVerified := by
    have h := congrArg User.EmailVerified hu1
    exact h
  have hemail : user1.Email = user.Email := by
    have h := congrArg User.Email hu1
    exact h
  have hname : user1.Name = user.Name := by
    have h := congrArg User.Name hu1
    exact h
  refine ⟨by rw [husers1]; simp, hflag1.trans hflag, fun hreq hf hfree => ?_, fun hreq => ?_⟩
  · have hfree1 : ∀ v ∈ wc.verificationTokens, v.ID ≠ wc.verificationTokenSeq + 1 := by
      rw [hvt, hseq]
      exact hfree
    have hv := CreateVerificationToken_ok_of env wc
      { ID := 0, UserID := user1.ID, Token := GenerateRandomString env 32,
        ExpiresAt := addUnix env.now (24 * Hour), CreatedAt := 0 } hf rfl hfree1
    rw [if_pos hreq, hv] at hw1
    dsimp only at hw1
    rw [addUnix_day, hvt, hseq, hemail, hname] at hw1
    refine ⟨?_, ?_, fun hto hfrom hp he hd => ?_⟩
    · rw [hw1, SendVerificationEmail_verificationTokens]
    · rcases SendVerificationEmail_cases s.emailService env
        { wc with
          verificationTokenSeq := w.verificationTokenSeq + 1,
          verificationTokens := w.verificationTokens ++
            [{ ID := w.verificationTokenSeq + 1, UserID := user1.ID,
               Token := GenerateRandomString env 32, ExpiresAt := env.now + 86400,
               CreatedAt := env.now }] }
        user.Email user.Name (GenerateRandomString env 32) with ⟨e, he⟩ | hsent
      · left
        rw [hw1, he]
        exact hout
      · right
        rw [hw1, hsent]
        dsimp only
        rw [hout]
    · rw [hw1, SendVerificationEmail_ok_of s.emailService env _ user.Email user.Name
        (GenerateRandomString env 32) hto hfrom hp he hd]
      dsimp only
      rw [hout]
  · have hreq1 : ¬ (s.config.EmailVerificationRequired = true) := by
      rw [hreq]
      decide
    rw [if_neg hreq1] at hw1
    rw [hw1]
    exact ⟨hvt, hout⟩

theorem C23_witness :
    (Register sampleLib sampleService (sampleEnv 1000) sampleWorld carolRequest.user).1 = .ok () ∧
    (Register sampleLib sampleService (sampleEnv 1000) sampleWorld
        carolRequest.user).2.2.verificationTokens
      = [{ ID := 1, UserID := 8, Token := "AAECAwQFBgcICQoLDA0ODxAREhMUFRYX",
           ExpiresAt := 87400, CreatedAt := 1000 }] :=
  ⟨rfl,
   ((C23_register_verification_token sampleLib sampleService (sampleEnv 1000) sampleWorld
      (Register sampleLib sampleService (sampleEnv 1000) sampleWorld carolRequest.user).2.2
      carolRequest.user { carolRequest.user with Password := "$2a$10$Str0ng!Pass", ID := 8 }
      rfl rfl).2.2.1 rfl rfl (by decide)).1⟩

/-! ### The forgot-password mail -/

/-- C24: in ForgotPassword for an existing account whose reset token has been stored, an error
of the mail service while sending the reset mail is what ForgotPassword returns to its caller
(the stored token stays). -/
theorem C24_forgot_password_returns_mail_error (s : AuthService) (env : Env) (w w1 w2 : World)
    (email : String) (user : User) (e : Error)
    (hfind : FindUserByEmail env w email = .ok (some user))
    (hcreate : CreatePasswordResetToken env w user.ID (GenerateRandomString env 32)
      (addUnix env.now (24 * Hour)) = (.ok (), w1))
    (hsend : SendPasswordResetEmail s.emailService env w1 user.Email user.Name
      (s.config.AppURL ++ "/reset-password?token=" ++ GenerateRandomString env 32)
        = (.error e, w2)) :
    ForgotPassword s env w email = (.error e, w2) := by
  unfold ForgotPassword
  simp only [hfind, hcreate, hsend]

theorem C24_witness :
    (ForgotPassword sampleService (mailFailsEnv 1500) sampleWorld2 "alice@x.com").1
      = .error (.New "failed to send email: dial tcp: connection refused") :=
  congrArg Prod.fst
    (C24_forgot_password_returns_mail_error sampleService (mailFailsEnv 1500) sampleWorld2
      (CreatePasswordResetToken (mailFailsEnv 1500) sampleWorld2 7
        (GenerateRandomString (mailFailsEnv 1500) 32) (addUnix 1500 (24 * Hour))).2
      (CreatePasswordResetToken (mailFailsEnv 1500) sampleWorld2 7
        (GenerateRandomString (mailFailsEnv 1500) 32) (addUnix 1500 (24 * Hour))).2
      "alice@x.com" alice (.New "failed to send email: dial tcp: connection refused")
      rfl rfl rfl)

/-! ### Claims of the issued tokens -/

/-- C25 (counterexample): the token GenerateToken issues for account 7, which is also the token
Login issues for `alice`, decodes to the two claims `user_id` and `exp`; it has no `iat`
claim and no third claim at all. -/
theorem C25_counterexample :
    GenerateToken sampleLib sampleService (sampleEnv 1999395200) 7 = tokenHS256 ∧
    Login sampleLib sampleService (sampleEnv 1999913600) sampleWorld "alice" "Str0ng!Pass"
      = .ok (alice, tokenHS256) ∧
    (sampleLib.jwt.decode tokenHS256).map (fun p => p.claims)
      = some [("user_id", .num 7), ("exp", .num 2000000000)] ∧
    (sampleLib.jwt.decode tokenHS256).map (fun p => p.claims.lookup "iat") = some none :=
  ⟨by decide, rfl, by decide, by decide⟩

/-- C25 (amended): every session token issued by GenerateToken or by generateJWT (the Login
path) is the HS256 signature, under the `jwtSecret` of the service, of a claim set with exactly
two entries: `user_id`, the account ID, and `exp`, the absolute expiry in Unix seconds (seven
days after the issue for GenerateToken, the configured number of hours for generateJWT). No
issued-at claim is encoded: whenever the library decodes the token it has signed, the keys of
the decoded claims are `user_id` and `exp` and nothing else. -/
theorem C25_issued_claims_are_user_id_and_exp (lib : Lib) (s : AuthService) (env : Env) :
    (∀ userID : Nat,
      GenerateToken lib s env userID = lib.jwt.SignedString .HS256 s.jwtSecret
        [("user_id", .num userID), ("exp", .num (env.now + 604800))]) ∧
    (∀ user : User,
      generateJWT lib s env user = lib.jwt.SignedString .HS256 s.jwtSecret
        [("user_id", .num user.ID),
         ("exp", .num (addUnix env.now (wrapInt64 (Hour * s.config.JWTExpirationHours))))]) ∧
    (∀ userID : Nat,
      lib.jwt.RoundTrip .HS256 s.jwtSecret
        [("user_id", .num userID), ("exp", .num (env.now + 604800))] →
      ∃ p, lib.jwt.decode (GenerateToken lib s env userID) = some p ∧
        p.claims.map Prod.fst = ["user_id", "exp"] ∧ p.claims.lookup "iat" = none) ∧
    (∀ user : User,
      lib.jwt.RoundTrip .HS256 s.jwtSecret
        [("user_id", .num user.ID),
         ("exp", .num (addUnix env.now (wrapInt64 (Hour * s.config.JWTExpirationHours))))] →
      ∃ p, lib.jwt.decode (generateJWT lib s env user) = some p ∧
        p.claims.map Prod.fst = ["user_id", "exp"] ∧ p.claims.lookup "iat" = none) := by
  have hg : ∀ userID : Nat,
      GenerateToken lib s env userID = lib.jwt.SignedString .HS256 s.jwtSecret
        [("user_id", .num userID), ("exp", .num (env.now + 604800))] := by
    intro userID
    unfold GenerateToken
    rw [addUnix_week]
  refine ⟨hg, fun user => rfl, fun userID hrt => ?_, fun user hrt => ?_⟩
  · obtain ⟨ss, sig, hd, -⟩ := hrt
    rw [hg]
    exact ⟨_, hd, rfl, by simp [List.lookup]⟩
  · obtain ⟨ss, sig, hd, -⟩ := hrt
    exact ⟨_, hd, rfl, by simp [List.lookup]⟩

theorem C25_witness :
    ∃ p, sampleLib.jwt.decode (GenerateToken sampleLib sampleService (sampleEnv 1999395200) 7)
        = some p ∧
      p.claims.map Prod.fst = ["user_id", "exp"] ∧ p.claims.lookup "iat" = none :=
  (C25_issued_claims_are_user_id_and_exp sampleLib sampleService (sampleEnv 1999395200)).2.2.1 7
    ⟨signingHS256, macHS256, by decide, by decide⟩

/-! ### Random strings -/

theorem encodeURLChar_mem (n : Nat) : encodeURLChar n ∈ encodeURL := by
  unfold encodeURLChar
  have hlen : encodeURL.length = 64 := by decide
  have h : n % 64 < encodeURL.length := by
    rw [hlen]
    exact Nat.mod_lt _ (by decide)
  rw [List.getD_eq_getElem _ _ h]
  exact List.getElem_mem _

/-- The encoding is at least as long as its input. -/
theorem EncodeToString_length (l : List Nat) : l.length ≤ (EncodeToString l).length := by
  induction l using EncodeToString.induct with
  | case1 => simp [EncodeToString]
  | case2 a => simp [EncodeToString]
  | case3 a b => simp [EncodeToString]
  | case4 a b c rest ih =>
    simp only [EncodeToString, List.length_cons]
    omega

/-- The padding sits behind the first `l.length` characters of the encoding: every character
before that position is a character of the alphabet. -/
theorem EncodeToString_take (l : List Nat) :
    ∀ k, k ≤ l.length → ∀ c ∈ (EncodeToString l).take k, c ∈ encodeURL := by
  induction l using EncodeToString.induct with
  | case1 =>
    intro k hk c hc
    simp [EncodeToString] at hc
  | case2 a =>
    intro k hk c hc
    simp only [List.length_cons, List.length_nil] at hk
    obtain _ | k := k
    · simp at hc
    · obtain rfl : k = 0 := by omega
      simp only [EncodeToString, List.take_succ_cons, List.take_zero, List.mem_singleton] at hc
      rw [hc]
      exact encodeURLChar_mem _
  | case3 a b =>
    intro k hk c hc
    simp only [List.length_cons, List.length_nil] at hk
    obtain _ | _ | k := k
    · simp at hc
    · simp only [EncodeToString, List.take_succ_cons, List.take_zero, List.mem_singleton] at hc
      rw [hc]
      exact encodeURLChar_mem _
    · obtain rfl : k = 0 := by omega
      simp only [EncodeToString, List.take_succ_cons, List.take_zero, List.mem_cons,
        List.mem_singleton, List.not_mem_nil, or_false] at hc
      rcases hc with rfl | rfl <;> exact encodeURLChar_mem _
  | case4 a b c0 rest ih =>
    intro k hk c hc
    simp only [List.length_cons] at hk
    obtain _ | _ | _ | _ | k := k
    · simp at hc
    · simp only [EncodeToString, List.take_succ_cons, List.take_zero, List.mem_singleton] at hc
      rw [hc]
      exact encodeURLChar_mem _
    · simp only [EncodeToString, List.take_succ_cons, List.take_zero, List.mem_cons,
        List.mem_singleton, List.not_mem_nil, or_false] at hc
      rcases hc with rfl | rfl <;> exact encodeURLChar_mem _
    · simp only [EncodeToString, List.take_succ_cons, List.take_zero, List.mem_cons,
        List.mem_singleton, List.not_mem_nil, or_false] at hc
      rcases hc with rfl | rfl | rfl <;> exact encodeURLChar_mem _
    · simp only [EncodeToString, List.take_succ_cons, List.mem_cons] at hc
      rcases hc with rfl | rfl | rfl | rfl | hc
      · exact encodeURLChar_mem _
      · exact encodeURLChar_mem _
      · exact encodeURLChar_mem _
      · exact encodeURLChar_mem _
      · exact ih k (by omega) c hc

theorem randRead_length (env : Env) (n : Nat) : (randRead env n).length = n := by
  unfold randRead
  simp

/-- C26: for every length `n`, GenerateRandomString returns exactly `n` characters, each of
them in the class `[A-Za-z0-9_-]`, whatever bytes the random source delivers; the padding
character `=` is not among them. -/
theorem C26_random_string_shape (env : Env) (n : Nat) :
    (GenerateRandomString env n).length = n ∧
    (∀ c ∈ (GenerateRandomString env n).data, isURLSafe c = true) ∧
    '=' ∉ (GenerateRandomString env n).data := by
  have hsafe : ∀ c ∈ encodeURL, isURLSafe c = true := by decide
  have hall : ∀ c ∈ (GenerateRandomString env n).data, isURLSafe c = true := by
    intro c hc
    unfold GenerateRandomString at hc
    exact hsafe c (EncodeToString_take (randRead env n) n (by rw [randRead_length]) c hc)
  refine ⟨?_, hall, fun hmem => ?_⟩
  · unfold GenerateRandomString
    have h := EncodeToString_length (randRead env n)
    rw [randRead_length] at h
    simp only [String.length, List.length_take]
    omega
  · have h := hall '=' hmem
    revert h
    decide

theorem C26_witness :
    (GenerateRandomString (sampleEnv 0) 32).length = 32 ∧
    'A' ∈ (GenerateRandomString (sampleEnv 0) 32).data ∧ isURLSafe 'A' = true :=
  ⟨(C26_random_string_shape (sampleEnv 0) 32).1, by decide,
   (C26_random_string_shape (sampleEnv 0) 32).2.1 'A' (by decide)⟩

/-! ### Tokens with a missing claim -/

/-- A correctly signed, unexpired token whose claims hold no number under `user_id` makes
VerifyToken panic, whatever the library and the secret are. -/
theorem VerifyToken_panics_without_user_id (lib : Lib) (s : AuthService) (env : Env)
    (tokenString alg : String) (p : Parts) (m : SigningMethodHMAC)
    (hd : lib.jwt.decode tokenString = some p) (halg : p.alg = some alg)
    (hm : GetSigningMethod alg = some (.HMAC m))
    (hv : lib.jwt.verify m s.jwtSecret p.signingString p.signature = true)
    (hvalid : p.claims.Valid env.now = none)
    (hu : assertFloat64 p.claims "user_id" = none) :
    VerifyToken lib s env tokenString
      = .panic "interface conversion: interface \x7b\x7d is not float64" := by
  unfold VerifyToken Parse
  simp only [hd, halg, hm, keyFunc, SigningMethod.Verify, hv, hvalid, if_true, hu]

/-- C27: VerifyToken is not total. On the token signed with the service's secret whose payload
is `exp = 2000000000` without `user_id`, presented before that time, VerifyToken aborts with
the panic of the unchecked conversion instead of returning an invalid-token error; Logout
aborts on the same token, and on the signed token that carries `user_id` but no `exp`; the
authorization middleware aborts on the token without `user_id`. -/
theorem C27_missing_claim_panics :
    VerifyToken sampleLib2 sampleService (sampleEnv 1000) tokenNoUserID
      = .panic "interface conversion: interface \x7b\x7d is not float64" ∧
    Logout sampleLib2 sampleService (sampleEnv 1000) sampleWorld tokenNoUserID
      = (.panic "interface conversion: interface \x7b\x7d is not float64", sampleWorld) ∧
    VerifyToken sampleLib2 sampleService (sampleEnv 1000) tokenNoExp = .ok 7 ∧
    Logout sampleLib2 sampleService (sampleEnv 1000) sampleWorld tokenNoExp
      = (.panic "interface conversion: interface \x7b\x7d is not float64", sampleWorld) ∧
    AuthMiddleware sampleLib2 "s3cret" (sampleEnv 1000) sampleWorld ("Bearer " ++ tokenNoUserID)
        Context.fresh
      = .panic "interface conversion: interface \x7b\x7d is not float64" :=
  ⟨rfl, rfl, rfl, rfl, rfl⟩

/-! ### The two secrets of the service -/

/-- Outside the wiring of `main`: a service given `s3cret` as its `jwtSecret` argument and
`other` in its configuration issues the sample token and VerifyToken accepts it, but Logout
refuses it and blacklists nothing, while Logout accepts the token signed with `other`. -/
theorem Logout_with_other_secret :
    GenerateToken sampleLib2 splitSecretService (sampleEnv 1999395200) 7 = tokenHS256 ∧
    Login sampleLib2 splitSecretService (sampleEnv 1999913600) sampleWorld "alice" "Str0ng!Pass"
      = .ok (alice, tokenHS256) ∧
    VerifyToken sampleLib2 splitSecretService (sampleEnv 1999999999) tokenHS256 = .ok 7 ∧
    Logout sampleLib2 splitSecretService (sampleEnv 1999999999) sampleWorld tokenHS256
      = (.err (.New "invalid token"), sampleWorld) ∧
    VerifyToken sampleLib2 splitSecretService (sampleEnv 1999999999) tokenOtherKey
      = .err (.Validation { SignatureInvalid := true }) ∧
    (Logout sampleLib2 splitSecretService (sampleEnv 1999999999) sampleWorld tokenOtherKey).1
      = .ok () ∧
    (Logout sampleLib2 splitSecretService (sampleEnv 1999999999) sampleWorld
        tokenOtherKey).2.blacklistedTokens.map (fun b => b.Token) = [tokenOtherKey] :=
  ⟨by decide, rfl, rfl, rfl, rfl, rfl, by decide⟩

/-! ### Validators -/

/-- What the password validator accepts: at least eight bytes and three of the four kinds of
character. -/
theorem strongpassword_eq_true_iff (u : Unicode) (password : String) :
    strongpassword u password = true ↔
      8 ≤ password.utf8ByteSize ∧
      ∃ f, f = password.data.foldl (passwordStep u)
          { hasUpper := false, hasLower := false, hasNumber := false, hasSpecial := false } ∧
        ((f.hasUpper = true ∧ f.hasLower = true ∧ f.hasNumber = true) ∨
         (f.hasUpper = true ∧ f.hasLower = true ∧ f.hasSpecial = true) ∨
         (f.hasUpper = true ∧ f.hasNumber = true ∧ f.hasSpecial = true) ∨
         (f.hasLower = true ∧ f.hasNumber = true ∧ f.hasSpecial = true)) := by
  unfold strongpassword
  split_ifs with h
  · constructor
    · intro hc
      cases hc
    · rintro ⟨h8, -⟩
      omega
  · simp only [Bool.or_eq_true, Bool.and_eq_true, exists_eq_left]
    constructor
    · intro hc
      refine ⟨by omega, ?_⟩
      tauto
    · rintro ⟨-, hc⟩
      tauto

/-- C29: the password validator accepts `Abcdefg!`, which contains no number, and `abcdef1!`,
which contains no uppercase letter; it also accepts `Aa1€€`, which is five characters long
(nine bytes). Each of them breaks the rule stated by the validator's own message (at least 8
characters, one uppercase letter, one lowercase letter and one number). -/
theorem C29_strongpassword_breaks_its_message :
    strongpassword asciiUnicode "Abcdefg!" = true ∧
    "Abcdefg!".data.any asciiUnicode.IsNumber = false ∧
    strongpassword asciiUnicode "abcdef1!" = true ∧
    "abcdef1!".data.any asciiUnicode.IsUpper = false ∧
    strongpassword asciiUnicode "Aa1€€" = true ∧
    "Aa1€€".length = 5 :=
  ⟨by decide, by decide, by decide, by decide, by decide, rfl⟩

/-- Every field the phone validator accepts is a prefix `+84` or `0`, one character of the
class, and eight or nine digits. -/
theorem phone_eq_true_inv (field : String) (h : phone field = true) :
    ∃ c rest, (field.data = '+' :: '8' :: '4' :: c :: rest ∨ field.data = '0' :: c :: rest) ∧
      c ∈ phoneClass ∧ (rest.length = 8 ∨ rest.length = 9) ∧
      ∀ d ∈ rest, '0' ≤ d ∧ d ≤ '9' := by
  have hbody : ∀ cs, phoneBody cs = true →
      ∃ c rest, cs = c :: rest ∧ c ∈ phoneClass ∧ (rest.length = 8 ∨ rest.length = 9) ∧
        ∀ d ∈ rest, '0' ≤ d ∧ d ≤ '9' := by
    intro cs hcs
    cases cs with
    | nil => simp [phoneBody] at hcs
    | cons c rest =>
      simp only [phoneBody, phoneDigits, Bool.and_eq_true, Bool.or_eq_true, beq_iff_eq,
        List.all_eq_true, decide_eq_true_eq] at hcs
      exact ⟨c, rest, rfl, by simpa using hcs.1, hcs.2.1, hcs.2.2⟩
  unfold phone at h
  split at h
  · next rest heq =>
    obtain ⟨c, r, rfl, hc, hl, hd⟩ := hbody rest h
    exact ⟨c, r, Or.inl heq, hc, hl, hd⟩
  · next rest heq =>
    obtain ⟨c, r, rfl, hc, hl, hd⟩ := hbody rest h
    exact ⟨c, r, Or.inr heq, hc, hl, hd⟩
  · cases h

/-- C30: the phone validator accepts `0|12345678` and `+84|123456789`, which contain the
character `|`: the bar written between the digits of the bracket expression belongs to the
class. A string of the documented shape such as `0912345678` is accepted too, and a second
character outside the class (`0112345678`) is refused. -/
theorem C30_phone_accepts_bar :
    phone "0|12345678" = true ∧ '|' ∈ "0|12345678".data ∧
    phone "+84|123456789" = true ∧
    phone "0912345678" = true ∧ phone "0112345678" = false :=
  ⟨by decide, by decide, by decide, by decide, by decide⟩

/-! ### The secret of Logout in the service as wired -/

/-- A service built as in `main` carries the same secret in both places. -/
theorem mainAuthService_secret (cfg : AppConfig) (emailService : EmailConfig) :
    (mainAuthService cfg emailService).jwtSecret
      = (mainAuthService cfg emailService).config.JWTSecret := rfl

/-- Everything an accepting VerifyToken tells about the token. -/
theorem VerifyToken_ok_inv (lib : Lib) (s : AuthService) (env : Env) (t : String) (a : Nat)
    (h : VerifyToken lib s env t = .ok a) :
    ∃ p m uid, lib.jwt.decode t = some p ∧ p.alg = some (SigningMethodHMAC.Alg m) ∧
      lib.jwt.verify m s.jwtSecret p.signingString p.signature = true ∧
      p.claims.Valid env.now = none ∧
      p.claims.lookup "user_id" = some (.num uid) ∧ a = toUint uid := by
  unfold VerifyToken at h
  cases hP : Parse lib.jwt env.now t (keyFunc s.jwtSecret) with
  | error e =>
    rw [hP] at h
    cases h
  | ok tok =>
    rw [hP] at h
    obtain ⟨p, m, hd, halg, hv, hvalid, rfl⟩ := Parse_ok_inv lib.jwt env.now t s.jwtSecret tok hP
    simp only [if_true] at h
    cases hu : assertFloat64 p.claims "user_id" with
    | none =>
      rw [hu] at h
      cases h
    | some uid =>
      rw [hu] at h
      simp only [Result.ok.injEq] at h
      exact ⟨p, m, uid, hd, halg, hv, hvalid, (assertFloat64_eq_some _ _ _).1 hu, h.symm⟩

/-- A rejecting VerifyToken means that the token did not parse under the `jwtSecret`. -/
theorem VerifyToken_err_inv (lib : Lib) (s : AuthService) (env : Env) (t : String) (e : Error)
    (h : VerifyToken lib s env t = .err e) :
    ∃ err, Parse lib.jwt env.now t (keyFunc s.jwtSecret) = .error err := by
  unfold VerifyToken at h
  cases hP : Parse lib.jwt env.now t (keyFunc s.jwtSecret) with
  | error err => exact ⟨err, rfl⟩
  | ok tok =>
    rw [hP] at h
    obtain ⟨p, m, hd, halg, hv, hvalid, rfl⟩ := Parse_ok_inv lib.jwt env.now t s.jwtSecret tok hP
    simp only [if_true] at h
    cases hu : assertFloat64 p.claims "user_id" with
    | none =>
      rw [hu] at h
      cases h
    | some uid =>
      rw [hu] at h
      cases h

/-- Logout of a token that parses under the secret of the configuration and holds numbers
under `user_id` and `exp` is the insert into the blacklist. -/
theorem Logout_of_decoded (lib : Lib) (s : AuthService) (env : Env) (w : World) (t : String)
    (p : Parts) (m : SigningMethodHMAC) (uid e : Int)
    (hd : lib.jwt.decode t = some p) (halg : p.alg = some (SigningMethodHMAC.Alg m))
    (hv : lib.jwt.verify m s.config.JWTSecret p.signingString p.signature = true)
    (hvalid : p.claims.Valid env.now = none)
    (hu : p.claims.lookup "user_id" = some (.num uid))
    (he : p.claims.lookup "exp" = some (.num e)) :
    Logout lib s env w t =
      match AddToBlacklist env w t (toUint uid) e with
      | (.error err, w1) => (.err err, w1)
      | (.ok _, w1) => (.ok (), w1) := by
  have hu1 := (assertFloat64_eq_some p.claims "user_id" uid).2 hu
  have he1 := (assertFloat64_eq_some p.claims "exp" e).2 he
  unfold Logout
  rw [Parse_ok_of lib.jwt env.now t s.config.JWTSecret p m hd halg hv hvalid]
  simp only [if_true, hu1, he1]

/-- With the same secret in both places, a token that VerifyToken accepts and that holds a
number under `exp` is blacklisted by Logout whenever the insert is not refused. -/
theorem Logout_of_VerifyToken_ok (lib : Lib) (s : AuthService) (env : Env) (w : World)
    (t : String) (a : Nat) (p : Parts) (e : Int)
    (hwire : s.jwtSecret = s.config.JWTSecret)
    (hver : VerifyToken lib s env t = .ok a)
    (hd : lib.jwt.decode t = some p) (he : p.claims.lookup "exp" = some (.num e))
    (hf : env.fault .AddToBlacklist = none)
    (hfree : ∀ b ∈ w.blacklistedTokens, b.ID ≠ w.blacklistedTokenSeq + 1 ∧ b.Token ≠ t) :
    Logout lib s env w t = (.ok (), { w with
      blacklistedTokenSeq := w.blacklistedTokenSeq + 1
      blacklistedTokens := w.blacklistedTokens ++
        [{ ID := w.blacklistedTokenSeq + 1, Token := t, UserID := a, ExpiresAt := e,
           CreatedAt := env.now }] }) := by
  obtain ⟨p1, m, uid, hd1, halg, hv, hvalid, hu, ha⟩ := VerifyToken_ok_inv lib s env t a hver
  rw [hd] at hd1
  cases hd1
  rw [hwire] at hv
  rw [Logout_of_decoded lib s env w t p m uid e hd halg hv hvalid hu he,
    AddToBlacklist_ok_of env w t (toUint uid) e hf hfree, ha]

/-- A correctly signed session token is accepted by VerifyToken before its expiry. -/
theorem VerifyToken_session_unexpired (lib : Lib) (s : AuthService) (env : Env) (t : String)
    (a : Nat) (e : Int) (hs : SignedSession lib.jwt s.jwtSecret t a e) (ha : a < 2 ^ 64)
    (hlt : env.now < e) : VerifyToken lib s env t = .ok a := by
  obtain ⟨ss, sig, hd, hv⟩ := hs
  have hc : MapClaims.Valid [("user_id", .num a), ("exp", .num e)] env.now = none := by
    rw [session_claims_Valid]; simp [hlt]
  have hp := Parse_ok_of lib.jwt env.now t s.jwtSecret _ .HS256 hd rfl hv hc
  have hu : assertFloat64 [("user_id", JVal.num a), ("exp", JVal.num e)] "user_id"
      = some (a : Int) := by
    rw [assertFloat64_eq_some]; simp [List.lookup]
  unfold VerifyToken
  rw [hp]
  simp only [if_true, hu, toUint_natCast a ha]

/-- With the same secret in both places, an unexpired session token of the shape the service
issues is accepted by VerifyToken and blacklisted by Logout whenever the insert is not
refused. -/
theorem Logout_of_issued (lib : Lib) (s : AuthService) (env : Env) (w : World) (t : String)
    (a : Nat) (e : Int) (hwire : s.jwtSecret = s.config.JWTSecret)
    (hs : SignedSession lib.jwt s.jwtSecret t a e) (ha : a < 2 ^ 64) (hlt : env.now < e) :
    VerifyToken lib s env t = .ok a ∧
    (env.fault .AddToBlacklist = none →
      (∀ b ∈ w.blacklistedTokens, b.ID ≠ w.blacklistedTokenSeq + 1 ∧ b.Token ≠ t) →
      Logout lib s env w t = (.ok (), { w with
        blacklistedTokenSeq := w.blacklistedTokenSeq + 1
        blacklistedTokens := w.blacklistedTokens ++
          [{ ID := w.blacklistedTokenSeq + 1, Token := t, UserID := a, ExpiresAt := e,
             CreatedAt := env.now }] })) := by
  have hver := VerifyToken_session_unexpired lib s env t a e hs ha hlt
  refine ⟨hver, fun hf hfree => ?_⟩
  obtain ⟨ss, sig, hd, -⟩ := hs
  exact Logout_of_VerifyToken_ok lib s env w t a _ e hwire hver hd (by simp [List.lookup]) hf hfree

/-- C28: for every auth service that carries the same secret as its `jwtSecret` and inside its
configuration, which is how `main`, the only caller of NewAuthService, builds it, Logout
verifies tokens exactly as VerifyToken does. Every token VerifyToken accepts (with a number
under `exp`, as all issued tokens have) is accepted by Logout and blacklisted under its raw
string whenever the insert is not refused; this holds in particular for every unexpired token
returned by GenerateToken or by Login, which VerifyToken accepts; conversely every token
Logout accepts is accepted by VerifyToken, and every token VerifyToken rejects with an error is
rejected by Logout as invalid, leaving the state unchanged. -/
theorem C28_logout_accepts_what_the_service_verifies (lib : Lib) (s : AuthService)
    (env : Env) (w : World) (hwire : s.jwtSecret = s.config.JWTSecret) :
    (∀ t, Parse lib.jwt env.now t (keyFunc s.config.JWTSecret)
      = Parse lib.jwt env.now t (keyFunc s.jwtSecret)) ∧
    (∀ (t : String) (a : Nat) (p : Parts) (e : Int),
      VerifyToken lib s env t = .ok a → lib.jwt.decode t = some p →
      p.claims.lookup "exp" = some (.num e) →
      env.fault .AddToBlacklist = none →
      (∀ b ∈ w.blacklistedTokens, b.ID ≠ w.blacklistedTokenSeq + 1 ∧ b.Token ≠ t) →
      ∃ w1, Logout lib s env w t = (.ok (), w1) ∧
        w1.blacklistedTokens = w.blacklistedTokens ++
          [{ ID := w.blacklistedTokenSeq + 1, Token := t, UserID := a, ExpiresAt := e,
             CreatedAt := env.now }] ∧
        ∀ env2 : Env, env2.fault .IsBlacklisted = none → IsBlacklisted env2 w1 t = .ok true) ∧
    (∀ (env0 : Env) (a : Nat), a < 2 ^ 64 →
      lib.jwt.RoundTrip .HS256 s.jwtSecret
        [("user_id", .num a), ("exp", .num (env0.now + 604800))] →
      env.now < env0.now + 604800 →
      VerifyToken lib s env (GenerateToken lib s env0 a) = .ok a ∧
      (env.fault .AddToBlacklist = none →
        (∀ b ∈ w.blacklistedTokens,
          b.ID ≠ w.blacklistedTokenSeq + 1 ∧ b.Token ≠ GenerateToken lib s env0 a) →
        ∃ w1, Logout lib s env w (GenerateToken lib s env0 a) = (.ok (), w1) ∧
          w1.blacklistedTokens = w.blacklistedTokens ++
            [{ ID := w.blacklistedTokenSeq + 1, Token := GenerateToken lib s env0 a,
               UserID := a, ExpiresAt := env0.now + 604800, CreatedAt := env.now }])) ∧
    (∀ (env0 : Env) (w0 : World) (username password : String) (user : User) (tok : String),
      Login lib s env0 w0 username password = .ok (user, tok) →
      user.ID < 2 ^ 64 →
      -2562047 ≤ s.config.JWTExpirationHours → s.config.JWTExpirationHours ≤ 2562047 →
      lib.jwt.RoundTrip .HS256 s.jwtSecret
        [("user_id", .num user.ID),
         ("exp", .num (env0.now + 3600 * s.config.JWTExpirationHours))] →
      env.now < env0.now + 3600 * s.config.JWTExpirationHours →
      VerifyToken lib s env tok = .ok user.ID ∧
      (env.fault .AddToBlacklist = none →
        (∀ b ∈ w.blacklistedTokens, b.ID ≠ w.blacklistedTokenSeq + 1 ∧ b.Token ≠ tok) →
        ∃ w1, Logout lib s env w tok = (.ok (), w1) ∧
          w1.blacklistedTokens = w.blacklistedTokens ++
            [{ ID := w.blacklistedTokenSeq + 1, Token := tok, UserID := user.ID,
               ExpiresAt := env0.now + 3600 * s.config.JWTExpirationHours,
               CreatedAt := env.now }])) ∧
    (∀ (t : String) (w1 : World), Logout lib s env w t = (.ok (), w1) →
      ∃ a, VerifyToken lib s env t = .ok a) ∧
    (∀ (t : String) (e : Error), VerifyToken lib s env t = .err e →
      Logout lib s env w t = (.err (.New "invalid token"), w)) := by
  refine ⟨fun t => by rw [hwire], ?_, ?_, ?_, ?_, ?_⟩
  · intro t a p e hver hd he hf hfree
    refine ⟨_, Logout_of_VerifyToken_ok lib s env w t a p e hwire hver hd he hf hfree, rfl, ?_⟩
    intro env2 hf2
    exact IsBlacklisted_of_mem env2 _ t hf2
      ⟨_, List.mem_append_right _ (List.mem_singleton.mpr rfl), rfl⟩
  · intro env0 a ha hrt hlt
    have htok : GenerateToken lib s env0 a = lib.jwt.SignedString .HS256 s.jwtSecret
        [("user_id", .num a), ("exp", .num (env0.now + 604800))] := by
      unfold GenerateToken
      rw [addUnix_week]
    obtain ⟨hver, hout⟩ := Logout_of_issued lib s env w _ a _ hwire
      (SignedSession_of_RoundTrip _ _ _ _ hrt) ha hlt
    rw [htok]
    exact ⟨hver, fun hf hfree => ⟨_, hout hf hfree, rfl⟩⟩
  · intro env0 w0 username password user tok hok hid hlo hhi hrt hlt
    obtain ⟨-, -, rfl⟩ := Login_ok_inv lib s env0 w0 username password user tok hok
    have htok : generateJWT lib s env0 user = lib.jwt.SignedString .HS256 s.jwtSecret
        [("user_id", .num user.ID),
         ("exp", .num (env0.now + 3600 * s.config.JWTExpirationHours))] := by
      unfold generateJWT
      rw [addUnix_hours _ _ hlo hhi]
    obtain ⟨hver, hout⟩ := Logout_of_issued lib s env w _ user.ID _ hwire
      (SignedSession_of_RoundTrip _ _ _ _ hrt) hid hlt
    rw [htok]
    exact ⟨hver, fun hf hfree => ⟨_, hout hf hfree, rfl⟩⟩
  · intro t w1 hok
    obtain ⟨p, m, uid, e, hd, halg, hv, hvalid, hu, -, -⟩ := Logout_ok_inv lib s env w w1 t hok
    rw [← hwire] at hv
    have hu1 := (assertFloat64_eq_some p.claims "user_id" uid).2 hu
    refine ⟨toUint uid, ?_⟩
    unfold VerifyToken
    rw [Parse_ok_of lib.jwt env.now t s.jwtSecret p m hd halg hv hvalid]
    simp only [if_true, hu1]
  · intro t e herr
    obtain ⟨err, hP⟩ := VerifyToken_err_inv lib s env t e herr
    rw [hwire] at hP
    exact Logout_of_Parse_error lib s env w t err hP

/-- The service as `main` builds it with the secret `s3cret`: the token it issues for account 7
is accepted by VerifyToken and blacklisted by Logout. -/
theorem C28_witness :
    (mainAuthService ⟨"s3cret", 24, true⟩ sampleEmailConfig).jwtSecret
      = (mainAuthService ⟨"s3cret", 24, true⟩ sampleEmailConfig).config.JWTSecret ∧
    VerifyToken sampleLib (mainAuthService ⟨"s3cret", 24, true⟩ sampleEmailConfig)
        (sampleEnv 1999999999)
        (GenerateToken sampleLib (mainAuthService ⟨"s3cret", 24, true⟩ sampleEmailConfig)
          (sampleEnv 1999395200) 7) = .ok 7 ∧
    (Logout sampleLib (mainAuthService ⟨"s3cret", 24, true⟩ sampleEmailConfig)
        (sampleEnv 1999999999) sampleWorld tokenHS256).2.blacklistedTokens
      = [{ ID := 1, Token := tokenHS256, UserID := 7, ExpiresAt := 2000000000,
           CreatedAt := 1999999999 }] ∧
    ∃ w1, Logout sampleLib (mainAuthService ⟨"s3cret", 24, true⟩ sampleEmailConfig)
        (sampleEnv 1999999999) sampleWorld
        (GenerateToken sampleLib (mainAuthService ⟨"s3cret", 24, true⟩ sampleEmailConfig)
          (sampleEnv 1999395200) 7) = (.ok (), w1) ∧
      w1.blacklistedTokens = sampleWorld.blacklistedTokens ++
        [{ ID := sampleWorld.blacklistedTokenSeq + 1,
           Token := GenerateToken sampleLib
             (mainAuthService ⟨"s3cret", 24, true⟩ sampleEmailConfig) (sampleEnv 1999395200) 7,
           UserID := 7, ExpiresAt := (sampleEnv 1999395200).now + 604800,
           CreatedAt := (sampleEnv 1999999999).now }] :=
  ⟨rfl,
   ((C28_logout_accepts_what_the_service_verifies sampleLib
      (mainAuthService ⟨"s3cret", 24, true⟩ sampleEmailConfig) (sampleEnv 1999999999)
      sampleWorld rfl).2.2.1 (sampleEnv 1999395200) 7 (by decide)
      ⟨signingHS256, macHS256, by decide, by decide⟩ (by decide)).1,
   by decide,
   ((C28_logout_accepts_what_the_service_verifies sampleLib
      (mainAuthService ⟨"s3cret", 24, true⟩ sampleEmailConfig) (sampleEnv 1999999999)
      sampleWorld rfl).2.2.1 (sampleEnv 1999395200) 7 (by decide)
      ⟨signingHS256, macHS256, by decide, by decide⟩ (by decide)).2 rfl (by decide)⟩

end Auth
